import Mathlib

/-!
Verification of the session-record normalizer in `src/models.py`
(`Session.prepare_for_insert`, the two `Session.normalize_for_api`
definitions, `Session.fill_missing_fields_with_gemini` and
`Session.fill_metric_feedback_with_gemini`).

Python values are shallowly embedded as the `Value` type below; Python
semantics (truthiness, `or`, `int()` / `float()` coercion, `dict.get`,
`dict.setdefault`, iteration, `len`) are given as explicit functions, and
code that may raise is modelled in `Except String`.
-/

namespace MentorScoring

/-- A Python value as it appears in the session-normalization code:
JSON scalars and containers plus the two bson-specific objects the code
constructs (`datetime`, `ObjectId`).  Python `dict`s are insertion-ordered,
hence association lists.  Python floats are idealized as rationals (the
code only passes floats through `float()`; it performs no float
arithmetic, so no rounding behaviour is observable). -/
inductive Value where
  | vNone
  | vBool (b : Bool)
  | vInt (n : Int)
  | vFloat (q : Rat)
  | vStr (s : String)
  | vList (xs : List Value)
  | vDict (es : List (String × Value))
  | vDateTime (ms : Int)
  | vObjectId (s : String)

instance : Inhabited Value := ⟨Value.vNone⟩

mutual

def Value.decEq (a b : Value) : Decidable (a = b) := by
  cases a <;> cases b <;>
    try { apply isFalse ; intro h ; injection h }
  case vNone.vNone => exact isTrue rfl
  case vBool.vBool x y | vInt.vInt x y | vFloat.vFloat x y | vStr.vStr x y
    | vDateTime.vDateTime x y | vObjectId.vObjectId x y =>
    exact if h : x = y then isTrue (by rw [h])
      else isFalse (by intro hc; injection hc; contradiction)
  case vList.vList xs ys =>
    exact match Value.decEqList xs ys with
    | isTrue h => isTrue (by rw [h])
    | isFalse h => isFalse (by intro hc; injection hc; contradiction)
  case vDict.vDict xs ys =>
    exact match Value.decEqPairs xs ys with
    | isTrue h => isTrue (by rw [h])
    | isFalse h => isFalse (by intro hc; injection hc; contradiction)

def Value.decEqList (xs ys : List Value) : Decidable (xs = ys) :=
  match xs, ys with
  | [], [] => isTrue rfl
  | _ :: _, [] | [], _ :: _ => isFalse (by intro h; cases h)
  | x :: xs, y :: ys =>
    match Value.decEq x y, Value.decEqList xs ys with
    | isTrue h1, isTrue h2 => isTrue (by rw [h1, h2])
    | isFalse h1, _ => isFalse (by intro hc; injection hc; contradiction)
    | _, isFalse h2 => isFalse (by intro hc; injection hc; contradiction)

def Value.decEqPairs (xs ys : List (String × Value)) : Decidable (xs = ys) :=
  match xs, ys with
  | [], [] => isTrue rfl
  | _ :: _, [] | [], _ :: _ => isFalse (by intro h; cases h)
  | (k1, v1) :: xs, (k2, v2) :: ys =>
    if h1 : k1 = k2 then
      match Value.decEq v1 v2, Value.decEqPairs xs ys with
      | isTrue h2, isTrue h3 => isTrue (by rw [h1, h2, h3])
      | isFalse h2, _ =>
          isFalse (by intro hc; injection hc with hp _; injection hp; contradiction)
      | _, isFalse h3 =>
          isFalse (by intro hc; injection hc; contradiction)
    else
      isFalse (by intro hc; injection hc with hp _; injection hp; contradiction)

end

instance : DecidableEq Value := Value.decEq

namespace Value

/-- Python truthiness (`bool(v)`). -/
def truthy : Value → Bool
  | vNone => false
  | vBool b => b
  | vInt n => n ≠ 0
  | vFloat q => q ≠ 0
  | vStr s => s ≠ ""
  | vList xs => ¬xs.isEmpty
  | vDict es => ¬es.isEmpty
  | vDateTime _ => true
  | vObjectId _ => true

/-- Python `a or b`. -/
def pyOr (a b : Value) : Value := if a.truthy then a else b

/-- First binding of a key in an association list (Python dict lookup). -/
def dictGet? : List (String × Value) → String → Option Value
  | [], _ => none
  | (k, v) :: es, key => if k = key then some v else dictGet? es key

/-- Python `d.get(key)` (returns `None` when absent). -/
def dictGetV (es : List (String × Value)) (key : String) : Value :=
  (dictGet? es key).getD vNone

/-- Python `d.get(key, default)`. -/
def dictGetD (es : List (String × Value)) (key : String) (d : Value) : Value :=
  (dictGet? es key).getD d

/-- Python `key in d`. -/
def dictHas (es : List (String × Value)) (key : String) : Bool :=
  (dictGet? es key).isSome

/-- Python `d[key] = v`: replace the first binding in place, else append. -/
def dictSet : List (String × Value) → String → Value → List (String × Value)
  | [], key, v => [(key, v)]
  | (k, w) :: es, key, v =>
      if k = key then (k, v) :: es else (k, w) :: dictSet es key v

/-- Python `d.setdefault(key, v)`. -/
def dictSetdefault (es : List (String × Value)) (key : String) (v : Value) :
    List (String × Value) :=
  if dictHas es key then es else es ++ [(key, v)]

/-- Parse a non-empty all-digit character list. -/
def parseDigits? (cs : List Char) : Option Nat :=
  if cs.isEmpty then none
  else if cs.all Char.isDigit then
    some (cs.foldl (fun a c => a * 10 + (c.toNat - 48)) 0)
  else none

/-- `int(s)` on a string: an optional sign followed by decimal digits
(the forms the repository's data actually uses; exotic spellings such as
underscores or surrounding whitespace are outside the model). -/
def parseInt? (s : String) : Option Int :=
  match s.toList with
  | '-' :: rest => (parseDigits? rest).map (fun n => -(n : Int))
  | '+' :: rest => (parseDigits? rest).map (fun n => (n : Int))
  | cs => (parseDigits? cs).map (fun n => (n : Int))

/-- Digits of an optional fractional part: `""`, or all digits. -/
def parseFracDigits? (cs : List Char) : Option (Nat × Nat) :=
  if cs.all Char.isDigit then
    some (cs.foldl (fun a c => a * 10 + (c.toNat - 48)) 0, cs.length)
  else none

/-- `float(s)` on a string: `[sign] digits [. digits]` or `[sign] . digits`
(the decimal forms the repository's data uses; exponents and the special
words `inf`/`nan` are outside the model). -/
def parseFloat? (s : String) : Option Rat := do
  let (sign, cs) :=
    match s.toList with
    | '-' :: rest => ((-1 : Int), rest)
    | '+' :: rest => ((1 : Int), rest)
    | cs => ((1 : Int), cs)
  let (intPart, fracPart) :=
    match cs.splitOn '.' with
    | [a] => (a, some ([] : List Char))
    | [a, b] => (a, some b)
    | _ => (cs, none)
  match fracPart with
  | none => none
  | some frac =>
    if intPart.isEmpty ∧ frac.isEmpty then none
    else if intPart.all Char.isDigit ∧ frac.all Char.isDigit then
      let ip : Nat := intPart.foldl (fun a c => a * 10 + (c.toNat - 48)) 0
      let fp : Nat := frac.foldl (fun a c => a * 10 + (c.toNat - 48)) 0
      some ((sign : Rat) * ((ip : Rat) + (fp : Rat) / ((10 : Rat) ^ frac.length)))
    else none

/-- Truncation toward zero, as Python `int(float)` does. -/
def ratTrunc (q : Rat) : Int := q.num.tdiv (q.den : Int)

/-- Python `int(v)`: which values coerce, and to what.  `None` for the
values on which `int()` raises. -/
def toInt? : Value → Option Int
  | vInt n => some n
  | vBool b => some (if b then 1 else 0)
  | vFloat q => some (ratTrunc q)
  | vStr s => parseInt? s
  | _ => none

/-- Python `float(v)`: which values coerce, and to what. -/
def toFloat? : Value → Option Rat
  | vInt n => some (n : Rat)
  | vBool b => some (if b then 1 else 0)
  | vFloat q => some q
  | vStr s => parseFloat? s
  | _ => none

/-- Python `str(v)` as the code uses it (on ids and inside f-strings).
Exact for the scalar shapes that actually flow here (strings, ints,
bools, `None`, `ObjectId`); containers, floats and datetimes get a
schematic rendering, since no claim depends on their `repr`. -/
def pyStr : Value → String
  | vStr s => s
  | vInt n => if n < 0 then "-" ++ toString (-n).toNat else toString n.toNat
  | vBool true => "True"
  | vBool false => "False"
  | vNone => "None"
  | vObjectId s => s
  | vFloat q => toString q.num ++ "/" ++ toString q.den
  | vDateTime ms => "datetime<" ++ toString ms ++ ">"
  | vList _ => "<list>"
  | vDict _ => "<dict>"

/-- Python `len(v)`: `none` where `len()` raises `TypeError`. -/
def pyLen? : Value → Option Nat
  | vList xs => some xs.length
  | vStr s => some s.length
  | vDict es => some es.length
  | _ => none

/-- Python iteration `for x in v`: lists yield elements, strings yield
1-character strings, dicts yield their keys; other values raise
`TypeError`. -/
def pyIter : Value → Except String (List Value)
  | vList xs => pure xs
  | vStr s => pure (s.toList.map (fun c => vStr (String.singleton c)))
  | vDict es => pure (es.map (fun p => vStr p.1))
  | _ => .error "TypeError: not iterable"

/-- `as` begins with `bs`, on raw character lists. -/
def listStartsWith : List Char → List Char → Bool
  | _, [] => true
  | [], _ :: _ => false
  | a :: as, b :: bs => a = b && listStartsWith as bs

/-- Python `x in v` for containers (`dict` membership is key membership,
`str` membership is substring); raises `TypeError` otherwise. -/
def pyContains (v item : Value) : Except String Bool :=
  match v with
  | vDict es =>
      match item with
      | vStr k => pure (dictHas es k)
      | _ => pure false
  | vList xs => pure (xs.contains item)
  | vStr s =>
      match item with
      | vStr t => pure (s.toList.tails.any (fun tl => listStartsWith tl t.toList))
      | _ => .error "TypeError"
  | _ => .error "TypeError: argument of type is not iterable"

/-- Python slicing `v[:n]` as used on context snippets: defined for
strings and lists, raises otherwise. -/
def pySlice? (v : Value) (n : Nat) : Option Value :=
  match v with
  | vStr s => some (vStr (String.mk (s.toList.take n)))
  | vList xs => some (vList (xs.take n))
  | _ => none

/-- `isinstance(v, (int, float))` — Python `bool` is a subclass of `int`. -/
def isNum : Value → Bool
  | vInt _ => true
  | vFloat _ => true
  | vBool _ => true
  | _ => false

/-- `isinstance(v, dict)`. -/
def isDict : Value → Bool
  | vDict _ => true
  | _ => false

/-- `isinstance(v, list)`. -/
def isList : Value → Bool
  | vList _ => true
  | _ => false

/-- `isinstance(v, str)`. -/
def isStr : Value → Bool
  | vStr _ => true
  | _ => false

end Value

open Value

/-- The `$numberInt` / `$numberLong` envelope payload coercion of
`_unwrap` (models.py:613-621): `int(x)`, and on failure `int(float(x))`,
whose own failure propagates as an exception. -/
def numEnvelope (v : Value) : Except String Value :=
  match toInt? v with
  | some n => pure (vInt n)
  | none =>
      match toFloat? v with
      | some q => pure (vInt (ratTrunc q))
      | none => .error "ValueError: invalid numeric envelope payload"

/-- `ObjectId(x)` accepts a 24-character hex string (or an ObjectId). -/
def validOid : Value → Bool
  | vStr s => s.length = 24 ∧ s.toList.all (fun c => c.isDigit ∨ ('a' ≤ c ∧ c ≤ 'f') ∨ ('A' ≤ c ∧ c ≤ 'F'))
  | vObjectId _ => true
  | _ => false

/-- The `$oid` envelope branch of `_unwrap` (models.py:622-627):
construct an `ObjectId`, and on failure return the raw payload —
crucially, without recursing into it. -/
def oidEnvelope (v : Value) : Value :=
  if validOid v then
    match v with
    | vStr s => vObjectId s
    | w => w
  else v

/-- The `$date` envelope branch of `_unwrap` (models.py:628-642):
a nested `{$numberLong: ...}` or direct epoch milliseconds; `None` on
any coercion failure. -/
def dateEnvelope (d : Value) : Value :=
  match d with
  | vDict des =>
      if dictHas des "$numberLong" then
        match toInt? (dictGetV des "$numberLong") with
        | some ms => vDateTime ms
        | none => vNone
      else
        match toInt? d with
        | some ms => vDateTime ms
        | none => vNone
  | _ =>
      match toInt? d with
      | some ms => vDateTime ms
      | none => vNone

mutual

/-- `_unwrap` in `prepare_for_insert` (models.py:608-648): recursively
convert Extended JSON wrappers to native values.  The `$numberInt` /
`$numberLong` fallback can raise. -/
def unwrap : Value → Except String Value
  | .vDict es =>
      match dictGet? es "$numberInt" with
      | some v => numEnvelope v
      | none =>
        match dictGet? es "$numberLong" with
        | some v => numEnvelope v
        | none =>
          match dictGet? es "$oid" with
          | some v => pure (oidEnvelope v)
          | none =>
            match dictGet? es "$date" with
            | some d => pure (dateEnvelope d)
            | none => do pure (.vDict (← unwrapPairs es))
  | .vList xs => do pure (.vList (← unwrapList xs))
  | v => pure v

def unwrapList : List Value → Except String (List Value)
  | [] => pure []
  | v :: vs => do pure ((← unwrap v) :: (← unwrapList vs))

def unwrapPairs : List (String × Value) → Except String (List (String × Value))
  | [] => pure []
  | (k, v) :: es => do pure ((k, ← unwrap v) :: (← unwrapPairs es))

end

/-- Structural `mapM` over `Except`, mirroring a Python `for` loop that
appends coerced items and lets exceptions escape. -/
def exMapM (f : Value → Except String Value) : List Value → Except String (List Value)
  | [] => pure []
  | x :: xs => do pure ((← f x) :: (← exMapM f xs))

/-- Structural `mapM` over `Option` (used by `max(...)` over a
generator: the first failing element poisons the whole expression). -/
def optMapM (f : Value → Option Int) : List Value → Option (List Int)
  | [] => some []
  | x :: xs => do pure ((← f x) :: (← optMapM f xs))

/-- The guarded `try: x = int(seg.get(k1) or seg.get(k2) or 0) except: 0`
pattern of the segment normalizers. -/
def segTryInt2 (es : List (String × Value)) (k1 k2 : String) : Int :=
  (toInt? (pyOr (dictGetV es k1) (pyOr (dictGetV es k2) (vInt 0)))).getD 0

/-- Same pattern with a single key. -/
def segTryInt1 (es : List (String × Value)) (k : String) : Int :=
  (toInt? (pyOr (dictGetV es k) (vInt 0))).getD 0

/-- Same pattern with three keys (`timestamp`/`time`/`ts`). -/
def segTryInt3 (es : List (String × Value)) (k1 k2 k3 : String) : Int :=
  (toInt? (pyOr (dictGetV es k1)
    (pyOr (dictGetV es k2) (pyOr (dictGetV es k3) (vInt 0))))).getD 0

/-- Audio-segment coercion in `prepare_for_insert` (models.py:678-703).
The numeric fields are individually guarded, but `seg.get('type')` on a
truthy non-dict raises an uncaught `AttributeError`. -/
def normAudioSeg (seg : Value) : Except String Value :=
  match pyOr seg (vDict []) with
  | .vDict es =>
      pure (vDict
        [("startTime", vInt (segTryInt2 es "startTime" "start")),
         ("endTime", vInt (segTryInt2 es "endTime" "end")),
         ("pace", vInt (segTryInt1 es "pace")),
         ("pauses", vInt (segTryInt1 es "pauses")),
         ("type", pyOr (dictGetV es "type") (vStr "normal")),
         ("message", pyOr (dictGetV es "message") (vStr ""))])
  | _ => .error "AttributeError: get on non-dict segment"

/-- Video-segment coercion in `prepare_for_insert` (models.py:707-733). -/
def normVideoSeg (seg : Value) : Except String Value :=
  match pyOr seg (vDict []) with
  | .vDict es =>
      pure (vDict
        [("startTime", vInt (segTryInt2 es "startTime" "start")),
         ("endTime", vInt (segTryInt2 es "endTime" "end")),
         ("eyeContact", vFloat ((toFloat? (pyOr (dictGetV es "eyeContact")
            (pyOr (dictGetV es "eye_contact") (vInt 0)))).getD 0)),
         ("gestures", vInt (segTryInt1 es "gestures")),
         ("type", pyOr (dictGetV es "type") (vStr "good")),
         ("message", pyOr (dictGetV es "message") (vStr ""))])
  | _ => .error "AttributeError: get on non-dict segment"

/-- Transcript-segment coercion in `prepare_for_insert` (models.py:737-754). -/
def normTransSeg (seg : Value) : Except String Value :=
  match pyOr seg (vDict []) with
  | .vDict es =>
      pure (vDict
        [("startTime", vInt (segTryInt2 es "startTime" "start")),
         ("endTime", vInt (segTryInt2 es "endTime" "end")),
         ("text", pyOr (dictGetV es "text")
            (pyOr (dictGetV es "transcript") (vStr ""))),
         ("keyPhrases", pyOr (dictGetV es "keyPhrases")
            (pyOr (dictGetV es "key_phrases") (vList [])))])
  | _ => .error "AttributeError: get on non-dict segment"

/-- `_norm_score_list` item coercion in `prepare_for_insert`
(models.py:757-775). -/
def normScoreItem (item : Value) : Except String Value :=
  match pyOr item (vDict []) with
  | .vDict es =>
      pure (vDict
        [("timestamp", vInt (segTryInt3 es "timestamp" "time" "ts")),
         ("score", vInt (segTryInt1 es "score")),
         ("message", pyOr (dictGetV es "message") (vStr "")),
         ("type", pyOr (dictGetV es "type") (vStr ""))])
  | _ => .error "AttributeError: get on non-dict score item"

/-- Metric coercion in `prepare_for_insert` (models.py:785-811): `score`
is guarded (default 0), the confidence interval falls back to `[0, 100]`
unless the input is a list of length ≥ 2 with int-coercible first two
entries, and `whatHelped`/`whatHurt` are kept only when they are lists.
`m.get('confidenceInterval')` on a truthy non-dict entry raises. -/
def ciValsOf (ci : Value) : List Value :=
  match ci with
  | vList (a :: b :: _) =>
      match toInt? a, toInt? b with
      | some x, some y => [vInt x, vInt y]
      | _, _ => [vInt 0, vInt 100]
  | _ => [vInt 0, vInt 100]

/-- Keep a value only when it is a list, else the empty list
(the `whatHelped`/`whatHurt` guard of models.py:809-810). -/
def listOrEmpty (w : Value) : Value := if isList w then w else vList []

def normMetric (m : Value) : Except String Value :=
  match pyOr m (vDict []) with
  | .vDict es =>
      let ci := pyOr (dictGetV es "confidenceInterval")
        (pyOr (dictGetV es "confidence_interval") (vList []))
      let wh := pyOr (dictGetV es "whatHelped")
        (pyOr (dictGetV es "what_helped") (vList []))
      let wu := pyOr (dictGetV es "whatHurt")
        (pyOr (dictGetV es "what_hurt") (vList []))
      pure (vDict
        [("name", pyOr (dictGetV es "name") (pyOr (dictGetV es "metric") (vStr ""))),
         ("score", vInt (segTryInt1 es "score")),
         ("confidenceInterval", vList (ciValsOf ci)),
         ("whatHelped", listOrEmpty wh),
         ("whatHurt", listOrEmpty wu)])
  | _ => .error "AttributeError: get on non-dict metric"

/-- The id/name/videoUrl `setdefault`s of `prepare_for_insert`
(models.py:653-656). -/
def idNameUrl (ds0 : List (String × Value)) : List (String × Value) :=
  let ds := dictSetdefault ds0 "sessionId"
    (pyOr (dictGetV ds0 "sessionId") (pyOr (dictGetV ds0 "id") (vStr "")))
  let ds := dictSetdefault ds "sessionName"
    (pyOr (dictGetV ds "sessionName") (pyOr (dictGetV ds "name")
      (vStr ("Session " ++ pyStr (dictGetD ds "sessionId" (vStr ""))))))
  dictSetdefault ds "videoUrl" (dictGetD ds "videoUrl" (vStr ""))

/-- The duration coercion of `prepare_for_insert` (models.py:658-666):
a single guarded `int()`, defaulting to 0. -/
def durationOf (ds : List (String × Value)) : Int :=
  match dictGetV ds "duration" with
  | vDict des =>
      (toInt? (pyOr (dictGetV des "$numberInt")
        (pyOr (dictGetV des "$numberLong") (vInt 0)))).getD 0
  | dur => (toInt? (pyOr dur (vInt 0))).getD 0

/-- The five timeline `setdefault`s (models.py:669-674). -/
def timelineSetdefaults (tl0 : List (String × Value)) : List (String × Value) :=
  dictSetdefault (dictSetdefault (dictSetdefault (dictSetdefault
    (dictSetdefault tl0 "audio" (vList [])) "video" (vList []))
    "transcript" (vList [])) "scoreDips" (vList [])) "scorePeaks" (vList [])

/-- Normalize one timeline sub-sequence in place: iterate
`tl.get(k, [])`, map the per-kind coercion, store back under `k`. -/
def normSub (tl : List (String × Value)) (k : String)
    (f : Value → Except String Value) :
    Except String (List (String × Value)) := do
  let items ← pyIter (dictGetD tl k (vList []))
  let normed ← exMapM f items
  pure (dictSet tl k (vList normed))

/-- The timeline block of `prepare_for_insert` (models.py:668-780). -/
def prepareTimeline (tlv : Value) : Except String (List (String × Value)) := do
  let tl := timelineSetdefaults (match tlv with | vDict t => t | _ => [])
  let tl ← normSub tl "audio" normAudioSeg
  let tl ← normSub tl "video" normVideoSeg
  let tl ← normSub tl "transcript" normTransSeg
  let tl ← normSub tl "scoreDips" normScoreItem
  normSub tl "scorePeaks" normScoreItem

/-- The metrics block of `prepare_for_insert` (models.py:783-812),
applied to `doc.get('metrics', []) or []`. -/
def prepareMetrics (mv : Value) : Except String (List Value) := do
  let items ← pyIter (pyOr mv (vList []))
  exMapM normMetric items

/-- The `str()`-coercion of `mentorId`/`userId` (models.py:815-818). -/
def stringifyIds (ds : List (String × Value)) : List (String × Value) :=
  let ds := if dictHas ds "mentorId" then
      dictSet ds "mentorId" (vStr (pyStr (dictGetV ds "mentorId"))) else ds
  if dictHas ds "userId" then
    dictSet ds "userId" (vStr (pyStr (dictGetV ds "userId"))) else ds

/-- `Session.prepare_for_insert` (models.py:594-823) on an
already-unwrapped mapping. -/
def prepareCore (ds0 : List (String × Value)) : Except String Value := do
  let ds := dictSet (idNameUrl ds0) "duration" (vInt (durationOf (idNameUrl ds0)))
  let tl ← prepareTimeline (dictGetV ds "timeline")
  let ds := dictSet ds "timeline" (vDict tl)
  let ms ← prepareMetrics (dictGetD ds "metrics" (vList []))
  let ds := dictSet ds "metrics" (vList ms)
  let ds := stringifyIds ds
  pure (vDict (dictSetdefault ds "weakMoments" (dictGetD ds "weakMoments" (vList []))))

/-- `Session.prepare_for_insert` (models.py:594-823). -/
def prepare_for_insert (raw_doc : Value) : Except String Value := do
  let doc0 ← unwrap (pyOr raw_doc (vDict []))
  match doc0 with
  | vDict ds0 => prepareCore ds0
  | _ => .error "AttributeError: setdefault on non-dict"

/-- `to_num` in both `normalize_for_api` definitions (models.py:998-1005
and 1147-1154): `int(v)`, else `int(float(v))`, else `0` — total. -/
def to_num (v : Value) : Int :=
  (toInt? v).getD (((toFloat? v).map ratTrunc).getD 0)

/-- Python `int(v)` where no surrounding `try` exists: raises on failure. -/
def intOrRaise (v : Value) : Except String Int :=
  match toInt? v with
  | some n => pure n
  | none => .error "ValueError/TypeError: int()"

/-- Python `float(v)` where no surrounding `try` exists. -/
def floatOrRaise (v : Value) : Except String Rat :=
  match toFloat? v with
  | some q => pure q
  | none => .error "ValueError/TypeError: float()"

/-- Audio-segment coercion shared verbatim by both `normalize_for_api`
definitions (models.py:1010-1019 and 1159-1168): `startTime`/`endTime`
through `to_num`, but `pace`/`pauses` through a bare `int()`. -/
def apiAudioSeg (seg : Value) : Except String Value :=
  match pyOr seg (vDict []) with
  | .vDict es => do
      let pace ← intOrRaise (pyOr (dictGetV es "pace") (vInt 0))
      let pauses ← intOrRaise (pyOr (dictGetV es "pauses") (vInt 0))
      pure (vDict
        [("startTime", vInt (to_num (pyOr (dictGetV es "startTime")
            (pyOr (dictGetV es "start") (vInt 0))))),
         ("endTime", vInt (to_num (pyOr (dictGetV es "endTime")
            (pyOr (dictGetV es "end") (vInt 0))))),
         ("pace", vInt pace),
         ("pauses", vInt pauses),
         ("type", pyOr (dictGetV es "type") (vStr "normal")),
         ("message", pyOr (dictGetV es "message") (vStr ""))])
  | _ => .error "AttributeError: get on non-dict segment"

/-- Video-segment coercion of the second `normalize_for_api`
(models.py:1173-1182): the eye-contact `float()` is NOT guarded. -/
def apiVideoSegSecond (seg : Value) : Except String Value :=
  match pyOr seg (vDict []) with
  | .vDict es => do
      let eye ← floatOrRaise (pyOr (dictGetV es "eyeContact")
        (pyOr (dictGetV es "eye_contact") (vInt 0)))
      let gestures ← intOrRaise (pyOr (dictGetV es "gestures") (vInt 0))
      pure (vDict
        [("startTime", vInt (to_num (pyOr (dictGetV es "startTime")
            (pyOr (dictGetV es "start") (vInt 0))))),
         ("endTime", vInt (to_num (pyOr (dictGetV es "endTime")
            (pyOr (dictGetV es "end") (vInt 0))))),
         ("eyeContact", vFloat eye),
         ("gestures", vInt gestures),
         ("type", pyOr (dictGetV es "type") (vStr "good")),
         ("message", pyOr (dictGetV es "message") (vStr ""))])
  | _ => .error "AttributeError: get on non-dict segment"

/-- Video-segment coercion of the first `normalize_for_api`
(models.py:1024-1037): identical except the eye-contact `float()` is
wrapped in `try/except` (default `0.0`). -/
def apiVideoSegFirst (seg : Value) : Except String Value :=
  match pyOr seg (vDict []) with
  | .vDict es => do
      let eye := (toFloat? (pyOr (dictGetV es "eyeContact")
        (pyOr (dictGetV es "eye_contact") (vInt 0)))).getD 0
      let gestures ← intOrRaise (pyOr (dictGetV es "gestures") (vInt 0))
      pure (vDict
        [("startTime", vInt (to_num (pyOr (dictGetV es "startTime")
            (pyOr (dictGetV es "start") (vInt 0))))),
         ("endTime", vInt (to_num (pyOr (dictGetV es "endTime")
            (pyOr (dictGetV es "end") (vInt 0))))),
         ("eyeContact", vFloat eye),
         ("gestures", vInt gestures),
         ("type", pyOr (dictGetV es "type") (vStr "good")),
         ("message", pyOr (dictGetV es "message") (vStr ""))])
  | _ => .error "AttributeError: get on non-dict segment"

/-- Transcript-segment coercion shared verbatim by both
`normalize_for_api` definitions (models.py:1042-1049 and 1186-1194). -/
def apiTransSeg (seg : Value) : Except String Value :=
  match pyOr seg (vDict []) with
  | .vDict es =>
      pure (vDict
        [("startTime", vInt (to_num (pyOr (dictGetV es "startTime")
            (pyOr (dictGetV es "start") (vInt 0))))),
         ("endTime", vInt (to_num (pyOr (dictGetV es "endTime")
            (pyOr (dictGetV es "end") (vInt 0))))),
         ("text", pyOr (dictGetV es "text")
            (pyOr (dictGetV es "transcript") (vStr ""))),
         ("keyPhrases", pyOr (dictGetV es "keyPhrases")
            (pyOr (dictGetV es "key_phrases") (vList [])))])
  | _ => .error "AttributeError: get on non-dict segment"

/-- Score dip/peak coercion shared verbatim by both `normalize_for_api`
definitions (models.py:1054-1072 and 1199-1217). -/
def apiScoreItem (item : Value) : Except String Value :=
  match pyOr item (vDict []) with
  | .vDict es => do
      let score ← intOrRaise (pyOr (dictGetV es "score") (vInt 0))
      pure (vDict
        [("timestamp", vInt (to_num (pyOr (dictGetV es "timestamp")
            (pyOr (dictGetV es "time") (pyOr (dictGetV es "ts") (vInt 0)))))),
         ("score", vInt score),
         ("message", pyOr (dictGetV es "message") (vStr "")),
         ("type", pyOr (dictGetV es "type") (vStr ""))])
  | _ => .error "AttributeError: get on non-dict score item"

/-- Metric coercion shared verbatim by both `normalize_for_api`
definitions (models.py:1085-1095 and 1230-1240): the whole entry is
wrapped in `try/except: continue`, so any entry whose coercion raises
(a non-mapping, or a mapping whose truthy `score` is not
int-coercible) is skipped. -/
def coerceMetricOpt (m : Value) : Option Value :=
  match m with
  | vDict es =>
      match toInt? (pyOr (dictGetV es "score") (vInt 0)) with
      | some sc =>
          some (vDict
            [("name", pyOr (dictGetV es "name") (pyOr (dictGetV es "metric") (vStr ""))),
             ("score", vInt sc),
             ("confidenceInterval", pyOr (dictGetV es "confidenceInterval")
                (pyOr (dictGetV es "confidence_interval") (vList [vInt 0, vInt 100]))),
             ("whatHelped", pyOr (dictGetV es "whatHelped")
                (pyOr (dictGetV es "what_helped") (vList []))),
             ("whatHurt", pyOr (dictGetV es "whatHurt")
                (pyOr (dictGetV es "what_hurt") (vList [])))])
      | none => none
  | _ => none

/-- The `max(int(ts.get('endTime', 0)) for ts in transcript)` fallback
(wrapped in `try/except: duration = 0`) shared by both
`normalize_for_api` definitions (models.py:896-899 and 1138-1141). -/
def maxEndTime (transcript : Value) : Int :=
  match pyIter transcript with
  | .error _ => 0
  | .ok items =>
      match optMapM (fun ts =>
        match ts with
        | vDict es => toInt? (dictGetD es "endTime" (vInt 0))
        | _ => none) items with
      | none => 0
      | some [] => 0
      | some (n :: rest) => rest.foldl max n

/-- The duration-derivation block shared by both `normalize_for_api`
definitions (models.py:889-899 and 1130-1141): the value of the Python
variable `duration` just before the final `int(duration or 0)`. -/
def deriveDurationVal (ds : List (String × Value)) : Value :=
  let d0 := dictGetV ds "duration"
  if isNum d0 then d0
  else
    let d1 := match dictGetV ds "analysis" with
      | vDict aes => pyOr (dictGetV aes "duration") (dictGetV aes "total_duration")
      | _ => d0
    if ¬d1.truthy then
      match dictGetV ds "timeline" with
      | vDict tes =>
          let transcript := dictGetD tes "transcript" (vList [])
          if transcript.truthy then vInt (maxEndTime transcript) else d1
      | _ => d1
    else d1

/-- `timeline.get(k, []) if isinstance(timeline, dict) else []`. -/
def tlSubOf (timelineV : Value) (k : String) : Value :=
  match timelineV with
  | vDict tes => dictGetD tes k (vList [])
  | _ => vList []

/-- The timeline coercion block shared (modulo the video-segment
error handling) by the two `normalize_for_api` definitions
(models.py:1008-1080 and 1157-1225). -/
def projectTimelineWith (videoSeg : Value → Except String Value)
    (timelineV : Value) : Except String Value := do
  let audioItems ← pyIter (tlSubOf timelineV "audio")
  let audioOut ← exMapM apiAudioSeg audioItems
  let videoItems ← pyIter (tlSubOf timelineV "video")
  let videoOut ← exMapM videoSeg videoItems
  let transItems ← pyIter (tlSubOf timelineV "transcript")
  let transOut ← exMapM apiTransSeg transItems
  let dipItems ← pyIter (tlSubOf timelineV "scoreDips")
  let dipsOut ← exMapM apiScoreItem dipItems
  let peakItems ← pyIter (tlSubOf timelineV "scorePeaks")
  let peaksOut ← exMapM apiScoreItem peakItems
  pure (vDict
    [("audio", vList audioOut),
     ("video", vList videoOut),
     ("transcript", vList transOut),
     ("scoreDips", vList dipsOut),
     ("scorePeaks", vList peaksOut)])

/-- `out['sessionId']` of both `normalize_for_api` definitions. -/
def outSessionId (ds : List (String × Value)) : Value :=
  pyOr (dictGetV ds "sessionId")
    (pyOr (dictGetV ds "id") (vStr (pyStr (dictGetD ds "_id" (vStr "")))))

/-- `out['sessionName']` of both `normalize_for_api` definitions. -/
def outSessionName (ds : List (String × Value)) : Value :=
  pyOr (dictGetV ds "sessionName")
    (pyOr (dictGetV ds "name") (vStr ("Session " ++ pyStr (outSessionId ds))))

/-- `out['videoUrl']` of both `normalize_for_api` definitions. -/
def outVideoUrl (ds : List (String × Value)) : Value :=
  pyOr (dictGetV ds "videoUrl") (pyOr (dictGetV ds "uploadedFile") (vStr ""))

/-- The dict branch of the second `normalize_for_api`. -/
def normalizeCore (ds : List (String × Value)) : Except String Value := do
  let durInt ← intOrRaise (pyOr (deriveDurationVal ds) (vInt 0))
  let tlOut ← projectTimelineWith apiVideoSegSecond
    (pyOr (dictGetV ds "timeline") (vDict []))
  let mItems ← pyIter (pyOr (dictGetD ds "metrics" (vList [])) (vList []))
  let metricsOut := mItems.filterMap coerceMetricOpt
  pure (vDict
    [("sessionId", outSessionId ds),
     ("sessionName", outSessionName ds),
     ("videoUrl", outVideoUrl ds),
     ("duration", vInt durInt),
     ("timeline", tlOut),
     ("metrics", vList metricsOut)])

/-- The second, lexically later `Session.normalize_for_api`
(models.py:1112-1243) — the definition in effect at runtime, since it
shadows the first.  (`dict(s)` on a truthy non-mapping is modelled as
`TypeError`; iterables of key-value pairs are outside the model.) -/
def normalize_for_api (s : Value) : Except String Value := do
  if ¬s.truthy then pure (vDict []) else
  match s with
  | vDict ds => normalizeCore ds
  | _ => .error "TypeError: dict() on non-mapping"

/-- Outcome of one Gemini round trip, abstracting the external call:
no credentials / client-construction failure, a failed or unparseable
call, or a successfully parsed JSON value.  Every claim about the gap
filler is quantified over this outcome. -/
inductive GenOutcome where
  | noKey
  | apiFail
  | success (v : Value)

/-- Python hashability as dict-key membership needs it: lists and dicts
raise `TypeError`. -/
def hashableV : Value → Bool
  | vList _ => false
  | vDict _ => false
  | _ => true

/-- Association lookup with `Value` keys (a Python dict keyed by metric
names). -/
def assocGet? : List (Value × α) → Value → Option α
  | [], _ => none
  | (k, v) :: es, key => if k = key then some v else assocGet? es key

/-- Association insert with Python-dict overwrite (replace in place,
else append). -/
def assocSet : List (Value × α) → Value → α → List (Value × α)
  | [], key, v => [(key, v)]
  | (k, w) :: es, key, v =>
      if k = key then (k, v) :: es else (k, w) :: assocSet es key v

/-- The emptiness test the gap fillers apply to a metric's feedback
field: `not m.get(k) or len(m.get(k, [])) == 0`.  Raises (`.error`)
when the field is truthy but has no `len()`. -/
def feedbackEmpty? (es : List (String × Value)) (k : String) : Except Unit Bool :=
  let w := dictGetV es k
  if ¬w.truthy then pure true
  else
    match pyLen? w with
    | none => .error ()
    | some n => pure (n = 0)

/-- One metric's `needs_filling` disjunct in
`fill_metric_feedback_with_gemini` (models.py:231-235) and the
`has_empty_metric_feedback` loop of `fill_missing_fields_with_gemini`
(models.py:397-404): raises on a non-dict metric or an un-`len()`-able
truthy feedback value. -/
def metricNeedsFill (m : Value) : Except Unit Bool :=
  match m with
  | vDict es => do
      if (← feedbackEmpty? es "whatHelped") then pure true
      else feedbackEmpty? es "whatHurt"
  | _ => .error ()

/-- Lazy `any(...)` over the metrics (short-circuits before touching
later elements, as the Python generator does). -/
def anyNeedsFill : List Value → Except Unit Bool
  | [] => pure false
  | m :: ms => do
      if (← metricNeedsFill m) then pure true else anyNeedsFill ms

/-- `metric.setdefault('whatHelped', []); metric.setdefault('whatHurt', [])`
on one metric; raises on a non-dict. -/
def setdefaultFeedback (m : Value) : Except String Value :=
  match m with
  | vDict es =>
      pure (vDict (dictSetdefault (dictSetdefault es "whatHelped" (vList []))
        "whatHurt" (vList [])))
  | _ => .error "AttributeError: setdefault on non-dict metric"

/-- The fallback loop of `fill_metric_feedback_with_gemini`
(models.py:354-358), reached when any step of the main path raised. -/
def feedbackFallback (ms : List Value) : Except String (List Value) :=
  exMapM setdefaultFeedback ms

/-- `feedback_map` construction in `fill_metric_feedback_with_gemini`
(models.py:315-323): name ↦ (whatHelped, whatHurt) with dict-overwrite
semantics; `none` when the loop raises (non-dict entry, unhashable
name). -/
def buildFeedbackMap (items : List Value) :
    Option (List (Value × (Value × Value))) :=
  items.foldlM (fun acc m =>
    match m with
    | vDict ges =>
        let nm := dictGetV ges "name"
        if nm.truthy then
          if hashableV nm then
            some (assocSet acc nm
              (dictGetD ges "whatHelped" (vList []), dictGetD ges "whatHurt" (vList [])))
          else none
        else some acc
    | _ => none) []

/-- One step of the update loop in `fill_metric_feedback_with_gemini`
(models.py:326-339).  `.error m'` models an exception escaping after the
in-place mutations `m'` already applied to this metric. -/
def feedbackUpdateOne (fmap : List (Value × (Value × Value))) :
    Value → Except Value Value
  | vDict es =>
      let nm := dictGetV es "name"
      if hashableV nm then
        match assocGet? fmap nm with
        | some (gwh, gwu) =>
            (match feedbackEmpty? es "whatHelped" with
             | .error _ => .error (vDict es)
             | .ok b =>
                let es1 := if b then dictSet es "whatHelped" gwh else es
                match feedbackEmpty? es1 "whatHurt" with
                | .error _ => .error (vDict es1)
                | .ok b2 =>
                    .ok (vDict (if b2 then dictSet es1 "whatHurt" gwu else es1)))
        | none =>
            .ok (vDict (dictSetdefault (dictSetdefault es "whatHelped" (vList []))
              "whatHurt" (vList [])))
      else .error (vDict es)
  | m => .error m

/-- The update loop over all metrics, threading the partially mutated
list; the Bool records whether an exception aborted it. -/
def feedbackUpdateLoop (fmap : List (Value × (Value × Value))) :
    List Value → (List Value × Bool)
  | [] => ([], false)
  | m :: ms =>
      match feedbackUpdateOne fmap m with
      | .ok m' =>
          let (ms', ab) := feedbackUpdateLoop fmap ms
          (m' :: ms', ab)
      | .error m' => (m' :: ms, true)

/-- `Session.fill_metric_feedback_with_gemini` (models.py:216-358),
with the external call abstracted by `gen`.  The result is `.error`
exactly when the fallback `setdefault` loop (outside the big `try`)
meets a non-dict metric. -/
def fill_metric_feedback (metrics : List Value) (gen : GenOutcome) :
    Except String (List Value) :=
  match anyNeedsFill metrics with
  | .ok false => pure metrics
  | .error _ => feedbackFallback metrics
  | .ok true =>
      match gen with
      | .noKey => pure metrics
      | .apiFail =>
          -- whether the metrics_summary loop (models.py:251-253) raises or
          -- the call itself fails, control reaches the fallback loop
          feedbackFallback metrics
      | .success v =>
          if ¬metrics.all (fun m => isDict m) then feedbackFallback metrics
          else
            -- `'metrics' in generated and isinstance(generated['metrics'], list)`
            match pyContains v (vStr "metrics") with
            | .error _ => feedbackFallback metrics
            | .ok false =>
                (let (ms', ab) := feedbackUpdateLoop [] metrics
                 if ab then feedbackFallback ms' else pure ms')
            | .ok true =>
                match v with
                | vDict ves =>
                    let fmap? :=
                      match dictGetV ves "metrics" with
                      | vList gitems => buildFeedbackMap gitems
                      | _ => some []
                    match fmap? with
                    | none => feedbackFallback metrics
                    | some fmap =>
                        let (ms', ab) := feedbackUpdateLoop fmap metrics
                        if ab then feedbackFallback ms' else pure ms'
                | _ => feedbackFallback metrics

/-- The populated/empty flags `fill_missing_fields_with_gemini` computes
(models.py:388-404). -/
structure FillFlags where
  hasAudio : Bool
  hasVideo : Bool
  hasTranscript : Bool
  hasDips : Bool
  hasPeaks : Bool
  hasMetrics : Bool
  hasEmptyFeedback : Bool

/-- `len(doc.get('timeline', {}).get(k, []))`: raises when `timeline` is
present but not a dict, or the sub-value has no `len()`. -/
def subLen? (ds : List (String × Value)) (k : String) : Option Nat :=
  match dictGetD ds "timeline" (vDict []) with
  | vDict tes => pyLen? (dictGetD tes k (vList []))
  | _ => none

/-- Flag computation of `fill_missing_fields_with_gemini`
(models.py:388-404); `.error` when it raises (caught by the outer
`except`, which returns the document unchanged). -/
def computeFlags (ds : List (String × Value)) : Except Unit FillFlags :=
  match subLen? ds "audio" with
  | none => .error ()
  | some a =>
  match subLen? ds "video" with
  | none => .error ()
  | some v =>
  match subLen? ds "transcript" with
  | none => .error ()
  | some t =>
  match subLen? ds "scoreDips" with
  | none => .error ()
  | some d =>
  match subLen? ds "scorePeaks" with
  | none => .error ()
  | some p =>
  match pyLen? (dictGetD ds "metrics" (vList [])) with
  | none => .error ()
  | some ml =>
  match (if 0 < ml then
      match pyIter (dictGetD ds "metrics" (vList [])) with
      | .ok items => anyNeedsFill items
      | .error _ => .error ()
    else .ok false) with
  | .error _ => .error ()
  | .ok hasEmpty =>
      .ok ⟨decide (0 < a), decide (0 < v), decide (0 < t), decide (0 < d),
           decide (0 < p), decide (0 < ml), hasEmpty⟩

/-- All sub-collections populated and no metric feedback empty
(models.py:406). -/
def FillFlags.allPopulated (f : FillFlags) : Bool :=
  f.hasAudio && f.hasVideo && f.hasTranscript && f.hasDips && f.hasPeaks &&
    f.hasMetrics && !f.hasEmptyFeedback

/-- `doc['timeline'][k] = tl[k]` guarded by
`if not has_k and isinstance(tl.get(k), list)` (models.py:502-511);
`.error` carries the document state when the assignment raises. -/
def assignTimelineSub (ds : List (String × Value)) (need : Bool)
    (tles : List (String × Value)) (k : String) :
    Except (List (String × Value)) (List (String × Value)) :=
  if need ∧ isList (dictGetV tles k) then
    match dictGet? ds "timeline" with
    | some (vDict des) =>
        .ok (dictSet ds "timeline" (vDict (dictSet des k (dictGetV tles k))))
    | some _ => .error ds      -- item assignment on a non-dict raises
    | none => .error ds        -- KeyError: doc has no 'timeline'
  else .ok ds

/-- The timeline part of the merge in `fill_missing_fields_with_gemini`
(models.py:500-511). -/
def mergeTimeline (ds : List (String × Value)) (fl : FillFlags) (v : Value) :
    Except (List (String × Value)) (List (String × Value)) :=
  match pyContains v (vStr "timeline") with
  | .error _ => .error ds
  | .ok false => .ok ds
  | .ok true =>
      match v with
      | vDict ves =>
          match dictGetV ves "timeline" with
          | vDict tles => do
              let ds ← assignTimelineSub ds (!fl.hasAudio) tles "audio"
              let ds ← assignTimelineSub ds (!fl.hasVideo) tles "video"
              let ds ← assignTimelineSub ds (!fl.hasTranscript) tles "transcript"
              let ds ← assignTimelineSub ds (!fl.hasDips) tles "scoreDips"
              assignTimelineSub ds (!fl.hasPeaks) tles "scorePeaks"
          | _ => .error ds     -- `tl.get('audio')` on a non-dict raises
      | _ => .error ds         -- `generated['timeline']` on a non-dict raises

/-- `gen_metrics_map` (models.py:515): name ↦ whole generated metric,
dict-overwrite semantics; `none` when the comprehension raises. -/
def buildGenMetricsMap (items : List Value) : Option (List (Value × Value)) :=
  items.foldlM (fun acc m =>
    match m with
    | vDict ges =>
        let nm := dictGetV ges "name"
        if nm.truthy then
          if hashableV nm then some (assocSet acc nm m) else none
        else some acc
    | _ => none) []

/-- `gen_metric.get(k, [])` — the generated metric is a dict whenever
it came from the comprehension; defensively empty otherwise. -/
def genFeedback (genM : Value) (k : String) : Value :=
  match genM with
  | vDict ges => dictGetD ges k (vList [])
  | _ => vList []

/-- One step of the metric merge loop (models.py:520-533), mirroring
`feedbackUpdateOne` but filling from the whole generated metric. -/
def mergeMetricOne (gmap : List (Value × Value)) :
    Value → Except Value Value
  | vDict es =>
      let nm := dictGetV es "name"
      if hashableV nm then
        match assocGet? gmap nm with
        | some genM =>
            (match feedbackEmpty? es "whatHelped" with
             | .error _ => .error (vDict es)
             | .ok b =>
                let es1 := if b then dictSet es "whatHelped"
                  (genFeedback genM "whatHelped") else es
                match feedbackEmpty? es1 "whatHurt" with
                | .error _ => .error (vDict es1)
                | .ok b2 =>
                    .ok (vDict (if b2 then dictSet es1 "whatHurt"
                      (genFeedback genM "whatHurt") else es1)))
        | none =>
            .ok (vDict (dictSetdefault (dictSetdefault es "whatHelped" (vList []))
              "whatHurt" (vList [])))
      else .error (vDict es)
  | m => .error m

/-- The metric merge loop with abort threading. -/
def mergeMetricLoop (gmap : List (Value × Value)) :
    List Value → (List Value × Bool)
  | [] => ([], false)
  | m :: ms =>
      match mergeMetricOne gmap m with
      | .ok m' =>
          let (ms', ab) := mergeMetricLoop gmap ms
          (m' :: ms', ab)
      | .error m' => (m' :: ms, true)

/-- The metrics part of the merge in `fill_missing_fields_with_gemini`
(models.py:513-537). -/
def mergeMetrics (ds : List (String × Value)) (fl : FillFlags) (v : Value) :
    Except (List (String × Value)) (List (String × Value)) :=
  match v with
  | vDict ves =>
      match dictGetV ves "metrics" with
      | vList gitems =>
          (match buildGenMetricsMap gitems with
           | none => .error ds
           | some gmap =>
              if fl.hasMetrics ∧ (dictGetV ds "metrics").truthy then
                match pyIter (dictGetV ds "metrics") with
                | .error _ => .error ds
                | .ok mitems =>
                    let (ms', ab) := mergeMetricLoop gmap mitems
                    -- in-place mutation: when the stored metrics is a list,
                    -- its (mutated) elements persist even on abort
                    let ds' := if isList (dictGetV ds "metrics") then
                        dictSet ds "metrics" (vList ms') else ds
                    if ab then .error ds' else .ok ds'
              else
                .ok (dictSet ds "metrics" (vList gitems)))
      | _ => .ok ds            -- not a list: skip the metrics merge
  | _ => .error ds             -- `generated.get('metrics')` raises

/-- The weak-moments part of the merge (models.py:539-540). -/
def mergeWeak (ds : List (String × Value)) (v : Value) :
    List (String × Value) :=
  match v with
  | vDict ves =>
      if ¬(dictGetV ds "weakMoments").truthy ∧
          isList (dictGetV ves "weakMoments") then
        dictSet ds "weakMoments" (dictGetV ves "weakMoments")
      else ds
  | _ => ds   -- unreachable: mergeMetrics already errored for non-dicts

/-- Collapse the abort channel: an exception inside the inner `try` is
caught by `except: pass`, so the partially merged document is returned
either way (models.py:542-559). -/
def collapseD (r : Except (List (String × Value)) (List (String × Value))) :
    List (String × Value) :=
  match r with
  | .ok ds => ds
  | .error ds => ds

/-- `len(v)` where no surrounding `try` exists: raises on failure. -/
def lenOrRaise (v : Value) : Except String Nat :=
  match pyLen? v with
  | some n => pure n
  | none => .error "TypeError: len()"

/-- The context-building step of the first `normalize_for_api`
(models.py:919-932), which runs outside any `try`: it raises when
`diarization.sentences[0]` is a non-dict, or its `text` cannot be
sliced.  (The analysis part of the context never raises.) -/
def ctxCheck (ds : List (String × Value)) : Except String Unit :=
  match dictGetV ds "diarization" with
  | vDict des =>
      match dictGetV des "sentences" with
      | vList [] => pure ()
      | vList (s0 :: _) =>
          (match s0 with
           | vDict ses =>
               match pySlice? (dictGetD ses "text" (vStr "")) 200 with
               | some _ => pure ()
               | none => .error "TypeError: unsliceable diarization text"
           | _ => .error "AttributeError: get on non-dict sentence")
      | _ => pure ()
  | _ => pure ()

/-- `doc['timeline'][k] = val` guarded by `cond` (shared by both merge
models); `.error` carries the document when the assignment raises. -/
def assignSubIf (ds : List (String × Value)) (cond : Bool) (k : String)
    (val : Value) :
    Except (List (String × Value)) (List (String × Value)) :=
  if cond then
    match dictGet? ds "timeline" with
    | some (vDict des) =>
        .ok (dictSet ds "timeline" (vDict (dictSet des k val)))
    | some _ => .error ds
    | none => .error ds
  else .ok ds

/-- The merge step of the first `normalize_for_api` (models.py:977-992),
run entirely inside `try/except: pass`: the partially merged document
survives an abort.  Python's short-circuiting is preserved: a non-dict
`gen_tl` or `generated` only raises at the first check that actually
evaluates `.get` on it. -/
def mergeGenFirst (ds : List (String × Value))
    (needA needV needS needM : Bool) (v : Value) : List (String × Value) :=
  collapseD (do
    let genTl := match v with
      | vDict ves => dictGetD ves "timeline" (vDict [])
      | _ => vDict []
    let ds ← (match genTl with
      | vDict gtes => do
          let ds ← assignSubIf ds (needA ∧ isList (dictGetV gtes "audio"))
            "audio" (dictGetV gtes "audio")
          let ds ← assignSubIf ds (needV ∧ isList (dictGetV gtes "video"))
            "video" (dictGetV gtes "video")
          if needS then do
            let ds ← assignSubIf ds
              (isList (dictGetV gtes "scoreDips") ∧ (dictGetV gtes "scoreDips").truthy)
              "scoreDips" (dictGetV gtes "scoreDips")
            assignSubIf ds
              (isList (dictGetV gtes "scorePeaks") ∧ (dictGetV gtes "scorePeaks").truthy)
              "scorePeaks" (dictGetV gtes "scorePeaks")
          else pure ds
      | _ => if needA ∨ needV ∨ needS then .error ds else .ok ds)
    let ds ← (if needM then
        match v with
        | vDict ves =>
            if isList (dictGetV ves "metrics") then
              Except.ok (dictSet ds "metrics" (dictGetV ves "metrics"))
            else .ok ds
        | _ => .error ds
      else .ok ds)
    if ¬(dictGetV ds "weakMoments").truthy then
      match v with
      | vDict ves =>
          if isList (dictGetV ves "weakMoments") then
            Except.ok (dictSet ds "weakMoments" (dictGetV ves "weakMoments"))
          else .ok ds
      | _ => .error ds
    else pure ds)

/-- The timeline dict after the `setdefault` block of the first
`Session.normalize_for_api` (models.py:938-947). -/
def tlFirst (ds0 : List (String × Value)) : List (String × Value) :=
  let tl0 := match dictGetV ds0 "timeline" with | vDict t => t | _ => []
  let tl := dictSetdefault (dictSetdefault tl0 "audio" (vList []))
    "video" (vList [])
  let tl := dictSetdefault tl "transcript" (dictGetD tl "transcript" (vList []))
  let tl := dictSetdefault tl "scoreDips" (dictGetD tl "scoreDips" (vList []))
  dictSetdefault tl "scorePeaks" (dictGetD tl "scorePeaks" (vList []))

/-- The dict branch of the first, lexically earlier
`Session.normalize_for_api` (models.py:864-1109). -/
def firstCore (ds0 : List (String × Value)) (gen bgen : GenOutcome) :
    Except String Value := do
      let durInt ← intOrRaise (pyOr (deriveDurationVal ds0) (vInt 0))
      let tl := tlFirst ds0
      let ds := dictSet ds0 "timeline" (vDict tl)
      let lenA ← lenOrRaise (dictGetD tl "audio" (vList []))
      let lenV ← lenOrRaise (dictGetD tl "video" (vList []))
      let lenD ← lenOrRaise (dictGetD tl "scoreDips" (vList []))
      let needS ← (if lenD = 0 then do
          let lenP ← lenOrRaise (dictGetD tl "scorePeaks" (vList []))
          pure (decide (lenP = 0))
        else pure false)
      let lenM ← lenOrRaise (dictGetD ds "metrics" (vList []))
      let needA := decide (lenA = 0)
      let needV := decide (lenV = 0)
      let needM := decide (lenM = 0)
      let ds ← (if needA ∨ needV ∨ needS ∨ needM then do
          ctxCheck ds
          match gen with
          | .success v => pure (mergeGenFirst ds needA needV needS needM v)
          | _ => pure ds
        else pure ds)
      let tlOut ← projectTimelineWith apiVideoSegFirst (dictGetV ds "timeline")
      let mItems ← pyIter (pyOr (dictGetD ds "metrics" (vList [])) (vList []))
      let metricsOut := mItems.filterMap coerceMetricOpt
      let metricsOut ← (if metricsOut.isEmpty then pure metricsOut
        else fill_metric_feedback metricsOut bgen)
      pure (vDict
        [("sessionId", outSessionId ds0),
         ("sessionName", outSessionName ds0),
         ("videoUrl", outVideoUrl ds0),
         ("duration", vInt durInt),
         ("timeline", tlOut),
         ("metrics", vList metricsOut),
         ("weakMoments", pyOr (dictGetD ds "weakMoments" (vList [])) (vList []))])

/-- The first, lexically earlier `Session.normalize_for_api`
(models.py:864-1109): shadowed at runtime by the second definition.
It contains the Gemini synthesis attempt (abstracted by `gen`) and the
metric-feedback backfill (abstracted by `bgen`); its final coercion
matches the second definition except that the eye-contact `float()` is
guarded, and it emits a `weakMoments` field. -/
def normalize_for_api_first (s : Value) (gen bgen : GenOutcome) :
    Except String Value := do
  if ¬s.truthy then pure (vDict []) else
  match s with
  | vDict ds0 => firstCore ds0 gen bgen
  | _ => .error "TypeError: dict() on non-mapping"

/-- `Session.fill_missing_fields_with_gemini` (models.py:361-559), with
the external call abstracted by `gen`.  Total: every exception is
caught and the (possibly partially updated) document is returned. -/
def fill_missing_fields (doc : Value) (gen : GenOutcome) : Value :=
  match gen with
  | .noKey => doc
  | _ =>
      match doc with
      | vDict ds =>
          match computeFlags ds with
          | .error _ => doc
          | .ok fl =>
              if fl.allPopulated then doc
              else
                match gen with
                | .success v =>
                    vDict (collapseD (do
                      let ds ← mergeTimeline ds fl v
                      let ds ← mergeMetrics ds fl v
                      pure (mergeWeak ds v)))
                | _ => doc
      | _ => doc

/-- Project a key out of a dict-shaped value (statement helper). -/
def getKey (v : Value) (k : String) : Option Value :=
  match v with
  | vDict ds => dictGet? ds k
  | _ => none

/-- Project a key out of a successful result (statement helper). -/
def okKey (r : Except String Value) (k : String) : Option Value :=
  match r with
  | .ok v => getKey v k
  | .error _ => none

/-! ### Association-list lemmas -/

namespace Value

theorem dictGet?_set_self (es : List (String × Value)) (k : String) (v : Value) :
    dictGet? (dictSet es k v) k = some v := by
  induction es with
  | nil => simp [dictSet, dictGet?]
  | cons p es ih =>
      obtain ⟨k', w⟩ := p
      by_cases h : k' = k
      · simp [dictSet, h, dictGet?]
      · simp [dictSet, h, dictGet?, ih]

theorem dictGet?_set_ne (es : List (String × Value)) (k k' : String) (v : Value)
    (h : k' ≠ k) : dictGet? (dictSet es k v) k' = dictGet? es k' := by
  induction es with
  | nil => simp [dictSet, dictGet?, Ne.symm h]
  | cons p es ih =>
      obtain ⟨k0, w⟩ := p
      by_cases h0 : k0 = k
      · subst h0
        simp [dictSet, dictGet?, Ne.symm h]
      · by_cases h1 : k0 = k'
        · simp [dictSet, h0, dictGet?, h1, h]
        · simp [dictSet, h0, dictGet?, h1, ih]

theorem dictGet?_append (es fs : List (String × Value)) (k : String) :
    dictGet? (es ++ fs) k =
      match dictGet? es k with
      | some v => some v
      | none => dictGet? fs k := by
  induction es with
  | nil => simp [dictGet?]
  | cons p es ih =>
      obtain ⟨k0, w⟩ := p
      by_cases h : k0 = k
      · simp [dictGet?, h]
      · simp [dictGet?, h, ih]

theorem dictGet?_setdefault_ne (es : List (String × Value)) (k k' : String)
    (v : Value) (h : k' ≠ k) :
    dictGet? (dictSetdefault es k v) k' = dictGet? es k' := by
  unfold dictSetdefault
  by_cases hk : dictHas es k
  · simp [hk]
  · simp [hk, dictGet?_append]
    cases hg : dictGet? es k' with
    | some w => simp
    | none => simp [dictGet?, Ne.symm h]

theorem dictGet?_setdefault_self (es : List (String × Value)) (k : String)
    (v : Value) :
    dictGet? (dictSetdefault es k v) k = some ((dictGet? es k).getD v) := by
  unfold dictSetdefault dictHas
  cases hg : dictGet? es k with
  | some w => simp [hg]
  | none => simp [dictGet?_append, hg, dictGet?]

theorem dictSetdefault_of_has (es : List (String × Value)) (k : String)
    (v : Value) (h : dictHas es k) : dictSetdefault es k v = es := by
  simp [dictSetdefault, h]

theorem dictSet_eq_of_get (es : List (String × Value)) (k : String) (v : Value)
    (h : dictGet? es k = some v) : dictSet es k v = es := by
  induction es with
  | nil => simp [dictGet?] at h
  | cons p es ih =>
      obtain ⟨k0, w⟩ := p
      by_cases h0 : k0 = k
      · subst h0
        simp [dictGet?] at h
        simp [dictSet, h]
      · simp [dictGet?, h0] at h
        simp [dictSet, h0, ih h]

theorem dictHas_set (es : List (String × Value)) (k k' : String) (v : Value) :
    dictHas (dictSet es k v) k' = (k' = k ∨ dictHas es k') := by
  by_cases h : k' = k
  · subst h; simp [dictHas, dictGet?_set_self]
  · simp [dictHas, dictGet?_set_ne es k k' v h, h]

theorem dictHas_setdefault (es : List (String × Value)) (k k' : String)
    (v : Value) :
    dictHas (dictSetdefault es k v) k' = (k' = k ∨ dictHas es k') := by
  by_cases h : k' = k
  · subst h; simp [dictHas, dictGet?_setdefault_self]
  · simp [dictHas, dictGet?_setdefault_ne es k k' v h, h]

end Value

instance : DecidableEq (Except String Value)
  | .ok x, .ok y =>
      if h : x = y then isTrue (by rw [h]) else isFalse (by simp [h])
  | .error e, .error f =>
      if h : e = f then isTrue (by rw [h]) else isFalse (by simp [h])
  | .ok _, .error _ => isFalse (by simp)
  | .error _, .ok _ => isFalse (by simp)

/-! ### Inversion lemmas for `Except` pipelines -/

theorem exBind_ok {ε α β : Type} (x : Except ε α) (f : α → Except ε β)
    (b : β) : x.bind f = .ok b ↔ ∃ a, x = .ok a ∧ f a = .ok b := by
  cases x <;> simp [Except.bind]

theorem bind_eq_exBindU {ε α β : Type} (x : Except ε α)
    (f : α → Except ε β) : x >>= f = x.bind f := rfl

theorem bind_eq_exBind {α β : Type} (x : Except String α)
    (f : α → Except String β) : x >>= f = x.bind f := rfl

theorem exMapM_nil (f : Value → Except String Value) :
    exMapM f [] = .ok [] := rfl

theorem exMapM_cons (f : Value → Except String Value) (x : Value)
    (xs : List Value) :
    exMapM f (x :: xs) =
      (f x).bind (fun y => (exMapM f xs).bind (fun ys => .ok (y :: ys))) := rfl

theorem exMapM_ok_mem (f : Value → Except String Value) (xs ys : List Value)
    (h : exMapM f xs = .ok ys) : ∀ y ∈ ys, ∃ x ∈ xs, f x = .ok y := by
  induction xs generalizing ys with
  | nil =>
      simp [exMapM_nil] at h
      subst h
      intro y hy
      cases hy
  | cons x xs ih =>
      rw [exMapM_cons, exBind_ok] at h
      obtain ⟨y0, hfx, h2⟩ := h
      rw [exBind_ok] at h2
      obtain ⟨ys0, hrest, h3⟩ := h2
      cases h3
      intro y hy
      rcases List.mem_cons.mp hy with rfl | hy'
      · exact ⟨x, List.mem_cons_self x xs, hfx⟩
      · obtain ⟨x', hx', hfx'⟩ := ih ys0 hrest y hy'
        exact ⟨x', List.mem_cons_of_mem x hx', hfx'⟩

theorem exMapM_ok_length (f : Value → Except String Value) (xs ys : List Value)
    (h : exMapM f xs = .ok ys) : ys.length = xs.length := by
  induction xs generalizing ys with
  | nil => simp [exMapM_nil] at h; simp [← h]
  | cons x xs ih =>
      rw [exMapM_cons, exBind_ok] at h
      obtain ⟨y0, _, h2⟩ := h
      rw [exBind_ok] at h2
      obtain ⟨ys0, hrest, h3⟩ := h2
      cases h3
      simp [ih ys0 hrest]

theorem exMapM_ok_of_all (f : Value → Except String Value) (xs : List Value)
    (h : ∀ x ∈ xs, (f x).isOk = true) : (exMapM f xs).isOk = true := by
  induction xs with
  | nil => rfl
  | cons x xs ih =>
      have hx := h x (List.mem_cons_self x xs)
      cases hfx : f x with
      | error e => rw [hfx] at hx; simp [Except.isOk, Except.toBool] at hx
      | ok y =>
          have hrest := ih (fun z hz => h z (List.mem_cons_of_mem x hz))
          cases hr : exMapM f xs with
          | error e => rw [hr] at hrest; simp [Except.isOk, Except.toBool] at hrest
          | ok ys => simp [exMapM_cons, hfx, hr, Except.bind, Except.isOk, Except.toBool]

/-! ### Structure of `prepare_for_insert` results -/

theorem dictGet?_stringifyIds_ne (es : List (String × Value)) (k : String)
    (h1 : k ≠ "mentorId") (h2 : k ≠ "userId") :
    dictGet? (stringifyIds es) k = dictGet? es k := by
  unfold stringifyIds
  by_cases hm : dictHas es "mentorId" <;> by_cases hu : dictHas es "userId" <;>
    simp [hm, hu, dictHas_set, dictGet?_set_ne _ _ _ _ h1,
      dictGet?_set_ne _ _ _ _ h2]

theorem normSub_ok (tl tl' : List (String × Value)) (k : String)
    (f : Value → Except String Value) (h : normSub tl k f = .ok tl') :
    ∃ items normed, pyIter (dictGetD tl k (vList [])) = .ok items ∧
      exMapM f items = .ok normed ∧ tl' = dictSet tl k (vList normed) := by
  unfold normSub at h
  rw [bind_eq_exBind, exBind_ok] at h
  obtain ⟨items, hit, h2⟩ := h
  rw [bind_eq_exBind, exBind_ok] at h2
  obtain ⟨normed, hn, h3⟩ := h2
  cases h3
  exact ⟨items, normed, hit, hn, rfl⟩

/-- Every successful `prepareTimeline` result binds each of the five
sub-sequence keys to a list. -/
theorem prepareTimeline_shape (tlv : Value) (tl : List (String × Value))
    (h : prepareTimeline tlv = .ok tl) :
    (∃ xs, dictGet? tl "audio" = some (vList xs)) ∧
      (∃ xs, dictGet? tl "video" = some (vList xs)) ∧
      (∃ xs, dictGet? tl "transcript" = some (vList xs)) ∧
      (∃ xs, dictGet? tl "scoreDips" = some (vList xs)) ∧
      (∃ xs, dictGet? tl "scorePeaks" = some (vList xs)) := by
  unfold prepareTimeline at h
  rw [bind_eq_exBind, exBind_ok] at h
  obtain ⟨t1, h1, h⟩ := h
  rw [bind_eq_exBind, exBind_ok] at h
  obtain ⟨t2, h2, h⟩ := h
  rw [bind_eq_exBind, exBind_ok] at h
  obtain ⟨t3, h3, h⟩ := h
  rw [bind_eq_exBind, exBind_ok] at h
  obtain ⟨t4, h4, h⟩ := h
  obtain ⟨i1, n1, _, _, e1⟩ := normSub_ok _ _ _ _ h1
  obtain ⟨i2, n2, _, _, e2⟩ := normSub_ok _ _ _ _ h2
  obtain ⟨i3, n3, _, _, e3⟩ := normSub_ok _ _ _ _ h3
  obtain ⟨i4, n4, _, _, e4⟩ := normSub_ok _ _ _ _ h4
  obtain ⟨i5, n5, _, _, e5⟩ := normSub_ok _ _ _ _ h
  subst e1 e2 e3 e4 e5
  refine ⟨⟨n1, ?_⟩, ⟨n2, ?_⟩, ⟨n3, ?_⟩, ⟨n4, ?_⟩, ⟨n5, ?_⟩⟩ <;>
    simp [dictGet?_set_self, dictGet?_set_ne _ _ _ _ (by decide : ("audio" : String) ≠ "video"),
      dictGet?_set_ne _ _ _ _ (by decide : ("audio" : String) ≠ "transcript"),
      dictGet?_set_ne _ _ _ _ (by decide : ("audio" : String) ≠ "scoreDips"),
      dictGet?_set_ne _ _ _ _ (by decide : ("audio" : String) ≠ "scorePeaks"),
      dictGet?_set_ne _ _ _ _ (by decide : ("video" : String) ≠ "transcript"),
      dictGet?_set_ne _ _ _ _ (by decide : ("video" : String) ≠ "scoreDips"),
      dictGet?_set_ne _ _ _ _ (by decide : ("video" : String) ≠ "scorePeaks"),
      dictGet?_set_ne _ _ _ _ (by decide : ("transcript" : String) ≠ "scoreDips"),
      dictGet?_set_ne _ _ _ _ (by decide : ("transcript" : String) ≠ "scorePeaks"),
      dictGet?_set_ne _ _ _ _ (by decide : ("scoreDips" : String) ≠ "scorePeaks")]

/-- Decomposition of a successful `prepareCore`. -/
theorem prepareCore_ok_structure (ds0 : List (String × Value)) (doc : Value)
    (h : prepareCore ds0 = .ok doc) :
    ∃ tl ms,
      prepareTimeline (dictGetV (dictSet (idNameUrl ds0) "duration"
        (vInt (durationOf (idNameUrl ds0)))) "timeline") = .ok tl ∧
      prepareMetrics (dictGetD (dictSet (dictSet (idNameUrl ds0) "duration"
        (vInt (durationOf (idNameUrl ds0)))) "timeline" (vDict tl)) "metrics"
        (vList [])) = .ok ms ∧
      doc = vDict (dictSetdefault (stringifyIds (dictSet (dictSet (dictSet
        (idNameUrl ds0) "duration" (vInt (durationOf (idNameUrl ds0))))
        "timeline" (vDict tl)) "metrics" (vList ms))) "weakMoments"
        (dictGetD (stringifyIds (dictSet (dictSet (dictSet (idNameUrl ds0)
          "duration" (vInt (durationOf (idNameUrl ds0)))) "timeline"
          (vDict tl)) "metrics" (vList ms))) "weakMoments" (vList []))) := by
  unfold prepareCore at h
  rw [bind_eq_exBind, exBind_ok] at h
  obtain ⟨tl, htl, h⟩ := h
  rw [bind_eq_exBind, exBind_ok] at h
  obtain ⟨ms, hms, h⟩ := h
  cases h
  exact ⟨tl, ms, htl, hms, rfl⟩

theorem ciValsOf_shape (ci : Value) : ∃ a b : Int, ciValsOf ci = [vInt a, vInt b] := by
  unfold ciValsOf
  cases ci with
  | vList xs =>
      match xs with
      | [] => exact ⟨0, 100, rfl⟩
      | [a] => exact ⟨0, 100, rfl⟩
      | a :: b :: rest =>
          cases ha : toInt? a with
          | none => exact ⟨0, 100, by simp [ha]⟩
          | some x =>
              cases hb : toInt? b with
              | none => exact ⟨0, 100, by simp [ha, hb]⟩
              | some y => exact ⟨x, y, by simp [ha, hb]⟩
  | vNone => exact ⟨0, 100, rfl⟩
  | vBool b => exact ⟨0, 100, rfl⟩
  | vInt n => exact ⟨0, 100, rfl⟩
  | vFloat q => exact ⟨0, 100, rfl⟩
  | vStr s => exact ⟨0, 100, rfl⟩
  | vDict es => exact ⟨0, 100, rfl⟩
  | vDateTime ms => exact ⟨0, 100, rfl⟩
  | vObjectId s => exact ⟨0, 100, rfl⟩

theorem listOrEmpty_shape (w : Value) : ∃ xs, listOrEmpty w = vList xs := by
  unfold listOrEmpty
  cases w with
  | vList xs => exact ⟨xs, rfl⟩
  | vNone => exact ⟨[], rfl⟩
  | vBool b => exact ⟨[], rfl⟩
  | vInt n => exact ⟨[], rfl⟩
  | vFloat q => exact ⟨[], rfl⟩
  | vStr s => exact ⟨[], rfl⟩
  | vDict es => exact ⟨[], rfl⟩
  | vDateTime ms => exact ⟨[], rfl⟩
  | vObjectId s => exact ⟨[], rfl⟩

/-- Every metric `prepare_for_insert` emits is a mapping with an
(unclamped) integer score, a two-integer confidence interval, and list
feedback fields. -/
theorem normMetric_shape (m y : Value) (h : normMetric m = .ok y) :
    ∃ es, y = vDict es ∧
      (∃ n : Int, dictGet? es "score" = some (vInt n)) ∧
      (∃ a b : Int, dictGet? es "confidenceInterval" = some (vList [vInt a, vInt b])) ∧
      (∃ xs, dictGet? es "whatHelped" = some (vList xs)) ∧
      (∃ ys, dictGet? es "whatHurt" = some (vList ys)) := by
  unfold normMetric at h
  cases hm : pyOr m (vDict []) with
  | vDict es0 =>
      rw [hm] at h
      simp only [pure, Except.pure, Except.ok.injEq] at h
      subst h
      obtain ⟨a, b, hci⟩ := ciValsOf_shape (pyOr (dictGetV es0 "confidenceInterval")
        (pyOr (dictGetV es0 "confidence_interval") (vList [])))
      obtain ⟨xs, hxs⟩ := listOrEmpty_shape (pyOr (dictGetV es0 "whatHelped")
        (pyOr (dictGetV es0 "what_helped") (vList [])))
      obtain ⟨ys, hys⟩ := listOrEmpty_shape (pyOr (dictGetV es0 "whatHurt")
        (pyOr (dictGetV es0 "what_hurt") (vList [])))
      refine ⟨_, rfl, ⟨segTryInt1 es0 "score", ?_⟩, ⟨a, b, ?_⟩, ⟨xs, ?_⟩, ⟨ys, ?_⟩⟩ <;>
        simp [dictGet?, hci, hxs, hys]
  | vNone => rw [hm] at h; cases h
  | vBool b => rw [hm] at h; cases h
  | vInt n => rw [hm] at h; cases h
  | vFloat q => rw [hm] at h; cases h
  | vStr s => rw [hm] at h; cases h
  | vList xs => rw [hm] at h; cases h
  | vDateTime ms => rw [hm] at h; cases h
  | vObjectId s => rw [hm] at h; cases h

theorem prepare_ok_core (raw doc : Value)
    (h : prepare_for_insert raw = .ok doc) :
    ∃ ds0, unwrap (pyOr raw (vDict [])) = .ok (vDict ds0) ∧
      prepareCore ds0 = .ok doc := by
  unfold prepare_for_insert at h
  rw [bind_eq_exBind, exBind_ok] at h
  obtain ⟨doc0, hu, h⟩ := h
  cases doc0 with
  | vDict ds0 => exact ⟨ds0, hu, h⟩
  | vNone => cases h
  | vBool b => cases h
  | vInt n => cases h
  | vFloat q => cases h
  | vStr s => cases h
  | vList xs => cases h
  | vDateTime ms => cases h
  | vObjectId s => cases h

/-- The `getKey`-view of the `prepareCore` result decomposition: the
final document still binds `timeline` to the normalized timeline and
`metrics` to the normalized metric list. -/
theorem prepareCore_ok_keys (ds0 : List (String × Value)) (doc : Value)
    (h : prepareCore ds0 = .ok doc) :
    ∃ tl ms,
      prepareTimeline (dictGetV (dictSet (idNameUrl ds0) "duration"
        (vInt (durationOf (idNameUrl ds0)))) "timeline") = .ok tl ∧
      getKey doc "timeline" = some (vDict tl) ∧
      prepareMetrics (dictGetD (dictSet (dictSet (idNameUrl ds0) "duration"
        (vInt (durationOf (idNameUrl ds0)))) "timeline" (vDict tl)) "metrics"
        (vList [])) = .ok ms ∧
      getKey doc "metrics" = some (vList ms) ∧
      getKey doc "duration" = some (vInt (durationOf (idNameUrl ds0))) := by
  obtain ⟨tl, ms, htl, hms, hdoc⟩ := prepareCore_ok_structure ds0 doc h
  subst hdoc
  refine ⟨tl, ms, htl, ?_, hms, ?_, ?_⟩ <;>
    simp [getKey,
      dictGet?_setdefault_ne _ _ _ _ (by decide : ("timeline" : String) ≠ "weakMoments"),
      dictGet?_setdefault_ne _ _ _ _ (by decide : ("metrics" : String) ≠ "weakMoments"),
      dictGet?_setdefault_ne _ _ _ _ (by decide : ("duration" : String) ≠ "weakMoments"),
      dictGet?_stringifyIds_ne _ _ (by decide : ("timeline" : String) ≠ "mentorId")
        (by decide : ("timeline" : String) ≠ "userId"),
      dictGet?_stringifyIds_ne _ _ (by decide : ("metrics" : String) ≠ "mentorId")
        (by decide : ("metrics" : String) ≠ "userId"),
      dictGet?_stringifyIds_ne _ _ (by decide : ("duration" : String) ≠ "mentorId")
        (by decide : ("duration" : String) ≠ "userId"),
      dictGet?_set_self,
      dictGet?_set_ne _ _ _ _ (by decide : ("timeline" : String) ≠ "metrics"),
      dictGet?_set_ne _ _ _ _ (by decide : ("duration" : String) ≠ "metrics"),
      dictGet?_set_ne _ _ _ _ (by decide : ("duration" : String) ≠ "timeline")]

/-! ### Claim C9 -/

/-- C9: for every falsy input (`None`, the empty mapping, or any other
falsy value), the effective `normalize_for_api` returns the empty
mapping `{}`, which consequently has no `sessionId`, no `timeline` and
no `metrics` key. -/
theorem c9_falsy_input_yields_empty (s : Value) (h : s.truthy = false) :
    normalize_for_api s = .ok (vDict []) ∧
      ∀ k : String, okKey (normalize_for_api s) k = none := by
  have h1 : normalize_for_api s = .ok (vDict []) := by
    unfold normalize_for_api
    simp [h, pure, Except.pure]
  refine ⟨h1, fun k => ?_⟩
  simp [okKey, h1, getKey, dictGet?]

/-- Witness for C9 at the two inputs the claim names: `None` and `{}`. -/
theorem c9_falsy_input_yields_empty_witness :
    (Value.vNone.truthy = false ∧ normalize_for_api vNone = .ok (vDict [])) ∧
      ((Value.vDict []).truthy = false ∧
        okKey (normalize_for_api (vDict [])) "sessionId" = none) :=
  ⟨⟨rfl, (c9_falsy_input_yields_empty vNone rfl).1⟩,
   ⟨rfl, (c9_falsy_input_yields_empty (vDict []) rfl).2 "sessionId"⟩⟩

/-! ### Claims C2, C3, C6: amended theorems -/

/-- C2 (amended): whenever `prepare_for_insert` returns a record, its
timeline contains *at least* the five named sub-sequences, each bound to
a list (extra input keys inside `timeline` are preserved, so "exactly
five" fails — see the counterexample), and `metrics` is bound to a
list. -/
theorem c2_timeline_has_five_subsequences (raw doc : Value)
    (h : prepare_for_insert raw = .ok doc) :
    ∃ tl, getKey doc "timeline" = some (vDict tl) ∧
      (∃ xs, dictGet? tl "audio" = some (vList xs)) ∧
      (∃ xs, dictGet? tl "video" = some (vList xs)) ∧
      (∃ xs, dictGet? tl "transcript" = some (vList xs)) ∧
      (∃ xs, dictGet? tl "scoreDips" = some (vList xs)) ∧
      (∃ xs, dictGet? tl "scorePeaks" = some (vList xs)) ∧
      (∃ ms, getKey doc "metrics" = some (vList ms)) := by
  obtain ⟨ds0, _, hcore⟩ := prepare_ok_core raw doc h
  obtain ⟨tl, ms, htl, hktl, _, hkms, _⟩ := prepareCore_ok_keys ds0 doc hcore
  obtain ⟨h1, h2, h3, h4, h5⟩ := prepareTimeline_shape _ tl htl
  exact ⟨tl, hktl, h1, h2, h3, h4, h5, ms, hkms⟩

def c2WitnessRaw : Value := vDict [("sessionId", vStr "a")]

def c2WitnessDoc : Value := vDict
  [("sessionId", vStr "a"), ("sessionName", vStr "Session a"),
   ("videoUrl", vStr ""), ("duration", vInt 0),
   ("timeline", vDict
     [("audio", vList []), ("video", vList []), ("transcript", vList []),
      ("scoreDips", vList []), ("scorePeaks", vList [])]),
   ("metrics", vList []), ("weakMoments", vList [])]

/-- Witness for C2 at a concrete input. -/
theorem c2_timeline_has_five_subsequences_witness :
    prepare_for_insert c2WitnessRaw = .ok c2WitnessDoc ∧
      (∃ tl, getKey c2WitnessDoc "timeline" = some (vDict tl) ∧
        (∃ xs, dictGet? tl "audio" = some (vList xs)) ∧
        (∃ xs, dictGet? tl "video" = some (vList xs)) ∧
        (∃ xs, dictGet? tl "transcript" = some (vList xs)) ∧
        (∃ xs, dictGet? tl "scoreDips" = some (vList xs)) ∧
        (∃ xs, dictGet? tl "scorePeaks" = some (vList xs)) ∧
        (∃ ms, getKey c2WitnessDoc "metrics" = some (vList ms))) :=
  ⟨by decide,
   c2_timeline_has_five_subsequences c2WitnessRaw c2WitnessDoc (by decide)⟩

/-- C3 (amended): every metric `prepare_for_insert` emits has an
integer score (coerced, *not* clamped — see the counterexample), a
confidence interval that is a pair of integers (defaulting to
`[0, 100]`, otherwise taken unclamped and unordered from the input),
and `whatHelped`/`whatHurt` bound to lists. -/
theorem c3_metric_output_shape (raw doc : Value)
    (h : prepare_for_insert raw = .ok doc) (ms : List Value)
    (hms : getKey doc "metrics" = some (vList ms)) :
    ∀ m ∈ ms, ∃ es, m = vDict es ∧
      (∃ n : Int, dictGet? es "score" = some (vInt n)) ∧
      (∃ a b : Int, dictGet? es "confidenceInterval" =
        some (vList [vInt a, vInt b])) ∧
      (∃ xs, dictGet? es "whatHelped" = some (vList xs)) ∧
      (∃ ys, dictGet? es "whatHurt" = some (vList ys)) := by
  obtain ⟨ds0, _, hcore⟩ := prepare_ok_core raw doc h
  obtain ⟨tl, ms', _, _, hpm, hkms, _⟩ := prepareCore_ok_keys ds0 doc hcore
  rw [hms] at hkms
  have hms' : ms = ms' := by
    injection hkms with h1
    injection h1
  subst hms'
  unfold prepareMetrics at hpm
  rw [bind_eq_exBind, exBind_ok] at hpm
  obtain ⟨items, _, hmapped⟩ := hpm
  intro m hm
  obtain ⟨x, _, hx⟩ := exMapM_ok_mem _ _ _ hmapped m hm
  exact normMetric_shape x m hx

def c3WitnessRaw : Value := vDict [("metrics", vList
  [vDict [("name", vStr "A"), ("score", vInt 150),
          ("confidenceInterval", vList [vInt 120, vInt (-5)])]])]

def c3WitnessDoc : Value := vDict
  [("metrics", vList
     [vDict [("name", vStr "A"), ("score", vInt 150),
             ("confidenceInterval", vList [vInt 120, vInt (-5)]),
             ("whatHelped", vList []), ("whatHurt", vList [])]]),
   ("sessionId", vStr ""), ("sessionName", vStr "Session "),
   ("videoUrl", vStr ""), ("duration", vInt 0),
   ("timeline", vDict
     [("audio", vList []), ("video", vList []), ("transcript", vList []),
      ("scoreDips", vList []), ("scorePeaks", vList [])]),
   ("weakMoments", vList [])]

/-- Witness for C3 at a concrete input. -/
theorem c3_metric_output_shape_witness :
    prepare_for_insert c3WitnessRaw = .ok c3WitnessDoc ∧
      getKey c3WitnessDoc "metrics" =
        some (vList [vDict [("name", vStr "A"), ("score", vInt 150),
          ("confidenceInterval", vList [vInt 120, vInt (-5)]),
          ("whatHelped", vList []), ("whatHurt", vList [])]]) ∧
      (∀ m ∈ [vDict [("name", vStr "A"), ("score", vInt 150),
          ("confidenceInterval", vList [vInt 120, vInt (-5)]),
          ("whatHelped", vList []), ("whatHurt", vList [])]],
        ∃ es, m = vDict es ∧
          (∃ n : Int, dictGet? es "score" = some (vInt n)) ∧
          (∃ a b : Int, dictGet? es "confidenceInterval" =
            some (vList [vInt a, vInt b])) ∧
          (∃ xs, dictGet? es "whatHelped" = some (vList xs)) ∧
          (∃ ys, dictGet? es "whatHurt" = some (vList ys))) :=
  ⟨by decide, by decide,
   c3_metric_output_shape c3WitnessRaw c3WitnessDoc (by decide) _ (by decide)⟩

/-- C6 (amended): `prepare_for_insert` coerces `duration` to an integer
— not necessarily non-negative (see the counterexample) — and the
coercion step itself never raises: a non-numeric `duration` (a string
that `int()` rejects, or a list) silently becomes 0. -/
theorem c6_duration_coerced_to_int :
    (∀ raw doc, prepare_for_insert raw = .ok doc →
      ∃ n : Int, getKey doc "duration" = some (vInt n)) ∧
      okKey (prepare_for_insert (vDict [("duration", vStr "abc")]))
        "duration" = some (vInt 0) ∧
      okKey (prepare_for_insert (vDict [("duration", vList [vInt 3])]))
        "duration" = some (vInt 0) := by
  refine ⟨fun raw doc h => ?_, rfl, rfl⟩
  obtain ⟨ds0, _, hcore⟩ := prepare_ok_core raw doc h
  obtain ⟨_, _, _, _, _, _, hdur⟩ := prepareCore_ok_keys ds0 doc hcore
  exact ⟨_, hdur⟩

def c6WitnessRaw : Value := vDict [("sessionId", vStr "b"), ("duration", vInt 7)]

def c6WitnessDoc : Value := vDict
  [("sessionId", vStr "b"), ("duration", vInt 7),
   ("sessionName", vStr "Session b"), ("videoUrl", vStr ""),
   ("timeline", vDict
     [("audio", vList []), ("video", vList []), ("transcript", vList []),
      ("scoreDips", vList []), ("scorePeaks", vList [])]),
   ("metrics", vList []), ("weakMoments", vList [])]

/-- Witness for C6 at a concrete input. -/
theorem c6_duration_coerced_to_int_witness :
    prepare_for_insert c6WitnessRaw = .ok c6WitnessDoc ∧
      (∃ n : Int, getKey c6WitnessDoc "duration" = some (vInt n)) :=
  ⟨by decide, c6_duration_coerced_to_int.1 c6WitnessRaw c6WitnessDoc (by decide)⟩

/-! ### Claims C7, C10: the effective projector -/

theorem normalize_ok_structure (ds : List (String × Value)) (out : Value)
    (htr : (Value.vDict ds).truthy = true)
    (h : normalize_for_api (vDict ds) = .ok out) :
    ∃ durInt tlOut mItems,
      intOrRaise (pyOr (deriveDurationVal ds) (vInt 0)) = .ok durInt ∧
      projectTimelineWith apiVideoSegSecond
        (pyOr (dictGetV ds "timeline") (vDict [])) = .ok tlOut ∧
      pyIter (pyOr (dictGetD ds "metrics" (vList [])) (vList [])) = .ok mItems ∧
      out = vDict
        [("sessionId", outSessionId ds),
         ("sessionName", outSessionName ds),
         ("videoUrl", outVideoUrl ds),
         ("duration", vInt durInt),
         ("timeline", tlOut),
         ("metrics", vList (mItems.filterMap coerceMetricOpt))] := by
  unfold normalize_for_api at h
  rw [if_neg (by simp [htr])] at h
  have h2 : normalizeCore ds = .ok out := h
  unfold normalizeCore at h2
  rw [bind_eq_exBind, exBind_ok] at h2
  obtain ⟨durInt, hdur, h2⟩ := h2
  rw [bind_eq_exBind, exBind_ok] at h2
  obtain ⟨tlOut, htl, h2⟩ := h2
  rw [bind_eq_exBind, exBind_ok] at h2
  obtain ⟨mItems, hmi, h2⟩ := h2
  cases h2
  exact ⟨durInt, tlOut, mItems, hdur, htl, hmi, rfl⟩

/-- Which metric entries the per-entry `try/except: continue` drops:
exactly the non-mappings and the mappings whose truthy `score` is not
`int()`-coercible. -/
theorem coerceMetricOpt_none_iff (m : Value) :
    (coerceMetricOpt m = none) ↔
      (isDict m = false ∨ ∃ es, m = vDict es ∧
        toInt? (pyOr (dictGetV es "score") (vInt 0)) = none) := by
  cases m with
  | vDict es =>
      simp only [coerceMetricOpt, isDict]
      cases hs : toInt? (pyOr (dictGetV es "score") (vInt 0)) with
      | some n => simp [hs]
      | none => simp [hs]
  | vNone => simp [coerceMetricOpt, isDict]
  | vBool b => simp [coerceMetricOpt, isDict]
  | vInt n => simp [coerceMetricOpt, isDict]
  | vFloat q => simp [coerceMetricOpt, isDict]
  | vStr s => simp [coerceMetricOpt, isDict]
  | vList xs => simp [coerceMetricOpt, isDict]
  | vDateTime ms => simp [coerceMetricOpt, isDict]
  | vObjectId s => simp [coerceMetricOpt, isDict]

/-- C10 (amended): the effective `normalize_for_api` iterates the input
metrics and keeps, in order, the successful coercions; an entry is
silently skipped exactly when it is a non-mapping *or* a mapping whose
truthy `score` is not `int()`-coercible (so even mapping-shaped entries
can be dropped — see the counterexample); the output can therefore be
strictly shorter than the input. -/
theorem c10_metrics_skip_semantics (ds : List (String × Value)) (out : Value)
    (htr : (Value.vDict ds).truthy = true)
    (h : normalize_for_api (vDict ds) = .ok out) :
    ∃ mItems,
      pyIter (pyOr (dictGetD ds "metrics" (vList [])) (vList [])) = .ok mItems ∧
      getKey out "metrics" = some (vList (mItems.filterMap coerceMetricOpt)) ∧
      (mItems.filterMap coerceMetricOpt).length ≤ mItems.length ∧
      (∀ m ∈ mItems, (coerceMetricOpt m = none) ↔
        (isDict m = false ∨ ∃ es, m = vDict es ∧
          toInt? (pyOr (dictGetV es "score") (vInt 0)) = none)) := by
  obtain ⟨durInt, tlOut, mItems, _, _, hmi, hout⟩ :=
    normalize_ok_structure ds out htr h
  subst hout
  refine ⟨mItems, hmi, ?_, List.length_filterMap_le _ _, fun m _ =>
    coerceMetricOpt_none_iff m⟩
  simp [getKey, dictGet?]

def c10WitnessDs : List (String × Value) :=
  [("sessionId", vStr "s1"),
   ("metrics", vList [vDict [("name", vStr "X"), ("score", vStr "abc")],
     vStr "junk", vDict [("name", vStr "Y"), ("score", vInt 7)]])]

def c10WitnessOut : Value := vDict
  [("sessionId", vStr "s1"), ("sessionName", vStr "Session s1"),
   ("videoUrl", vStr ""), ("duration", vInt 0),
   ("timeline", vDict
     [("audio", vList []), ("video", vList []), ("transcript", vList []),
      ("scoreDips", vList []), ("scorePeaks", vList [])]),
   ("metrics", vList [vDict
     [("name", vStr "Y"), ("score", vInt 7),
      ("confidenceInterval", vList [vInt 0, vInt 100]),
      ("whatHelped", vList []), ("whatHurt", vList [])]])]

/-- Witness for C10 at a concrete input (three entries, one kept). -/
theorem c10_metrics_skip_semantics_witness :
    normalize_for_api (vDict c10WitnessDs) = .ok c10WitnessOut ∧
      (∃ mItems,
        pyIter (pyOr (dictGetD c10WitnessDs "metrics" (vList [])) (vList [])) =
          .ok mItems ∧
        getKey c10WitnessOut "metrics" =
          some (vList (mItems.filterMap coerceMetricOpt)) ∧
        (mItems.filterMap coerceMetricOpt).length ≤ mItems.length ∧
        (∀ m ∈ mItems, (coerceMetricOpt m = none) ↔
          (isDict m = false ∨ ∃ es, m = vDict es ∧
            toInt? (pyOr (dictGetV es "score") (vInt 0)) = none))) :=
  ⟨by decide,
   c10_metrics_skip_semantics c10WitnessDs c10WitnessOut (by decide) (by decide)⟩

/-- C7 (amended): the duration logic of the effective projector, as the
code orders it.  An explicit int/float (or bool) duration is used
directly; otherwise, when `analysis` is a mapping, its
`duration`/`total_duration` is taken; if the value so far is *falsy*,
the maximum transcript `endTime` is used when the transcript is truthy;
a final bare `int(duration or 0)` then yields 0 for a falsy result but
*raises* for a truthy non-coercible one (see the counterexample), rather
than deriving.  The claim's concrete scenario holds: a stored document
without `duration` whose transcript ends at 500 projects to
`duration == 500`. -/
theorem c7_duration_derivation_order :
    (∀ ds : List (String × Value), isNum (dictGetV ds "duration") = true →
      deriveDurationVal ds = dictGetV ds "duration") ∧
    (∀ (ds : List (String × Value)) (aes : List (String × Value)),
      isNum (dictGetV ds "duration") = false →
      dictGetV ds "analysis" = vDict aes →
      (pyOr (dictGetV aes "duration") (dictGetV aes "total_duration")).truthy = true →
      deriveDurationVal ds =
        pyOr (dictGetV aes "duration") (dictGetV aes "total_duration")) ∧
    (∀ (ds : List (String × Value)) (tes : List (String × Value)),
      isNum (dictGetV ds "duration") = false →
      (dictGetV ds "duration").truthy = false →
      isDict (dictGetV ds "analysis") = false →
      dictGetV ds "timeline" = vDict tes →
      (dictGetD tes "transcript" (vList [])).truthy = true →
      deriveDurationVal ds =
        vInt (maxEndTime (dictGetD tes "transcript" (vList [])))) ∧
    (∀ ds : List (String × Value),
      isNum (dictGetV ds "duration") = false →
      (dictGetV ds "duration").truthy = false →
      isDict (dictGetV ds "analysis") = false →
      isDict (dictGetV ds "timeline") = false →
      intOrRaise (pyOr (deriveDurationVal ds) (vInt 0)) = .ok 0) ∧
    okKey (normalize_for_api (vDict [("sessionId", vStr "s1"),
      ("timeline", vDict [("transcript", vList [vDict [("startTime", vInt 0),
        ("endTime", vInt 500), ("text", vStr "x")]])])])) "duration" =
      some (vInt 500) := by
  refine ⟨fun ds hnum => ?_, fun ds aes hnum ha htr => ?_,
    fun ds tes hnum htru hna htl htr => ?_, fun ds hnum htru hna htl => ?_, rfl⟩
  · unfold deriveDurationVal
    simp [hnum]
  · unfold deriveDurationVal
    simp [hnum, ha, htr]
  · unfold deriveDurationVal
    cases hdv : dictGetV ds "analysis" with
    | vDict aes' => rw [hdv] at hna; simp [isDict] at hna
    | vNone => simp [hnum, hdv, htru, htl, htr]
    | vBool b => simp [hnum, hdv, htru, htl, htr]
    | vInt n => simp [hnum, hdv, htru, htl, htr]
    | vFloat q => simp [hnum, hdv, htru, htl, htr]
    | vStr s => simp [hnum, hdv, htru, htl, htr]
    | vList xs => simp [hnum, hdv, htru, htl, htr]
    | vDateTime ms => simp [hnum, hdv, htru, htl, htr]
    | vObjectId s => simp [hnum, hdv, htru, htl, htr]
  · have hderive : deriveDurationVal ds = dictGetV ds "duration" := by
      unfold deriveDurationVal
      cases hdv : dictGetV ds "analysis" with
      | vDict aes' => rw [hdv] at hna; simp [isDict] at hna
      | vNone =>
          cases hdt : dictGetV ds "timeline" with
          | vDict tes' => rw [hdt] at htl; simp [isDict] at htl
          | vNone => simp [hnum, hdv, htru, hdt]
          | vBool b => simp [hnum, hdv, htru, hdt]
          | vInt n => simp [hnum, hdv, htru, hdt]
          | vFloat q => simp [hnum, hdv, htru, hdt]
          | vStr s => simp [hnum, hdv, htru, hdt]
          | vList xs => simp [hnum, hdv, htru, hdt]
          | vDateTime ms => simp [hnum, hdv, htru, hdt]
          | vObjectId s => simp [hnum, hdv, htru, hdt]
      | vBool b =>
          cases hdt : dictGetV ds "timeline" with
          | vDict tes' => rw [hdt] at htl; simp [isDict] at htl
          | vNone => simp [hnum, hdv, htru, hdt]
          | vBool b2 => simp [hnum, hdv, htru, hdt]
          | vInt n => simp [hnum, hdv, htru, hdt]
          | vFloat q => simp [hnum, hdv, htru, hdt]
          | vStr s => simp [hnum, hdv, htru, hdt]
          | vList xs => simp [hnum, hdv, htru, hdt]
          | vDateTime ms => simp [hnum, hdv, htru, hdt]
          | vObjectId s => simp [hnum, hdv, htru, hdt]
      | vInt n =>
          cases hdt : dictGetV ds "timeline" with
          | vDict tes' => rw [hdt] at htl; simp [isDict] at htl
          | vNone => simp [hnum, hdv, htru, hdt]
          | vBool b => simp [hnum, hdv, htru, hdt]
          | vInt n2 => simp [hnum, hdv, htru, hdt]
          | vFloat q => simp [hnum, hdv, htru, hdt]
          | vStr s => simp [hnum, hdv, htru, hdt]
          | vList xs => simp [hnum, hdv, htru, hdt]
          | vDateTime ms => simp [hnum, hdv, htru, hdt]
          | vObjectId s => simp [hnum, hdv, htru, hdt]
      | vFloat q =>
          cases hdt : dictGetV ds "timeline" with
          | vDict tes' => rw [hdt] at htl; simp [isDict] at htl
          | vNone => simp [hnum, hdv, htru, hdt]
          | vBool b => simp [hnum, hdv, htru, hdt]
          | vInt n => simp [hnum, hdv, htru, hdt]
          | vFloat q2 => simp [hnum, hdv, htru, hdt]
          | vStr s => simp [hnum, hdv, htru, hdt]
          | vList xs => simp [hnum, hdv, htru, hdt]
          | vDateTime ms => simp [hnum, hdv, htru, hdt]
          | vObjectId s => simp [hnum, hdv, htru, hdt]
      | vStr s =>
          cases hdt : dictGetV ds "timeline" with
          | vDict tes' => rw [hdt] at htl; simp [isDict] at htl
          | vNone => simp [hnum, hdv, htru, hdt]
          | vBool b => simp [hnum, hdv, htru, hdt]
          | vInt n => simp [hnum, hdv, htru, hdt]
          | vFloat q => simp [hnum, hdv, htru, hdt]
          | vStr s2 => simp [hnum, hdv, htru, hdt]
          | vList xs => simp [hnum, hdv, htru, hdt]
          | vDateTime ms => simp [hnum, hdv, htru, hdt]
          | vObjectId s2 => simp [hnum, hdv, htru, hdt]
      | vList xs =>
          cases hdt : dictGetV ds "timeline" with
          | vDict tes' => rw [hdt] at htl; simp [isDict] at htl
          | vNone => simp [hnum, hdv, htru, hdt]
          | vBool b => simp [hnum, hdv, htru, hdt]
          | vInt n => simp [hnum, hdv, htru, hdt]
          | vFloat q => simp [hnum, hdv, htru, hdt]
          | vStr s => simp [hnum, hdv, htru, hdt]
          | vList xs2 => simp [hnum, hdv, htru, hdt]
          | vDateTime ms => simp [hnum, hdv, htru, hdt]
          | vObjectId s => simp [hnum, hdv, htru, hdt]
      | vDateTime ms =>
          cases hdt : dictGetV ds "timeline" with
          | vDict tes' => rw [hdt] at htl; simp [isDict] at htl
          | vNone => simp [hnum, hdv, htru, hdt]
          | vBool b => simp [hnum, hdv, htru, hdt]
          | vInt n => simp [hnum, hdv, htru, hdt]
          | vFloat q => simp [hnum, hdv, htru, hdt]
          | vStr s => simp [hnum, hdv, htru, hdt]
          | vList xs => simp [hnum, hdv, htru, hdt]
          | vDateTime ms2 => simp [hnum, hdv, htru, hdt]
          | vObjectId s => simp [hnum, hdv, htru, hdt]
      | vObjectId s =>
          cases hdt : dictGetV ds "timeline" with
          | vDict tes' => rw [hdt] at htl; simp [isDict] at htl
          | vNone => simp [hnum, hdv, htru, hdt]
          | vBool b => simp [hnum, hdv, htru, hdt]
          | vInt n => simp [hnum, hdv, htru, hdt]
          | vFloat q => simp [hnum, hdv, htru, hdt]
          | vStr s2 => simp [hnum, hdv, htru, hdt]
          | vList xs => simp [hnum, hdv, htru, hdt]
          | vDateTime ms => simp [hnum, hdv, htru, hdt]
          | vObjectId s2 => simp [hnum, hdv, htru, hdt]
    rw [hderive]
    cases hd0 : dictGetV ds "duration" with
    | vNone => rfl
    | vBool b => rw [hd0] at htru; simp [truthy] at htru; subst htru; rfl
    | vInt n =>
        rw [hd0] at hnum; simp [isNum] at hnum
    | vFloat q =>
        rw [hd0] at hnum; simp [isNum] at hnum
    | vStr s =>
        rw [hd0] at htru; simp [truthy] at htru; subst htru; rfl
    | vList xs =>
        rw [hd0] at htru
        simp [truthy, List.isEmpty_iff] at htru
        subst htru; rfl
    | vDict es =>
        rw [hd0] at htru
        simp [truthy, List.isEmpty_iff] at htru
        subst htru; rfl
    | vDateTime ms => rw [hd0] at htru; simp [truthy] at htru
    | vObjectId s => rw [hd0] at htru; simp [truthy] at htru

/-- Witness for C7 at concrete inputs for each branch. -/
theorem c7_duration_derivation_order_witness :
    (isNum (dictGetV [("duration", vInt 42)] "duration") = true ∧
      deriveDurationVal [("duration", vInt 42)] = vInt 42) ∧
    (deriveDurationVal [("analysis", vDict [("duration", vInt 99)])] = vInt 99) ∧
    (deriveDurationVal [("timeline", vDict [("transcript",
        vList [vDict [("endTime", vInt 500)]])])] = vInt 500) ∧
    (intOrRaise (pyOr (deriveDurationVal [("x", vInt 1)]) (vInt 0)) = .ok 0) :=
  ⟨⟨by decide, c7_duration_derivation_order.1 [("duration", vInt 42)] (by decide)⟩,
   by
     have h := c7_duration_derivation_order.2.1
       [("analysis", vDict [("duration", vInt 99)])]
       [("duration", vInt 99)] (by decide) (by decide) (by decide)
     simpa using h,
   by
     have h := c7_duration_derivation_order.2.2.1
       [("timeline", vDict [("transcript", vList [vDict [("endTime", vInt 500)]])])]
       [("transcript", vList [vDict [("endTime", vInt 500)]])]
       (by decide) (by decide) (by decide) (by decide) (by decide)
     simpa using h,
   c7_duration_derivation_order.2.2.2.1 [("x", vInt 1)]
     (by decide) (by decide) (by decide) (by decide)⟩

/-! ### Claim C4: the gap filler fills only observed-empty fields -/

/-- The timeline sub-sequence as the gap filler reads it:
`doc.get('timeline', {}).get(k, [])`. -/
def tlSub (ds : List (String × Value)) (k : String) : Value :=
  match dictGetD ds "timeline" (vDict []) with
  | vDict tes => dictGetD tes k (vList [])
  | _ => vNone

theorem dictHas_of_truthy_getV (es : List (String × Value)) (k : String)
    (h : (dictGetV es k).truthy = true) : dictHas es k = true := by
  unfold dictGetV at h
  unfold dictHas
  cases hg : dictGet? es k with
  | some v => rfl
  | none => rw [hg] at h; simp [Option.getD, truthy] at h

theorem feedbackEmpty?_congr (es es' : List (String × Value)) (k : String)
    (h : dictGetV es' k = dictGetV es k) :
    feedbackEmpty? es' k = feedbackEmpty? es k := by
  unfold feedbackEmpty?
  rw [h]

/-- How one metric may change under gap filling: non-mappings are
untouched; for mappings, every key other than `whatHelped`/`whatHurt`
is untouched, and each of those two is untouched unless it was observed
empty (`not value or len(value) == 0`). -/
def metricFramed (m m' : Value) : Prop :=
  (isDict m = false → m' = m) ∧
  ∀ es, m = vDict es → ∃ es', m' = vDict es' ∧
    (∀ k, k ≠ "whatHelped" → k ≠ "whatHurt" → dictGet? es' k = dictGet? es k) ∧
    (feedbackEmpty? es "whatHelped" ≠ .ok true →
      dictGetV es' "whatHelped" = dictGetV es "whatHelped") ∧
    (feedbackEmpty? es "whatHurt" ≠ .ok true →
      dictGetV es' "whatHurt" = dictGetV es "whatHurt")

theorem metricFramed_refl (m : Value) : metricFramed m m := by
  refine ⟨fun _ => rfl, fun es hm => ⟨es, hm ▸ rfl, fun _ _ _ => rfl,
    fun _ => rfl, fun _ => rfl⟩⟩

theorem metricFramed_trans (m m' m'' : Value) (h1 : metricFramed m m')
    (h2 : metricFramed m' m'') : metricFramed m m'' := by
  obtain ⟨hn1, hd1⟩ := h1
  obtain ⟨hn2, hd2⟩ := h2
  refine ⟨fun hnd => ?_, fun es hm => ?_⟩
  · rw [hn2 (by rw [hn1 hnd]; exact hnd), hn1 hnd]
  · obtain ⟨es', hm', hk1, hwh1, hwu1⟩ := hd1 es hm
    obtain ⟨es'', hm'', hk2, hwh2, hwu2⟩ := hd2 es' hm'
    refine ⟨es'', hm'', fun k hk hk' => (hk2 k hk hk').trans (hk1 k hk hk'),
      fun hne => ?_, fun hne => ?_⟩
    · have heq : dictGetV es' "whatHelped" = dictGetV es "whatHelped" := hwh1 hne
      have hne' : feedbackEmpty? es' "whatHelped" ≠ .ok true := by
        rw [feedbackEmpty?_congr es es' "whatHelped" heq]
        exact hne
      rw [hwh2 hne', heq]
    · have heq : dictGetV es' "whatHurt" = dictGetV es "whatHurt" := hwu1 hne
      have hne' : feedbackEmpty? es' "whatHurt" ≠ .ok true := by
        rw [feedbackEmpty?_congr es es' "whatHurt" heq]
        exact hne
      rw [hwu2 hne', heq]

theorem setdefaultFeedback_framed (m m' : Value)
    (h : setdefaultFeedback m = .ok m') : metricFramed m m' := by
  cases m with
  | vDict es =>
      unfold setdefaultFeedback at h
      simp only [pure, Except.pure, Except.ok.injEq] at h
      subst h
      refine ⟨fun hnd => by simp [isDict] at hnd, fun es0 hm => ?_⟩
      have hes : es0 = es := by injection hm with hes; rw [hes]
      subst hes
      refine ⟨_, rfl, fun k hk hk' => ?_, fun hne => ?_, fun hne => ?_⟩
      · rw [dictGet?_setdefault_ne _ _ _ _ hk', dictGet?_setdefault_ne _ _ _ _ hk]
      · have htr : (dictGetV es0 "whatHelped").truthy = true := by
          by_contra hf
          apply hne
          unfold feedbackEmpty?
          simp [eq_false_of_ne_true hf, pure, Except.pure]
        have hhas := dictHas_of_truthy_getV es0 "whatHelped" htr
        unfold dictGetV
        rw [dictGet?_setdefault_ne _ _ _ _
          (by decide : ("whatHelped" : String) ≠ "whatHurt")]
        rw [dictSetdefault_of_has _ _ _ hhas]
      · have htr : (dictGetV es0 "whatHurt").truthy = true := by
          by_contra hf
          apply hne
          unfold feedbackEmpty?
          simp [eq_false_of_ne_true hf, pure, Except.pure]
        unfold dictGetV
        rw [dictGet?_setdefault_self]
        have hstep : dictGet? (dictSetdefault es0 "whatHelped" (vList [])) "whatHurt" =
            dictGet? es0 "whatHurt" :=
          dictGet?_setdefault_ne _ _ _ _ (by decide : ("whatHurt" : String) ≠ "whatHelped")
        rw [hstep]
        have hhas := dictHas_of_truthy_getV es0 "whatHurt" htr
        unfold dictHas at hhas
        cases hg : dictGet? es0 "whatHurt" with
        | some w => simp
        | none => rw [hg] at hhas; simp at hhas
  | vNone => cases h
  | vBool b => cases h
  | vInt n => cases h
  | vFloat q => cases h
  | vStr s => cases h
  | vList xs => cases h
  | vDateTime ms => cases h
  | vObjectId s => cases h

theorem exMapM_ok_get (f : Value → Except String Value) (xs ys : List Value)
    (h : exMapM f xs = .ok ys) :
    ∀ i (hi : i < xs.length) (hi' : i < ys.length),
      f (xs.get ⟨i, hi⟩) = .ok (ys.get ⟨i, hi'⟩) := by
  induction xs generalizing ys with
  | nil => intro i hi; cases hi
  | cons x xs ih =>
      rw [exMapM_cons, exBind_ok] at h
      obtain ⟨y0, hfx, h2⟩ := h
      rw [exBind_ok] at h2
      obtain ⟨ys0, hrest, h3⟩ := h2
      cases h3
      intro i hi hi'
      cases i with
      | zero => exact hfx
      | succ j =>
          exact ih ys0 hrest j (Nat.lt_of_succ_lt_succ hi)
            (Nat.lt_of_succ_lt_succ hi')

theorem feedbackFallback_framed (ms r : List Value)
    (h : feedbackFallback ms = .ok r) :
    r.length = ms.length ∧
      ∀ i (hi : i < ms.length) (hi' : i < r.length),
        metricFramed (ms.get ⟨i, hi⟩) (r.get ⟨i, hi'⟩) := by
  unfold feedbackFallback at h
  exact ⟨exMapM_ok_length _ _ _ h, fun i hi hi' =>
    setdefaultFeedback_framed _ _ (exMapM_ok_get _ _ _ h i hi hi')⟩

theorem feedbackUpdateOne_dict (fmap : List (Value × (Value × Value)))
    (es : List (String × Value)) :
    feedbackUpdateOne fmap (vDict es) =
      (if hashableV (dictGetV es "name") then
        match assocGet? fmap (dictGetV es "name") with
        | some (gwh, gwu) =>
            (match feedbackEmpty? es "whatHelped" with
             | .error _ => .error (vDict es)
             | .ok b =>
                let es1 := if b then dictSet es "whatHelped" gwh else es
                match feedbackEmpty? es1 "whatHurt" with
                | .error _ => .error (vDict es1)
                | .ok b2 =>
                    .ok (vDict (if b2 then dictSet es1 "whatHurt" gwu else es1)))
        | none =>
            .ok (vDict (dictSetdefault (dictSetdefault es "whatHelped" (vList []))
              "whatHurt" (vList [])))
      else .error (vDict es)) := rfl

/-- Collapse the per-metric result: on exception the partially updated
metric is what persists. -/
def updPayload : Except Value Value → Value
  | .ok v => v
  | .error v => v

theorem feedbackUpdateOne_framed (fmap : List (Value × (Value × Value)))
    (m : Value) : metricFramed m (updPayload (feedbackUpdateOne fmap m)) := by
  cases m with
  | vDict es =>
      rw [feedbackUpdateOne_dict]
      by_cases hh : hashableV (dictGetV es "name") = true
      · rw [if_pos hh]
        cases hget : assocGet? fmap (dictGetV es "name") with
        | none =>
            show metricFramed (vDict es) (vDict (dictSetdefault
              (dictSetdefault es "whatHelped" (vList [])) "whatHurt" (vList [])))
            exact setdefaultFeedback_framed (vDict es) _ rfl
        | some pr =>
            obtain ⟨gwh, gwu⟩ := pr
            cases h1 : feedbackEmpty? es "whatHelped" with
            | error u => exact metricFramed_refl _
            | ok b =>
                have hes1get : ∀ k2 : String, k2 ≠ "whatHelped" →
                    dictGetV (if b then dictSet es "whatHelped" gwh else es) k2 =
                      dictGetV es k2 := by
                  intro k2 hk2
                  cases b <;> simp [dictGetV, dictGet?_set_ne _ _ _ _ hk2]
                show metricFramed (vDict es) (updPayload
                  (match feedbackEmpty?
                      (if b then dictSet es "whatHelped" gwh else es) "whatHurt" with
                   | .error _ => .error (vDict
                      (if b then dictSet es "whatHelped" gwh else es))
                   | .ok b2 => .ok (vDict (if b2 then
                      dictSet (if b then dictSet es "whatHelped" gwh else es)
                        "whatHurt" gwu
                      else (if b then dictSet es "whatHelped" gwh else es)))))
                cases h2 : feedbackEmpty?
                    (if b then dictSet es "whatHelped" gwh else es) "whatHurt" with
                | error u =>
                    show metricFramed (vDict es)
                      (vDict (if b then dictSet es "whatHelped" gwh else es))
                    refine ⟨fun hnd => by simp [isDict] at hnd, fun es0 hm0 => ?_⟩
                    have hes : es = es0 := by injection hm0 with hq
                    subst hes
                    refine ⟨_, rfl, fun k hk hk' => ?_, fun hne => ?_, fun hne => ?_⟩
                    · cases b <;> simp [dictGet?_set_ne _ _ _ _ hk]
                    · have hb : b = false := by
                        by_contra hb
                        rw [Bool.not_eq_false] at hb
                        subst hb
                        exact hne h1
                      subst hb
                      rfl
                    · exact hes1get "whatHurt"
                        (by decide : ("whatHurt" : String) ≠ "whatHelped")
                | ok b2 =>
                    show metricFramed (vDict es) (vDict (if b2 then
                      dictSet (if b then dictSet es "whatHelped" gwh else es)
                        "whatHurt" gwu
                      else (if b then dictSet es "whatHelped" gwh else es)))
                    refine ⟨fun hnd => by simp [isDict] at hnd, fun es0 hm0 => ?_⟩
                    have hes : es = es0 := by injection hm0 with hq
                    subst hes
                    refine ⟨_, rfl, fun k hk hk' => ?_, fun hne => ?_, fun hne => ?_⟩
                    · cases b2 <;> cases b <;>
                        simp [dictGet?_set_ne _ _ _ _ hk',
                          dictGet?_set_ne _ _ _ _ hk]
                    · have hb : b = false := by
                        by_contra hb
                        rw [Bool.not_eq_false] at hb
                        subst hb
                        exact hne h1
                      subst hb
                      cases b2 <;>
                        simp [dictGetV, dictGet?_set_ne _ _ _ _
                          (by decide : ("whatHelped" : String) ≠ "whatHurt")]
                    · have hwu : feedbackEmpty? es "whatHurt" = .ok b2 := by
                        rw [← h2]
                        exact (feedbackEmpty?_congr _ _ "whatHurt"
                          (hes1get "whatHurt"
                            (by decide : ("whatHurt" : String) ≠ "whatHelped"))).symm
                      have hb2 : b2 = false := by
                        by_contra hb2
                        rw [Bool.not_eq_false] at hb2
                        subst hb2
                        exact hne hwu
                      subst hb2
                      rw [if_neg (by simp : ¬(false = true))]
                      exact hes1get "whatHurt"
                        (by decide : ("whatHurt" : String) ≠ "whatHelped")
      · rw [if_neg hh]
        exact metricFramed_refl _
  | vNone => exact metricFramed_refl _
  | vBool b => exact metricFramed_refl _
  | vInt n => exact metricFramed_refl _
  | vFloat q => exact metricFramed_refl _
  | vStr s => exact metricFramed_refl _
  | vList xs => exact metricFramed_refl _
  | vDateTime ms => exact metricFramed_refl _
  | vObjectId s => exact metricFramed_refl _

theorem mergeMetricOne_dict (gmap : List (Value × Value))
    (es : List (String × Value)) :
    mergeMetricOne gmap (vDict es) =
      (if hashableV (dictGetV es "name") then
        match assocGet? gmap (dictGetV es "name") with
        | some genM =>
            (match feedbackEmpty? es "whatHelped" with
             | .error _ => .error (vDict es)
             | .ok b =>
                let es1 := if b then dictSet es "whatHelped"
                  (genFeedback genM "whatHelped") else es
                match feedbackEmpty? es1 "whatHurt" with
                | .error _ => .error (vDict es1)
                | .ok b2 =>
                    .ok (vDict (if b2 then dictSet es1 "whatHurt"
                      (genFeedback genM "whatHurt") else es1)))
        | none =>
            .ok (vDict (dictSetdefault (dictSetdefault es "whatHelped" (vList []))
              "whatHurt" (vList [])))
      else .error (vDict es)) := rfl

theorem mergeMetricOne_framed (gmap : List (Value × Value)) (m : Value) :
    metricFramed m (updPayload (mergeMetricOne gmap m)) := by
  cases m with
  | vDict es =>
      rw [mergeMetricOne_dict]
      by_cases hh : hashableV (dictGetV es "name") = true
      · rw [if_pos hh]
        cases hget : assocGet? gmap (dictGetV es "name") with
        | none =>
            show metricFramed (vDict es) (vDict (dictSetdefault
              (dictSetdefault es "whatHelped" (vList [])) "whatHurt" (vList [])))
            exact setdefaultFeedback_framed (vDict es) _ rfl
        | some genM =>
            cases h1 : feedbackEmpty? es "whatHelped" with
            | error u => exact metricFramed_refl _
            | ok b =>
                have hes1get : ∀ k2 : String, k2 ≠ "whatHelped" →
                    dictGetV (if b then dictSet es "whatHelped"
                      (genFeedback genM "whatHelped") else es) k2 =
                      dictGetV es k2 := by
                  intro k2 hk2
                  cases b <;> simp [dictGetV, dictGet?_set_ne _ _ _ _ hk2]
                show metricFramed (vDict es) (updPayload
                  (match feedbackEmpty?
                      (if b then dictSet es "whatHelped"
                        (genFeedback genM "whatHelped") else es) "whatHurt" with
                   | .error _ => .error (vDict
                      (if b then dictSet es "whatHelped"
                        (genFeedback genM "whatHelped") else es))
                   | .ok b2 => .ok (vDict (if b2 then
                      dictSet (if b then dictSet es "whatHelped"
                        (genFeedback genM "whatHelped") else es) "whatHurt"
                        (genFeedback genM "whatHurt")
                      else (if b then dictSet es "whatHelped"
                        (genFeedback genM "whatHelped") else es)))))
                cases h2 : feedbackEmpty?
                    (if b then dictSet es "whatHelped"
                      (genFeedback genM "whatHelped") else es) "whatHurt" with
                | error u =>
                    refine ⟨fun hnd => by simp [isDict] at hnd, fun es0 hm0 => ?_⟩
                    have hes : es = es0 := by injection hm0 with hq
                    subst hes
                    refine ⟨_, rfl, fun k hk hk' => ?_, fun hne => ?_, fun hne => ?_⟩
                    · cases b <;> simp [dictGet?_set_ne _ _ _ _ hk]
                    · have hb : b = false := by
                        by_contra hb
                        rw [Bool.not_eq_false] at hb
                        subst hb
                        exact hne h1
                      subst hb
                      rfl
                    · exact hes1get "whatHurt"
                        (by decide : ("whatHurt" : String) ≠ "whatHelped")
                | ok b2 =>
                    refine ⟨fun hnd => by simp [isDict] at hnd, fun es0 hm0 => ?_⟩
                    have hes : es = es0 := by injection hm0 with hq
                    subst hes
                    refine ⟨_, rfl, fun k hk hk' => ?_, fun hne => ?_, fun hne => ?_⟩
                    · cases b2 <;> cases b <;>
                        simp [dictGet?_set_ne _ _ _ _ hk',
                          dictGet?_set_ne _ _ _ _ hk]
                    · have hb : b = false := by
                        by_contra hb
                        rw [Bool.not_eq_false] at hb
                        subst hb
                        exact hne h1
                      subst hb
                      cases b2 <;>
                        simp [dictGetV, dictGet?_set_ne _ _ _ _
                          (by decide : ("whatHelped" : String) ≠ "whatHurt")]
                    · have hwu : feedbackEmpty? es "whatHurt" = .ok b2 := by
                        rw [← h2]
                        exact (feedbackEmpty?_congr _ _ "whatHurt"
                          (hes1get "whatHurt"
                            (by decide : ("whatHurt" : String) ≠ "whatHelped"))).symm
                      have hb2 : b2 = false := by
                        by_contra hb2
                        rw [Bool.not_eq_false] at hb2
                        subst hb2
                        exact hne hwu
                      subst hb2
                      rw [if_neg (by simp : ¬(false = true))]
                      exact hes1get "whatHurt"
                        (by decide : ("whatHurt" : String) ≠ "whatHelped")
      · rw [if_neg hh]
        exact metricFramed_refl _
  | vNone => exact metricFramed_refl _
  | vBool b => exact metricFramed_refl _
  | vInt n => exact metricFramed_refl _
  | vFloat q => exact metricFramed_refl _
  | vStr s => exact metricFramed_refl _
  | vList xs => exact metricFramed_refl _
  | vDateTime ms => exact metricFramed_refl _
  | vObjectId s => exact metricFramed_refl _

theorem feedbackUpdateLoop_framed (fmap : List (Value × (Value × Value)))
    (ms ms' : List Value) (ab : Bool)
    (h : feedbackUpdateLoop fmap ms = (ms', ab)) :
    ms'.length = ms.length ∧
      ∀ i (hi : i < ms.length) (hi' : i < ms'.length),
        metricFramed (ms.get ⟨i, hi⟩) (ms'.get ⟨i, hi'⟩) := by
  induction ms generalizing ms' ab with
  | nil =>
      unfold feedbackUpdateLoop at h
      injection h with h1 h2
      subst h1
      exact ⟨rfl, fun i hi => by cases hi⟩
  | cons m ms ih =>
      unfold feedbackUpdateLoop at h
      cases hone : feedbackUpdateOne fmap m with
      | ok m0 =>
          rw [hone] at h
          cases hrest : feedbackUpdateLoop fmap ms with
          | mk rest' ab0 =>
              rw [hrest] at h
              injection h with h1 h2
              subst h1
              obtain ⟨hlen, hfr⟩ := ih rest' ab0 hrest
              refine ⟨by simp [hlen], fun i hi hi' => ?_⟩
              cases i with
              | zero =>
                  have := feedbackUpdateOne_framed fmap m
                  rw [hone] at this
                  exact this
              | succ j =>
                  exact hfr j (Nat.lt_of_succ_lt_succ hi)
                    (Nat.lt_of_succ_lt_succ hi')
      | error m0 =>
          rw [hone] at h
          injection h with h1 h2
          subst h1
          refine ⟨rfl, fun i hi hi' => ?_⟩
          cases i with
          | zero =>
              have := feedbackUpdateOne_framed fmap m
              rw [hone] at this
              exact this
          | succ j => exact metricFramed_refl _

theorem mergeMetricLoop_framed (gmap : List (Value × Value))
    (ms ms' : List Value) (ab : Bool)
    (h : mergeMetricLoop gmap ms = (ms', ab)) :
    ms'.length = ms.length ∧
      ∀ i (hi : i < ms.length) (hi' : i < ms'.length),
        metricFramed (ms.get ⟨i, hi⟩) (ms'.get ⟨i, hi'⟩) := by
  induction ms generalizing ms' ab with
  | nil =>
      unfold mergeMetricLoop at h
      injection h with h1 h2
      subst h1
      exact ⟨rfl, fun i hi => by cases hi⟩
  | cons m ms ih =>
      unfold mergeMetricLoop at h
      cases hone : mergeMetricOne gmap m with
      | ok m0 =>
          rw [hone] at h
          cases hrest : mergeMetricLoop gmap ms with
          | mk rest' ab0 =>
              rw [hrest] at h
              injection h with h1 h2
              subst h1
              obtain ⟨hlen, hfr⟩ := ih rest' ab0 hrest
              refine ⟨by simp [hlen], fun i hi hi' => ?_⟩
              cases i with
              | zero =>
                  have := mergeMetricOne_framed gmap m
                  rw [hone] at this
                  exact this
              | succ j =>
                  exact hfr j (Nat.lt_of_succ_lt_succ hi)
                    (Nat.lt_of_succ_lt_succ hi')
      | error m0 =>
          rw [hone] at h
          injection h with h1 h2
          subst h1
          refine ⟨rfl, fun i hi hi' => ?_⟩
          cases i with
          | zero =>
              have := mergeMetricOne_framed gmap m
              rw [hone] at this
              exact this
          | succ j => exact metricFramed_refl _

/-- Which flag guards the merge of timeline key `k` (true for keys the
merge never assigns). -/
def flagFor (fl : FillFlags) (k : String) : Bool :=
  if k = "audio" then fl.hasAudio
  else if k = "video" then fl.hasVideo
  else if k = "transcript" then fl.hasTranscript
  else if k = "scoreDips" then fl.hasDips
  else if k = "scorePeaks" then fl.hasPeaks
  else true

theorem computeFlags_ok (ds : List (String × Value)) (fl : FillFlags)
    (h : computeFlags ds = .ok fl) :
    (∀ n, subLen? ds "audio" = some n → fl.hasAudio = decide (0 < n)) ∧
    (∀ n, subLen? ds "video" = some n → fl.hasVideo = decide (0 < n)) ∧
    (∀ n, subLen? ds "transcript" = some n → fl.hasTranscript = decide (0 < n)) ∧
    (∀ n, subLen? ds "scoreDips" = some n → fl.hasDips = decide (0 < n)) ∧
    (∀ n, subLen? ds "scorePeaks" = some n → fl.hasPeaks = decide (0 < n)) ∧
    (∀ n, pyLen? (dictGetD ds "metrics" (vList [])) = some n →
      fl.hasMetrics = decide (0 < n)) := by
  unfold computeFlags at h
  split at h
  next => cases h
  next a ha =>
  split at h
  next => cases h
  next v hv =>
  split at h
  next => cases h
  next t ht =>
  split at h
  next => cases h
  next d hd =>
  split at h
  next => cases h
  next p hp =>
  split at h
  next => cases h
  next mn hm =>
  split at h
  next u hemp => cases h
  next hasEmpty hemp =>
  injection h with h
  subst h
  refine ⟨fun n hn => ?_, fun n hn => ?_, fun n hn => ?_,
    fun n hn => ?_, fun n hn => ?_, fun n hn => ?_⟩
  · rw [ha] at hn; injection hn with hn; subst hn; rfl
  · rw [hv] at hn; injection hn with hn; subst hn; rfl
  · rw [ht] at hn; injection hn with hn; subst hn; rfl
  · rw [hd] at hn; injection hn with hn; subst hn; rfl
  · rw [hp] at hn; injection hn with hn; subst hn; rfl
  · rw [hm] at hn; injection hn with hn; subst hn; rfl

theorem assignTimelineSub_error (ds tles : List (String × Value)) (need : Bool)
    (k : String) (r : List (String × Value))
    (h : assignTimelineSub ds need tles k = .error r) : r = ds := by
  unfold assignTimelineSub at h
  by_cases hc : (need = true ∧ isList (dictGetV tles k) = true)
  · rw [if_pos hc] at h
    cases hg : dictGet? ds "timeline" with
    | none => rw [hg] at h; injection h with h; exact h.symm
    | some w =>
        rw [hg] at h
        cases w with
        | vDict des => cases h
        | vNone => injection h with h; exact h.symm
        | vBool b => injection h with h; exact h.symm
        | vInt n => injection h with h; exact h.symm
        | vFloat q => injection h with h; exact h.symm
        | vStr s => injection h with h; exact h.symm
        | vList xs => injection h with h; exact h.symm
        | vDateTime ms => injection h with h; exact h.symm
        | vObjectId s => injection h with h; exact h.symm
  · rw [if_neg hc] at h
    cases h

theorem assignTimelineSub_ok (ds tles : List (String × Value)) (need : Bool)
    (k : String) (r : List (String × Value))
    (h : assignTimelineSub ds need tles k = .ok r) :
    dictGet? r "metrics" = dictGet? ds "metrics" ∧
    dictGet? r "weakMoments" = dictGet? ds "weakMoments" ∧
    (∀ k', k' ≠ k → tlSub r k' = tlSub ds k') ∧
    (need = false → r = ds) := by
  unfold assignTimelineSub at h
  by_cases hc : (need = true ∧ isList (dictGetV tles k) = true)
  · rw [if_pos hc] at h
    cases hg : dictGet? ds "timeline" with
    | none => rw [hg] at h; cases h
    | some w =>
        rw [hg] at h
        cases w with
        | vDict des =>
            injection h with h
            subst h
            refine ⟨dictGet?_set_ne _ _ _ _ (by decide),
              dictGet?_set_ne _ _ _ _ (by decide), fun k' hk' => ?_, fun hnf => ?_⟩
            · unfold tlSub dictGetD
              rw [dictGet?_set_self, hg]
              simp [dictGet?_set_ne _ _ _ _ hk']
            · obtain ⟨hc1, hc2⟩ := hc
              rw [hnf] at hc1
              cases hc1
        | vNone => cases h
        | vBool b => cases h
        | vInt n => cases h
        | vFloat q => cases h
        | vStr s => cases h
        | vList xs => cases h
        | vDateTime ms => cases h
        | vObjectId s => cases h
  · rw [if_neg hc] at h
    injection h with h
    subst h
    exact ⟨rfl, rfl, fun _ _ => rfl, fun _ => rfl⟩

/-- What the timeline merge preserves: the `metrics` and `weakMoments`
bindings, and every timeline sub-sequence whose guarding flag is set. -/
def framePres (fl : FillFlags) (ds r : List (String × Value)) : Prop :=
  dictGet? r "metrics" = dictGet? ds "metrics" ∧
  dictGet? r "weakMoments" = dictGet? ds "weakMoments" ∧
  ∀ k, flagFor fl k = true → tlSub r k = tlSub ds k

theorem framePres_refl (fl : FillFlags) (ds : List (String × Value)) :
    framePres fl ds ds := ⟨rfl, rfl, fun _ _ => rfl⟩

theorem framePres_trans (fl : FillFlags) (d1 d2 d3 : List (String × Value))
    (h1 : framePres fl d1 d2) (h2 : framePres fl d2 d3) :
    framePres fl d1 d3 :=
  ⟨h2.1.trans h1.1, h2.2.1.trans h1.2.1,
   fun k hk => (h2.2.2 k hk).trans (h1.2.2 k hk)⟩

theorem assign_framePres (fl : FillFlags) (tles dsx r : List (String × Value))
    (kk : String) (need : Bool) (hneed : flagFor fl kk = !need)
    (h : assignTimelineSub dsx need tles kk = .ok r ∨
      assignTimelineSub dsx need tles kk = .error r) :
    framePres fl dsx r := by
  cases h with
  | inl hok =>
      obtain ⟨h1, h2, h3, h4⟩ := assignTimelineSub_ok dsx tles need kk r hok
      refine ⟨h1, h2, fun k hk => ?_⟩
      by_cases hkk : k = kk
      · subst hkk
        rw [hk] at hneed
        have : need = false := by
          cases need with
          | false => rfl
          | true => simp at hneed
        rw [h4 this]
      · exact h3 k hkk
  | inr herr =>
      rw [assignTimelineSub_error dsx tles need kk r herr]
      exact framePres_refl fl dsx

theorem mergeTimeline_frame (ds : List (String × Value)) (fl : FillFlags)
    (v : Value) (r : List (String × Value))
    (h : mergeTimeline ds fl v = .ok r ∨ mergeTimeline ds fl v = .error r) :
    framePres fl ds r := by
  unfold mergeTimeline at h
  cases hc : pyContains v (vStr "timeline") with
  | error e =>
      rw [hc] at h
      rcases h with h | h
      · cases h
      · injection h with h; subst h; exact framePres_refl fl ds
  | ok b =>
      rw [hc] at h
      cases b with
      | false =>
          rcases h with h | h
          · injection h with h; subst h; exact framePres_refl fl ds
          · cases h
      | true =>
          cases v with
          | vDict ves =>
              dsimp only [] at h
              cases htl : dictGetV ves "timeline" with
              | vDict tles =>
                  rw [htl] at h
                  dsimp only [] at h
                  rw [bind_eq_exBindU] at h
                  cases h1 : assignTimelineSub ds (!fl.hasAudio) tles "audio" with
                  | error d1 =>
                      rw [h1] at h
                      simp only [Except.bind] at h
                      rcases h with h | h
                      · cases h
                      · injection h with h
                        subst h
                        exact assign_framePres fl tles ds d1 "audio" (!fl.hasAudio)
                          (by simp [flagFor]) (Or.inr h1)
                  | ok d1 =>
                      rw [h1] at h
                      simp only [Except.bind] at h
                      have f1 : framePres fl ds d1 :=
                        assign_framePres fl tles ds d1 "audio" (!fl.hasAudio)
                          (by simp [flagFor]) (Or.inl h1)
                      rw [bind_eq_exBindU] at h
                      cases h2 : assignTimelineSub d1 (!fl.hasVideo) tles "video" with
                      | error d2 =>
                          rw [h2] at h
                          simp only [Except.bind] at h
                          rcases h with h | h
                          · cases h
                          · injection h with h
                            subst h
                            exact framePres_trans fl ds d1 d2 f1
                              (assign_framePres fl tles d1 d2 "video" (!fl.hasVideo)
                                (by simp [flagFor]) (Or.inr h2))
                      | ok d2 =>
                          rw [h2] at h
                          simp only [Except.bind] at h
                          have f2 : framePres fl ds d2 := framePres_trans fl ds d1 d2 f1
                            (assign_framePres fl tles d1 d2 "video" (!fl.hasVideo)
                              (by simp [flagFor]) (Or.inl h2))
                          rw [bind_eq_exBindU] at h
                          cases h3 : assignTimelineSub d2 (!fl.hasTranscript) tles
                              "transcript" with
                          | error d3 =>
                              rw [h3] at h
                              simp only [Except.bind] at h
                              rcases h with h | h
                              · cases h
                              · injection h with h
                                subst h
                                exact framePres_trans fl ds d2 d3 f2
                                  (assign_framePres fl tles d2 d3 "transcript"
                                    (!fl.hasTranscript) (by simp [flagFor]) (Or.inr h3))
                          | ok d3 =>
                              rw [h3] at h
                              simp only [Except.bind] at h
                              have f3 : framePres fl ds d3 := framePres_trans fl ds d2 d3 f2
                                (assign_framePres fl tles d2 d3 "transcript"
                                  (!fl.hasTranscript) (by simp [flagFor]) (Or.inl h3))
                              rw [bind_eq_exBindU] at h
                              cases h4 : assignTimelineSub d3 (!fl.hasDips) tles
                                  "scoreDips" with
                              | error d4 =>
                                  rw [h4] at h
                                  simp only [Except.bind] at h
                                  rcases h with h | h
                                  · cases h
                                  · injection h with h
                                    subst h
                                    exact framePres_trans fl ds d3 d4 f3
                                      (assign_framePres fl tles d3 d4 "scoreDips"
                                        (!fl.hasDips) (by simp [flagFor]) (Or.inr h4))
                              | ok d4 =>
                                  rw [h4] at h
                                  simp only [Except.bind] at h
                                  have f4 : framePres fl ds d4 :=
                                    framePres_trans fl ds d3 d4 f3
                                      (assign_framePres fl tles d3 d4 "scoreDips"
                                        (!fl.hasDips) (by simp [flagFor]) (Or.inl h4))
                                  have f5 : framePres fl d4 r := by
                                    rcases h with h | h
                                    · exact assign_framePres fl tles d4 r "scorePeaks"
                                        (!fl.hasPeaks) (by simp [flagFor]) (Or.inl h)
                                    · exact assign_framePres fl tles d4 r "scorePeaks"
                                        (!fl.hasPeaks) (by simp [flagFor]) (Or.inr h)
                                  exact framePres_trans fl ds d4 r f4 f5
              | vNone =>
                  rw [htl] at h
                  rcases h with h | h
                  · cases h
                  · injection h with h; subst h; exact framePres_refl fl ds
              | vBool b2 =>
                  rw [htl] at h
                  rcases h with h | h
                  · cases h
                  · injection h with h; subst h; exact framePres_refl fl ds
              | vInt n =>
                  rw [htl] at h
                  rcases h with h | h
                  · cases h
                  · injection h with h; subst h; exact framePres_refl fl ds
              | vFloat q =>
                  rw [htl] at h
                  rcases h with h | h
                  · cases h
                  · injection h with h; subst h; exact framePres_refl fl ds
              | vStr s =>
                  rw [htl] at h
                  rcases h with h | h
                  · cases h
                  · injection h with h; subst h; exact framePres_refl fl ds
              | vList xs =>
                  rw [htl] at h
                  rcases h with h | h
                  · cases h
                  · injection h with h; subst h; exact framePres_refl fl ds
              | vDateTime ms =>
                  rw [htl] at h
                  rcases h with h | h
                  · cases h
                  · injection h with h; subst h; exact framePres_refl fl ds
              | vObjectId s =>
                  rw [htl] at h
                  rcases h with h | h
                  · cases h
                  · injection h with h; subst h; exact framePres_refl fl ds
          | vNone =>
              rcases h with h | h
              · cases h
              · injection h with h; subst h; exact framePres_refl fl ds
          | vBool b2 =>
              rcases h with h | h
              · cases h
              · injection h with h; subst h; exact framePres_refl fl ds
          | vInt n =>
              rcases h with h | h
              · cases h
              · injection h with h; subst h; exact framePres_refl fl ds
          | vFloat q =>
              rcases h with h | h
              · cases h
              · injection h with h; subst h; exact framePres_refl fl ds
          | vStr s =>
              rcases h with h | h
              · cases h
              · injection h with h; subst h; exact framePres_refl fl ds
          | vList xs =>
              rcases h with h | h
              · cases h
              · injection h with h; subst h; exact framePres_refl fl ds
          | vDateTime ms =>
              rcases h with h | h
              · cases h
              · injection h with h; subst h; exact framePres_refl fl ds
          | vObjectId s =>
              rcases h with h | h
              · cases h
              · injection h with h; subst h; exact framePres_refl fl ds

theorem tlSub_congr (r s : List (String × Value)) (k : String)
    (h : dictGet? r "timeline" = dictGet? s "timeline") :
    tlSub r k = tlSub s k := by
  unfold tlSub dictGetD
  rw [h]

/-- What the metrics merge preserves: the `timeline` and `weakMoments`
bindings, and — when the stored metrics is a non-empty list and the
populated flag is set — each stored metric up to `metricFramed`. -/
def mergeMetricsPres (fl : FillFlags) (ds r : List (String × Value)) : Prop :=
  dictGet? r "timeline" = dictGet? ds "timeline" ∧
  dictGet? r "weakMoments" = dictGet? ds "weakMoments" ∧
  ∀ ms, dictGet? ds "metrics" = some (vList ms) → fl.hasMetrics = true →
    ms ≠ [] →
    ∃ ms', dictGet? r "metrics" = some (vList ms') ∧ ms'.length = ms.length ∧
      ∀ i (hi : i < ms.length) (hi' : i < ms'.length),
        metricFramed (ms.get ⟨i, hi⟩) (ms'.get ⟨i, hi'⟩)

theorem mergeMetricsPres_refl (fl : FillFlags) (ds : List (String × Value)) :
    mergeMetricsPres fl ds ds :=
  ⟨rfl, rfl, fun ms hms _ _ =>
    ⟨ms, hms, rfl, fun _ _ _ => metricFramed_refl _⟩⟩

theorem mergeMetrics_frame (ds : List (String × Value)) (fl : FillFlags)
    (v : Value) (r : List (String × Value))
    (h : mergeMetrics ds fl v = .ok r ∨ mergeMetrics ds fl v = .error r) :
    mergeMetricsPres fl ds r := by
  unfold mergeMetrics at h
  cases v with
  | vDict ves =>
      dsimp only [] at h
      cases hgm : dictGetV ves "metrics" with
      | vList gitems =>
          rw [hgm] at h
          dsimp only [] at h
          cases hbm : buildGenMetricsMap gitems with
          | none =>
              rw [hbm] at h
              dsimp only [] at h
              rcases h with h | h
              · cases h
              · injection h with h; subst h; exact mergeMetricsPres_refl fl ds
          | some gmap =>
              rw [hbm] at h
              dsimp only [] at h
              by_cases hcond : (fl.hasMetrics = true ∧
                  (dictGetV ds "metrics").truthy = true)
              · rw [if_pos hcond] at h
                cases hiter : pyIter (dictGetV ds "metrics") with
                | error e =>
                    rw [hiter] at h
                    dsimp only [] at h
                    rcases h with h | h
                    · cases h
                    · injection h with h; subst h
                      exact mergeMetricsPres_refl fl ds
                | ok mitems =>
                    rw [hiter] at h
                    dsimp only [] at h
                    cases hml : mergeMetricLoop gmap mitems with
                    | mk ms1 ab =>
                        rw [hml] at h
                        dsimp only [] at h
                        have hr : r = (if isList (dictGetV ds "metrics") = true
                            then dictSet ds "metrics" (vList ms1) else ds) := by
                          by_cases hab : ab = true
                          · rw [if_pos hab] at h
                            rcases h with h | h
                            · cases h
                            · injection h with h; exact h.symm
                          · rw [if_neg hab] at h
                            rcases h with h | h
                            · injection h with h; exact h.symm
                            · cases h
                        subst hr
                        by_cases hIsL : isList (dictGetV ds "metrics") = true
                        · rw [if_pos hIsL]
                          refine ⟨dictGet?_set_ne _ _ _ _ (by decide),
                            dictGet?_set_ne _ _ _ _ (by decide),
                            fun ms hms hasM hne => ?_⟩
                          have hgv : dictGetV ds "metrics" = vList ms := by
                            simp [dictGetV, hms]
                          rw [hgv] at hiter
                          have h0 : (Except.ok ms : Except String (List Value)) =
                              Except.ok mitems := hiter
                          have hmit : mitems = ms := by
                            injection h0 with h0
                            exact h0.symm
                          subst hmit
                          obtain ⟨hlen, hfr⟩ :=
                            mergeMetricLoop_framed gmap mitems ms1 ab hml
                          exact ⟨ms1, dictGet?_set_self _ _ _, hlen, hfr⟩
                        · rw [if_neg hIsL]
                          refine ⟨rfl, rfl, fun ms hms hasM hne => ?_⟩
                          have hgv : dictGetV ds "metrics" = vList ms := by
                            simp [dictGetV, hms]
                          exact absurd (by rw [hgv]; rfl :
                            isList (dictGetV ds "metrics") = true) hIsL
              · rw [if_neg hcond] at h
                rcases h with h | h
                · injection h with h
                  subst h
                  refine ⟨dictGet?_set_ne _ _ _ _ (by decide),
                    dictGet?_set_ne _ _ _ _ (by decide),
                    fun ms hms hasM hne => ?_⟩
                  have htr : (dictGetV ds "metrics").truthy = true := by
                    have hgv : dictGetV ds "metrics" = vList ms := by
                      simp [dictGetV, hms]
                    rw [hgv]
                    cases ms with
                    | nil => exact absurd rfl hne
                    | cons a l => rfl
                  exact absurd ⟨hasM, htr⟩ hcond
                · cases h
      | vNone =>
          rw [hgm] at h
          dsimp only [] at h
          rcases h with h | h
          · injection h with h; subst h; exact mergeMetricsPres_refl fl ds
          · cases h
      | vBool b =>
          rw [hgm] at h
          dsimp only [] at h
          rcases h with h | h
          · injection h with h; subst h; exact mergeMetricsPres_refl fl ds
          · cases h
      | vInt n =>
          rw [hgm] at h
          dsimp only [] at h
          rcases h with h | h
          · injection h with h; subst h; exact mergeMetricsPres_refl fl ds
          · cases h
      | vFloat q =>
          rw [hgm] at h
          dsimp only [] at h
          rcases h with h | h
          · injection h with h; subst h; exact mergeMetricsPres_refl fl ds
          · cases h
      | vStr s =>
          rw [hgm] at h
          dsimp only [] at h
          rcases h with h | h
          · injection h with h; subst h; exact mergeMetricsPres_refl fl ds
          · cases h
      | vDict des2 =>
          rw [hgm] at h
          dsimp only [] at h
          rcases h with h | h
          · injection h with h; subst h; exact mergeMetricsPres_refl fl ds
          · cases h
      | vDateTime ms0 =>
          rw [hgm] at h
          dsimp only [] at h
          rcases h with h | h
          · injection h with h; subst h; exact mergeMetricsPres_refl fl ds
          · cases h
      | vObjectId s =>
          rw [hgm] at h
          dsimp only [] at h
          rcases h with h | h
          · injection h with h; subst h; exact mergeMetricsPres_refl fl ds
          · cases h
  | vNone =>
      dsimp only [] at h
      rcases h with h | h
      · cases h
      · injection h with h; subst h; exact mergeMetricsPres_refl fl ds
  | vBool b =>
      dsimp only [] at h
      rcases h with h | h
      · cases h
      · injection h with h; subst h; exact mergeMetricsPres_refl fl ds
  | vInt n =>
      dsimp only [] at h
      rcases h with h | h
      · cases h
      · injection h with h; subst h; exact mergeMetricsPres_refl fl ds
  | vFloat q =>
      dsimp only [] at h
      rcases h with h | h
      · cases h
      · injection h with h; subst h; exact mergeMetricsPres_refl fl ds
  | vStr s =>
      dsimp only [] at h
      rcases h with h | h
      · cases h
      · injection h with h; subst h; exact mergeMetricsPres_refl fl ds
  | vList xs =>
      dsimp only [] at h
      rcases h with h | h
      · cases h
      · injection h with h; subst h; exact mergeMetricsPres_refl fl ds
  | vDateTime ms0 =>
      dsimp only [] at h
      rcases h with h | h
      · cases h
      · injection h with h; subst h; exact mergeMetricsPres_refl fl ds
  | vObjectId s =>
      dsimp only [] at h
      rcases h with h | h
      · cases h
      · injection h with h; subst h; exact mergeMetricsPres_refl fl ds

theorem mergeWeak_pres (ds : List (String × Value)) (v : Value) :
    dictGet? (mergeWeak ds v) "timeline" = dictGet? ds "timeline" ∧
    dictGet? (mergeWeak ds v) "metrics" = dictGet? ds "metrics" ∧
    ((dictGetV ds "weakMoments").truthy = true → mergeWeak ds v = ds) := by
  unfold mergeWeak
  cases v with
  | vDict ves =>
      dsimp only []
      by_cases hc : (¬(dictGetV ds "weakMoments").truthy = true ∧
          isList (dictGetV ves "weakMoments") = true)
      · rw [if_pos hc]
        exact ⟨dictGet?_set_ne _ _ _ _ (by decide),
          dictGet?_set_ne _ _ _ _ (by decide),
          fun ht => absurd ht hc.1⟩
      · rw [if_neg hc]
        exact ⟨rfl, rfl, fun _ => rfl⟩
  | vNone => exact ⟨rfl, rfl, fun _ => rfl⟩
  | vBool b => exact ⟨rfl, rfl, fun _ => rfl⟩
  | vInt n => exact ⟨rfl, rfl, fun _ => rfl⟩
  | vFloat q => exact ⟨rfl, rfl, fun _ => rfl⟩
  | vStr s => exact ⟨rfl, rfl, fun _ => rfl⟩
  | vList xs => exact ⟨rfl, rfl, fun _ => rfl⟩
  | vDateTime ms0 => exact ⟨rfl, rfl, fun _ => rfl⟩
  | vObjectId s => exact ⟨rfl, rfl, fun _ => rfl⟩

theorem flagFor_true_of_subLen (ds : List (String × Value)) (fl : FillFlags)
    (hfl : computeFlags ds = .ok fl) (k : String) (n : Nat)
    (hn : subLen? ds k = some n) (hpos : 0 < n) :
    flagFor fl k = true := by
  obtain ⟨hA, hV, hT, hD, hP, _⟩ := computeFlags_ok ds fl hfl
  unfold flagFor
  by_cases h1 : k = "audio"
  · subst h1; rw [if_pos rfl, hA n hn]; exact decide_eq_true hpos
  · rw [if_neg h1]
    by_cases h2 : k = "video"
    · subst h2; rw [if_pos rfl, hV n hn]; exact decide_eq_true hpos
    · rw [if_neg h2]
      by_cases h3 : k = "transcript"
      · subst h3; rw [if_pos rfl, hT n hn]; exact decide_eq_true hpos
      · rw [if_neg h3]
        by_cases h4 : k = "scoreDips"
        · subst h4; rw [if_pos rfl, hD n hn]; exact decide_eq_true hpos
        · rw [if_neg h4]
          by_cases h5 : k = "scorePeaks"
          · subst h5; rw [if_pos rfl, hP n hn]; exact decide_eq_true hpos
          · rw [if_neg h5]

theorem hasMetrics_true_of_list (ds : List (String × Value)) (fl : FillFlags)
    (hfl : computeFlags ds = .ok fl) (ms : List Value)
    (hms : dictGet? ds "metrics" = some (vList ms)) (hne : ms ≠ []) :
    fl.hasMetrics = true := by
  obtain ⟨_, _, _, _, _, hM⟩ := computeFlags_ok ds fl hfl
  have hlen : pyLen? (dictGetD ds "metrics" (vList [])) = some ms.length := by
    simp [dictGetD, hms, pyLen?]
  have hpos : 0 < ms.length := by
    cases ms with
    | nil => exact absurd rfl hne
    | cons a l => exact Nat.succ_pos _
  rw [hM ms.length hlen]
  exact decide_eq_true hpos

/-- The frame the gap filler respects on a document `ds`: timeline
sub-sequences observed non-empty are unchanged, a truthy `weakMoments`
binding is unchanged, and a non-empty stored metrics list keeps its
length with each metric changed at most in its observed-empty
`whatHelped`/`whatHurt` fields. -/
def fillFrame (ds rs : List (String × Value)) : Prop :=
  (∀ k n, subLen? ds k = some n → 0 < n → tlSub rs k = tlSub ds k) ∧
  ((dictGetV ds "weakMoments").truthy = true →
    dictGet? rs "weakMoments" = dictGet? ds "weakMoments") ∧
  (∀ ms, dictGet? ds "metrics" = some (vList ms) → ms ≠ [] →
    ∃ ms', dictGet? rs "metrics" = some (vList ms') ∧ ms'.length = ms.length ∧
      ∀ i (hi : i < ms.length) (hi' : i < ms'.length),
        metricFramed (ms.get ⟨i, hi⟩) (ms'.get ⟨i, hi'⟩))

theorem fillFrame_refl (ds : List (String × Value)) : fillFrame ds ds :=
  ⟨fun _ _ _ _ => rfl, fun _ => rfl,
   fun ms hms _ => ⟨ms, hms, rfl, fun _ _ _ => metricFramed_refl _⟩⟩

theorem fillFrame_of_merges (ds d1 rs : List (String × Value)) (fl : FillFlags)
    (hfl : computeFlags ds = .ok fl)
    (fp : framePres fl ds d1) (mp : mergeMetricsPres fl d1 rs) :
    fillFrame ds rs := by
  obtain ⟨fpM, fpW, fpT⟩ := fp
  obtain ⟨mpT, mpW, mpM⟩ := mp
  refine ⟨fun k n hn hpos => ?_, fun ht => ?_, fun ms hms hne => ?_⟩
  · rw [tlSub_congr rs d1 k mpT,
      fpT k (flagFor_true_of_subLen ds fl hfl k n hn hpos)]
  · rw [mpW, fpW]
  · have hms1 : dictGet? d1 "metrics" = some (vList ms) := by rw [fpM, hms]
    exact mpM ms hms1 (hasMetrics_true_of_list ds fl hfl ms hms hne) hne

theorem fillFrame_weak (ds d2 : List (String × Value)) (v : Value)
    (hf : fillFrame ds d2)
    (hwp : dictGet? d2 "weakMoments" = dictGet? ds "weakMoments") :
    fillFrame ds (mergeWeak d2 v) := by
  obtain ⟨hT, hW, hM⟩ := hf
  obtain ⟨wT, wM, wId⟩ := mergeWeak_pres d2 v
  refine ⟨fun k n hn hpos => ?_, fun ht => ?_, fun ms hms hne => ?_⟩
  · rw [tlSub_congr _ d2 k wT, hT k n hn hpos]
  · have ht2 : (dictGetV d2 "weakMoments").truthy = true := by
      unfold dictGetV
      rw [hwp]
      exact ht
    rw [wId ht2]
    exact hW ht
  · obtain ⟨ms', h1, h2, h3⟩ := hM ms hms hne
    exact ⟨ms', by rw [wM, h1], h2, h3⟩

theorem fill_missing_fields_success (ds : List (String × Value))
    (fl : FillFlags) (v : Value) (hfl : computeFlags ds = .ok fl)
    (hap : fl.allPopulated = false) :
    fill_missing_fields (vDict ds) (.success v) =
      vDict (collapseD (mergeTimeline ds fl v >>= fun d1 =>
        mergeMetrics d1 fl v >>= fun d2 => pure (mergeWeak d2 v))) := by
  unfold fill_missing_fields
  dsimp only []
  rw [hfl]
  dsimp only []
  rw [if_neg (by simp [hap] : ¬(fl.allPopulated = true))]

/-- C4 (amended): for every stored document and synthesis outcome, the
gap filler `fill_missing_fields_with_gemini` returns a mapping in which
(a) every timeline sub-sequence observed non-empty at fill time is
unchanged, (b) a truthy `weakMoments` binding is unchanged, and (c) a
non-empty stored metrics list keeps its length, with each metric
unchanged except possibly in a `whatHelped`/`whatHurt` field that was
observed empty (`not value or len(value) == 0`) at fill time; every
other key of a metric is unchanged.  The claim's stronger reading —
that a non-empty metrics sub-collection is unchanged as a whole — is
false: the filler rewrites non-empty metrics lists in place to fill
their observed-empty feedback fields. -/
theorem c4_gap_filler_fills_only_empty (ds : List (String × Value))
    (gen : GenOutcome) :
    ∃ rs, fill_missing_fields (vDict ds) gen = vDict rs ∧ fillFrame ds rs := by
  cases gen with
  | noKey => exact ⟨ds, rfl, fillFrame_refl ds⟩
  | apiFail =>
      unfold fill_missing_fields
      dsimp only []
      cases hfl : computeFlags ds with
      | error u => exact ⟨ds, rfl, fillFrame_refl ds⟩
      | ok fl =>
          refine ⟨ds, ?_, fillFrame_refl ds⟩
          dsimp only []
          by_cases hap : fl.allPopulated = true
          · rw [if_pos hap]
          · rw [if_neg hap]
  | success v =>
      cases hfl : computeFlags ds with
      | error u =>
          refine ⟨ds, ?_, fillFrame_refl ds⟩
          unfold fill_missing_fields
          dsimp only []
          rw [hfl]
      | ok fl =>
          by_cases hap : fl.allPopulated = true
          · refine ⟨ds, ?_, fillFrame_refl ds⟩
            unfold fill_missing_fields
            dsimp only []
            rw [hfl]
            dsimp only []
            rw [if_pos hap]
          · rw [fill_missing_fields_success ds fl v hfl
              (eq_false_of_ne_true hap)]
            cases h1 : mergeTimeline ds fl v with
            | error d1 =>
                refine ⟨d1, ?_, fillFrame_of_merges ds d1 d1 fl hfl
                  (mergeTimeline_frame ds fl v d1 (Or.inr h1))
                  (mergeMetricsPres_refl fl d1)⟩
                rfl
            | ok d1 =>
                have fp1 := mergeTimeline_frame ds fl v d1 (Or.inl h1)
                cases h2 : mergeMetrics d1 fl v with
                | error d2 =>
                    refine ⟨d2, ?_, fillFrame_of_merges ds d1 d2 fl hfl fp1
                      (mergeMetrics_frame d1 fl v d2 (Or.inr h2))⟩
                    show vDict (collapseD (mergeMetrics d1 fl v >>=
                      fun d => pure (mergeWeak d v))) = vDict d2
                    rw [bind_eq_exBindU, h2]
                    rfl
                | ok d2 =>
                    have mp2 := mergeMetrics_frame d1 fl v d2 (Or.inl h2)
                    have hw2 : dictGet? d2 "weakMoments" =
                        dictGet? ds "weakMoments" := by
                      obtain ⟨_, w2, _⟩ := mp2
                      obtain ⟨_, w1, _⟩ := fp1
                      rw [w2, w1]
                    refine ⟨mergeWeak d2 v, ?_, fillFrame_weak ds d2 v
                      (fillFrame_of_merges ds d1 d2 fl hfl fp1 mp2) hw2⟩
                    show vDict (collapseD (mergeMetrics d1 fl v >>=
                      fun d => pure (mergeWeak d v))) = vDict (mergeWeak d2 v)
                    rw [bind_eq_exBindU, h2]
                    rfl

/-! ### Claim C8: relating the two `normalize_for_api` definitions -/

theorem dictGetD_none (es : List (String × Value)) (k : String)
    (hn : dictGet? es k = none) : dictGetD es k (vList []) = vList [] := by
  unfold dictGetD
  rw [hn]
  rfl

theorem dictGetD_setdefault_gen (es : List (String × Value)) (k0 k : String)
    (v : Value) (hv : dictGet? es k0 = none → v = vList []) :
    dictGetD (dictSetdefault es k0 v) k (vList []) =
      dictGetD es k (vList []) := by
  by_cases hk : k = k0
  · subst hk
    unfold dictGetD
    rw [dictGet?_setdefault_self]
    cases hg : dictGet? es k with
    | some w => rfl
    | none => simp [Option.getD, hv hg]
  · unfold dictGetD
    rw [dictGet?_setdefault_ne _ _ _ _ hk]

theorem tlSubOf_pyOr_nondict (w : Value) (k : String) (hw : isDict w = false) :
    tlSubOf (pyOr w (vDict [])) k = vList [] := by
  unfold pyOr
  by_cases ht : w.truthy = true
  · rw [if_pos ht]
    cases w with
    | vDict es => simp [isDict] at hw
    | vNone => rfl
    | vBool b => rfl
    | vInt n => rfl
    | vFloat q => rfl
    | vStr s => rfl
    | vList xs => rfl
    | vDateTime ms => rfl
    | vObjectId s => rfl
  · rw [if_neg ht]
    rfl

theorem tlFirst_sub (ds0 : List (String × Value)) (k : String) :
    dictGetD (tlFirst ds0) k (vList []) =
      tlSubOf (pyOr (dictGetV ds0 "timeline") (vDict [])) k := by
  unfold tlFirst
  cases htl : dictGetV ds0 "timeline" with
  | vDict t =>
      dsimp only []
      rw [dictGetD_setdefault_gen _ _ _ _ (fun hn => dictGetD_none _ _ hn),
        dictGetD_setdefault_gen _ _ _ _ (fun hn => dictGetD_none _ _ hn),
        dictGetD_setdefault_gen _ _ _ _ (fun hn => dictGetD_none _ _ hn),
        dictGetD_setdefault_gen _ _ _ _ (fun hn => rfl),
        dictGetD_setdefault_gen _ _ _ _ (fun hn => rfl)]
      unfold pyOr
      by_cases ht : (vDict t).truthy = true
      · rw [if_pos ht]
        rfl
      · rw [if_neg ht]
        have hnil : t = [] := by
          cases t with
          | nil => rfl
          | cons p ps => exact absurd rfl ht
        subst hnil
        rfl
  | vNone =>
      dsimp only []
      rw [dictGetD_setdefault_gen _ _ _ _ (fun hn => dictGetD_none _ _ hn),
        dictGetD_setdefault_gen _ _ _ _ (fun hn => dictGetD_none _ _ hn),
        dictGetD_setdefault_gen _ _ _ _ (fun hn => dictGetD_none _ _ hn),
        dictGetD_setdefault_gen _ _ _ _ (fun hn => rfl),
        dictGetD_setdefault_gen _ _ _ _ (fun hn => rfl)]
      rw [tlSubOf_pyOr_nondict vNone k rfl]
      rfl
  | vBool b =>
      dsimp only []
      rw [dictGetD_setdefault_gen _ _ _ _ (fun hn => dictGetD_none _ _ hn),
        dictGetD_setdefault_gen _ _ _ _ (fun hn => dictGetD_none _ _ hn),
        dictGetD_setdefault_gen _ _ _ _ (fun hn => dictGetD_none _ _ hn),
        dictGetD_setdefault_gen _ _ _ _ (fun hn => rfl),
        dictGetD_setdefault_gen _ _ _ _ (fun hn => rfl)]
      rw [tlSubOf_pyOr_nondict (vBool b) k rfl]
      rfl
  | vInt n =>
      dsimp only []
      rw [dictGetD_setdefault_gen _ _ _ _ (fun hn => dictGetD_none _ _ hn),
        dictGetD_setdefault_gen _ _ _ _ (fun hn => dictGetD_none _ _ hn),
        dictGetD_setdefault_gen _ _ _ _ (fun hn => dictGetD_none _ _ hn),
        dictGetD_setdefault_gen _ _ _ _ (fun hn => rfl),
        dictGetD_setdefault_gen _ _ _ _ (fun hn => rfl)]
      rw [tlSubOf_pyOr_nondict (vInt n) k rfl]
      rfl
  | vFloat q =>
      dsimp only []
      rw [dictGetD_setdefault_gen _ _ _ _ (fun hn => dictGetD_none _ _ hn),
        dictGetD_setdefault_gen _ _ _ _ (fun hn => dictGetD_none _ _ hn),
        dictGetD_setdefault_gen _ _ _ _ (fun hn => dictGetD_none _ _ hn),
        dictGetD_setdefault_gen _ _ _ _ (fun hn => rfl),
        dictGetD_setdefault_gen _ _ _ _ (fun hn => rfl)]
      rw [tlSubOf_pyOr_nondict (vFloat q) k rfl]
      rfl
  | vStr s =>
      dsimp only []
      rw [dictGetD_setdefault_gen _ _ _ _ (fun hn => dictGetD_none _ _ hn),
        dictGetD_setdefault_gen _ _ _ _ (fun hn => dictGetD_none _ _ hn),
        dictGetD_setdefault_gen _ _ _ _ (fun hn => dictGetD_none _ _ hn),
        dictGetD_setdefault_gen _ _ _ _ (fun hn => rfl),
        dictGetD_setdefault_gen _ _ _ _ (fun hn => rfl)]
      rw [tlSubOf_pyOr_nondict (vStr s) k rfl]
      rfl
  | vList xs =>
      dsimp only []
      rw [dictGetD_setdefault_gen _ _ _ _ (fun hn => dictGetD_none _ _ hn),
        dictGetD_setdefault_gen _ _ _ _ (fun hn => dictGetD_none _ _ hn),
        dictGetD_setdefault_gen _ _ _ _ (fun hn => dictGetD_none _ _ hn),
        dictGetD_setdefault_gen _ _ _ _ (fun hn => rfl),
        dictGetD_setdefault_gen _ _ _ _ (fun hn => rfl)]
      rw [tlSubOf_pyOr_nondict (vList xs) k rfl]
      rfl
  | vDateTime ms =>
      dsimp only []
      rw [dictGetD_setdefault_gen _ _ _ _ (fun hn => dictGetD_none _ _ hn),
        dictGetD_setdefault_gen _ _ _ _ (fun hn => dictGetD_none _ _ hn),
        dictGetD_setdefault_gen _ _ _ _ (fun hn => dictGetD_none _ _ hn),
        dictGetD_setdefault_gen _ _ _ _ (fun hn => rfl),
        dictGetD_setdefault_gen _ _ _ _ (fun hn => rfl)]
      rw [tlSubOf_pyOr_nondict (vDateTime ms) k rfl]
      rfl
  | vObjectId s =>
      dsimp only []
      rw [dictGetD_setdefault_gen _ _ _ _ (fun hn => dictGetD_none _ _ hn),
        dictGetD_setdefault_gen _ _ _ _ (fun hn => dictGetD_none _ _ hn),
        dictGetD_setdefault_gen _ _ _ _ (fun hn => dictGetD_none _ _ hn),
        dictGetD_setdefault_gen _ _ _ _ (fun hn => rfl),
        dictGetD_setdefault_gen _ _ _ _ (fun hn => rfl)]
      rw [tlSubOf_pyOr_nondict (vObjectId s) k rfl]
      rfl

theorem apiVideoSegFirst_of_second (seg out : Value)
    (h : apiVideoSegSecond seg = .ok out) :
    apiVideoSegFirst seg = .ok out := by
  unfold apiVideoSegSecond at h
  unfold apiVideoSegFirst
  cases hp : pyOr seg (vDict []) with
  | vDict es =>
      rw [hp] at h
      dsimp only [] at h ⊢
      rw [bind_eq_exBind, exBind_ok] at h
      obtain ⟨eye, heye, h⟩ := h
      have hte : toFloat? (pyOr (dictGetV es "eyeContact")
          (pyOr (dictGetV es "eye_contact") (vInt 0))) = some eye := by
        unfold floatOrRaise at heye
        cases ht : toFloat? (pyOr (dictGetV es "eyeContact")
            (pyOr (dictGetV es "eye_contact") (vInt 0))) with
        | some q =>
            rw [ht] at heye
            injection heye with heq
            rw [heq]
        | none =>
            rw [ht] at heye
            cases heye
      rw [hte]
      simp only [Option.getD]
      exact h
  | vNone => rw [hp] at h; cases h
  | vBool b => rw [hp] at h; cases h
  | vInt n => rw [hp] at h; cases h
  | vFloat q => rw [hp] at h; cases h
  | vStr s => rw [hp] at h; cases h
  | vList xs => rw [hp] at h; cases h
  | vDateTime ms => rw [hp] at h; cases h
  | vObjectId s => rw [hp] at h; cases h

theorem exMapM_videoFirst_of_second (xs ys : List Value)
    (h : exMapM apiVideoSegSecond xs = .ok ys) :
    exMapM apiVideoSegFirst xs = .ok ys := by
  induction xs generalizing ys with
  | nil => exact h
  | cons x xs ih =>
      rw [exMapM_cons, exBind_ok] at h
      obtain ⟨y, hy, h⟩ := h
      rw [exBind_ok] at h
      obtain ⟨ys0, hrest, h2⟩ := h
      rw [exMapM_cons, exBind_ok]
      exact ⟨y, apiVideoSegFirst_of_second x y hy,
        (exBind_ok _ _ _).mpr ⟨ys0, ih ys0 hrest, h2⟩⟩

theorem projectTimelineWith_first (tlv1 tlv2 out : Value)
    (hsub : ∀ k, tlSubOf tlv1 k = tlSubOf tlv2 k)
    (h : projectTimelineWith apiVideoSegSecond tlv2 = .ok out) :
    projectTimelineWith apiVideoSegFirst tlv1 = .ok out := by
  unfold projectTimelineWith at h ⊢
  rw [hsub "audio", hsub "video", hsub "transcript", hsub "scoreDips",
    hsub "scorePeaks"]
  rw [bind_eq_exBind, exBind_ok] at h
  obtain ⟨aI, haI, h⟩ := h
  rw [bind_eq_exBind, exBind_ok] at h
  obtain ⟨aO, haO, h⟩ := h
  rw [bind_eq_exBind, exBind_ok] at h
  obtain ⟨vI, hvI, h⟩ := h
  rw [bind_eq_exBind, exBind_ok] at h
  obtain ⟨vO, hvO, h⟩ := h
  rw [bind_eq_exBind, exBind_ok] at h
  obtain ⟨tI, htI, h⟩ := h
  rw [bind_eq_exBind, exBind_ok] at h
  obtain ⟨tO, htO, h⟩ := h
  rw [bind_eq_exBind, exBind_ok] at h
  obtain ⟨dI, hdI, h⟩ := h
  rw [bind_eq_exBind, exBind_ok] at h
  obtain ⟨dO, hdO, h⟩ := h
  rw [bind_eq_exBind, exBind_ok] at h
  obtain ⟨pI, hpI, h⟩ := h
  rw [bind_eq_exBind, exBind_ok] at h
  obtain ⟨pO, hpO, h⟩ := h
  rw [bind_eq_exBind, exBind_ok]
  refine ⟨aI, haI, ?_⟩
  rw [bind_eq_exBind, exBind_ok]
  refine ⟨aO, haO, ?_⟩
  rw [bind_eq_exBind, exBind_ok]
  refine ⟨vI, hvI, ?_⟩
  rw [bind_eq_exBind, exBind_ok]
  refine ⟨vO, exMapM_videoFirst_of_second vI vO hvO, ?_⟩
  rw [bind_eq_exBind, exBind_ok]
  refine ⟨tI, htI, ?_⟩
  rw [bind_eq_exBind, exBind_ok]
  refine ⟨tO, htO, ?_⟩
  rw [bind_eq_exBind, exBind_ok]
  refine ⟨dI, hdI, ?_⟩
  rw [bind_eq_exBind, exBind_ok]
  refine ⟨dO, hdO, ?_⟩
  rw [bind_eq_exBind, exBind_ok]
  refine ⟨pI, hpI, ?_⟩
  rw [bind_eq_exBind, exBind_ok]
  exact ⟨pO, hpO, h⟩

theorem lenOrRaise_ok_of_pyIter (v : Value) (items : List Value)
    (h : pyIter v = .ok items) : ∃ n, lenOrRaise v = .ok n := by
  cases v with
  | vList xs => exact ⟨xs.length, rfl⟩
  | vStr s => exact ⟨s.length, rfl⟩
  | vDict es => exact ⟨es.length, rfl⟩
  | vNone => cases h
  | vBool b => cases h
  | vInt n => cases h
  | vFloat q => cases h
  | vDateTime ms => cases h
  | vObjectId s => cases h

theorem ctxCheck_set_timeline (ds : List (String × Value)) (w : Value) :
    ctxCheck (dictSet ds "timeline" w) = ctxCheck ds := by
  unfold ctxCheck dictGetV
  rw [dictGet?_set_ne _ _ _ _ (by decide : ("diarization" : String) ≠ "timeline")]

theorem coerceMetricOpt_keys (m m' : Value) (h : coerceMetricOpt m = some m') :
    ∃ es, m' = vDict es ∧ dictHas es "whatHelped" = true ∧
      dictHas es "whatHurt" = true := by
  unfold coerceMetricOpt at h
  cases m with
  | vDict es =>
      dsimp only [] at h
      cases hs : toInt? (pyOr (dictGetV es "score") (vInt 0)) with
      | some sc =>
          rw [hs] at h
          dsimp only [] at h
          injection h with h
          subst h
          exact ⟨_, rfl, rfl, rfl⟩
      | none => rw [hs] at h; cases h
  | vNone => cases h
  | vBool b => cases h
  | vInt n => cases h
  | vFloat q => cases h
  | vStr s => cases h
  | vList xs => cases h
  | vDateTime ms => cases h
  | vObjectId s => cases h

theorem setdefaultFeedback_id (es : List (String × Value))
    (h1 : dictHas es "whatHelped" = true) (h2 : dictHas es "whatHurt" = true) :
    setdefaultFeedback (vDict es) = .ok (vDict es) := by
  unfold setdefaultFeedback
  dsimp only []
  rw [dictSetdefault_of_has es "whatHelped" (vList []) h1,
    dictSetdefault_of_has es "whatHurt" (vList []) h2]
  rfl

theorem feedbackFallback_id (ms : List Value) :
    (∀ m ∈ ms, ∃ es, m = vDict es ∧ dictHas es "whatHelped" = true ∧
      dictHas es "whatHurt" = true) →
    feedbackFallback ms = .ok ms := by
  unfold feedbackFallback
  induction ms with
  | nil => intro h; rfl
  | cons m ms ih =>
      intro h
      obtain ⟨es, hm, h1, h2⟩ := h m (List.mem_cons_self m ms)
      subst hm
      rw [exMapM_cons, setdefaultFeedback_id es h1 h2,
        ih (fun x hx => h x (List.mem_cons_of_mem _ hx))]
      rfl

theorem fill_metric_feedback_noKey (ms : List Value)
    (h : ∀ m ∈ ms, ∃ es, m = vDict es ∧ dictHas es "whatHelped" = true ∧
      dictHas es "whatHurt" = true) :
    fill_metric_feedback ms .noKey = .ok ms := by
  unfold fill_metric_feedback
  cases han : anyNeedsFill ms with
  | ok b =>
      cases b with
      | false => rfl
      | true => rfl
  | error u => exact feedbackFallback_id ms h

/-- C8 (amended): the metric-feedback backfill — together with the
Gemini synthesis attempt and the `weakMoments` output field — lives in
the FIRST, lexically earlier `normalize_for_api` definition, not in the
second one; the second, effective definition is a pure projection.  On
every document on which the extra code paths of the first definition
are benign — a non-empty mapping whose `diarization` context peek does
not raise and whose stored `metrics` value has a `len()` — and with
Gemini unavailable, the first definition returns exactly the effective
definition's record plus a trailing `weakMoments` field, so the two
definitions do NOT differ only in backfilling behaviour. -/
theorem c8_first_is_effective_plus_weakMoments
    (ds0 outl : List (String × Value))
    (hne : ds0 ≠ [])
    (hctx : ctxCheck ds0 = .ok ())
    (hlen : (pyLen? (dictGetD ds0 "metrics" (vList []))).isSome = true)
    (h : normalize_for_api (vDict ds0) = .ok (vDict outl)) :
    normalize_for_api_first (vDict ds0) .noKey .noKey =
      .ok (vDict (outl ++ [("weakMoments",
        pyOr (dictGetD ds0 "weakMoments" (vList [])) (vList []))])) := by
  have htr : (vDict ds0).truthy = true := by
    cases ds0 with
    | nil => exact absurd rfl hne
    | cons p ps => rfl
  obtain ⟨durInt, tlOut, mItems, hdur, htlex, hmi, hout⟩ :=
    normalize_ok_structure ds0 (vDict outl) htr h
  have houtl : outl = [("sessionId", outSessionId ds0),
      ("sessionName", outSessionName ds0),
      ("videoUrl", outVideoUrl ds0),
      ("duration", vInt durInt),
      ("timeline", tlOut),
      ("metrics", vList (mItems.filterMap coerceMetricOpt))] := by
    injection hout
  subst houtl
  have htlinv := htlex
  unfold projectTimelineWith at htlinv
  rw [bind_eq_exBind, exBind_ok] at htlinv
  obtain ⟨aI, haI, htlinv⟩ := htlinv
  rw [bind_eq_exBind, exBind_ok] at htlinv
  obtain ⟨aO, haO, htlinv⟩ := htlinv
  rw [bind_eq_exBind, exBind_ok] at htlinv
  obtain ⟨vI, hvI, htlinv⟩ := htlinv
  rw [bind_eq_exBind, exBind_ok] at htlinv
  obtain ⟨vO, hvO, htlinv⟩ := htlinv
  rw [bind_eq_exBind, exBind_ok] at htlinv
  obtain ⟨tI, htI, htlinv⟩ := htlinv
  rw [bind_eq_exBind, exBind_ok] at htlinv
  obtain ⟨tO, htO, htlinv⟩ := htlinv
  rw [bind_eq_exBind, exBind_ok] at htlinv
  obtain ⟨dI, hdI, htlinv⟩ := htlinv
  rw [bind_eq_exBind, exBind_ok] at htlinv
  obtain ⟨dO, hdO, htlinv⟩ := htlinv
  rw [bind_eq_exBind, exBind_ok] at htlinv
  obtain ⟨pI, hpI, htlinv⟩ := htlinv
  obtain ⟨nA, hnA⟩ := lenOrRaise_ok_of_pyIter
    (dictGetD (tlFirst ds0) "audio" (vList [])) aI
    (by rw [tlFirst_sub ds0 "audio"]; exact haI)
  obtain ⟨nV, hnV⟩ := lenOrRaise_ok_of_pyIter
    (dictGetD (tlFirst ds0) "video" (vList [])) vI
    (by rw [tlFirst_sub ds0 "video"]; exact hvI)
  obtain ⟨nD, hnD⟩ := lenOrRaise_ok_of_pyIter
    (dictGetD (tlFirst ds0) "scoreDips" (vList [])) dI
    (by rw [tlFirst_sub ds0 "scoreDips"]; exact hdI)
  obtain ⟨nP, hnP⟩ := lenOrRaise_ok_of_pyIter
    (dictGetD (tlFirst ds0) "scorePeaks" (vList [])) pI
    (by rw [tlFirst_sub ds0 "scorePeaks"]; exact hpI)
  obtain ⟨nM, hnM0⟩ := Option.isSome_iff_exists.mp hlen
  have hnM : lenOrRaise (dictGetD ds0 "metrics" (vList [])) = .ok nM := by
    unfold lenOrRaise
    rw [hnM0]
    rfl
  have hctx2 : ctxCheck (dictSet ds0 "timeline" (vDict (tlFirst ds0))) =
      .ok () := by
    rw [ctxCheck_set_timeline]
    exact hctx
  have hmet : dictGetD (dictSet ds0 "timeline" (vDict (tlFirst ds0)))
      "metrics" (vList []) = dictGetD ds0 "metrics" (vList []) := by
    unfold dictGetD
    rw [dictGet?_set_ne _ _ _ _ (by decide : ("metrics" : String) ≠ "timeline")]
  have hwm : dictGetD (dictSet ds0 "timeline" (vDict (tlFirst ds0)))
      "weakMoments" (vList []) = dictGetD ds0 "weakMoments" (vList []) := by
    unfold dictGetD
    rw [dictGet?_set_ne _ _ _ _
      (by decide : ("weakMoments" : String) ≠ "timeline")]
  have hgtv : dictGetV (dictSet ds0 "timeline" (vDict (tlFirst ds0)))
      "timeline" = vDict (tlFirst ds0) := by
    unfold dictGetV
    rw [dictGet?_set_self]
    rfl
  have htlfirst : projectTimelineWith apiVideoSegFirst (vDict (tlFirst ds0)) =
      .ok tlOut :=
    projectTimelineWith_first (vDict (tlFirst ds0))
      (pyOr (dictGetV ds0 "timeline") (vDict [])) tlOut
      (fun k => tlFirst_sub ds0 k) htlex
  have hfmf : fill_metric_feedback (mItems.filterMap coerceMetricOpt) .noKey =
      .ok (mItems.filterMap coerceMetricOpt) := by
    refine fill_metric_feedback_noKey _ (fun m hm => ?_)
    obtain ⟨x, hx, hcm⟩ := List.mem_filterMap.mp hm
    exact coerceMetricOpt_keys x m hcm
  unfold normalize_for_api_first
  rw [if_neg (by simp [htr])]
  show firstCore ds0 .noKey .noKey = _
  unfold firstCore
  rw [bind_eq_exBind, exBind_ok]
  refine ⟨durInt, hdur, ?_⟩
  dsimp only []
  rw [bind_eq_exBind, exBind_ok]
  refine ⟨nA, hnA, ?_⟩
  rw [bind_eq_exBind, exBind_ok]
  refine ⟨nV, hnV, ?_⟩
  rw [bind_eq_exBind, exBind_ok]
  refine ⟨nD, hnD, ?_⟩
  rw [bind_eq_exBind, exBind_ok]
  refine ⟨if nD = 0 then decide (nP = 0) else false, ?_, ?_⟩
  · split
    · rw [bind_eq_exBind, hnP]
      rfl
    · rfl
  · rw [bind_eq_exBind, exBind_ok]
    refine ⟨nM, ?_, ?_⟩
    · rw [hmet]
      exact hnM
    · dsimp only []
      rw [bind_eq_exBind, exBind_ok]
      refine ⟨dictSet ds0 "timeline" (vDict (tlFirst ds0)), ?_, ?_⟩
      · split
        · rw [bind_eq_exBind, hctx2]
          split
          · rfl
          · rfl
        · rw [bind_eq_exBind, hctx2]
          split
          · rfl
          · rfl
      · rw [bind_eq_exBind, exBind_ok]
        refine ⟨tlOut, ?_, ?_⟩
        · rw [hgtv]
          exact htlfirst
        · rw [bind_eq_exBind, exBind_ok]
          refine ⟨mItems, ?_, ?_⟩
          · rw [hmet]
            exact hmi
          · dsimp only []
            rw [bind_eq_exBind, exBind_ok]
            refine ⟨mItems.filterMap coerceMetricOpt, ?_, ?_⟩
            · split
              · rfl
              · exact hfmf
            · rw [hwm]
              rfl

/-- The record the effective `normalize_for_api` produces for the
minimal document `{"sessionId": "s1"}`. -/
def c8WitnessOut : List (String × Value) :=
  [("sessionId", vStr "s1"),
   ("sessionName", vStr "Session s1"),
   ("videoUrl", vStr ""),
   ("duration", vInt 0),
   ("timeline", vDict
     [("audio", vList []), ("video", vList []), ("transcript", vList []),
      ("scoreDips", vList []), ("scorePeaks", vList [])]),
   ("metrics", vList [])]

/-- Witness for C8: on `{"sessionId": "s1"}` the first definition
returns the effective definition's record plus `weakMoments`. -/
theorem c8_first_is_effective_plus_weakMoments_witness :
    normalize_for_api_first (vDict [("sessionId", vStr "s1")]) .noKey .noKey =
      .ok (vDict (c8WitnessOut ++ [("weakMoments",
        pyOr (dictGetD [("sessionId", vStr "s1")] "weakMoments" (vList []))
          (vList []))])) :=
  c8_first_is_effective_plus_weakMoments [("sessionId", vStr "s1")]
    c8WitnessOut (List.cons_ne_nil _ _) rfl rfl rfl

/-! ### Claim C1: a safe-input class on which `prepare_for_insert` cannot raise -/

mutual

/-- Values free of Extended-JSON wrapper keys at every nesting level:
on these, `_unwrap` is the identity. -/
def Clean : Value → Bool
  | vDict es =>
      !dictHas es "$numberInt" && !dictHas es "$numberLong" &&
        !dictHas es "$oid" && !dictHas es "$date" && CleanPairs es
  | vList xs => CleanList xs
  | _ => true

def CleanList : List Value → Bool
  | [] => true
  | v :: vs => Clean v && CleanList vs

def CleanPairs : List (String × Value) → Bool
  | [] => true
  | (_, v) :: es => Clean v && CleanPairs es

end

/-- An entry a per-item normalizer accepts: falsy (defaulted to `{}`)
or a mapping. -/
def entrySafe (m : Value) : Bool := !m.truthy || isDict m

/-- A timeline sub-sequence the per-sequence loop accepts: absent, or a
list of acceptable entries. -/

def subSafe (tes : List (String × Value)) (k : String) : Bool :=
  match dictGet? tes k with
  | none => true
  | some (vList xs) => xs.all entrySafe
  | some _ => false

/-- A timeline value on which the timeline block cannot raise: a
non-mapping is replaced by `{}` wholesale, and a mapping must carry
acceptable sub-sequences under the five keys. -/
def tlSafe (tv : Value) : Bool :=
  match tv with
  | vDict tes =>
      subSafe tes "audio" && subSafe tes "video" && subSafe tes "transcript" &&
        subSafe tes "scoreDips" && subSafe tes "scorePeaks"
  | _ => true

/-- A metrics value on which the metrics block cannot raise: falsy
(defaulted to `[]`) or a list of acceptable entries. -/
def metricsSafe (mv : Value) : Bool :=
  match mv with
  | vList xs => xs.all entrySafe
  | w => !w.truthy

/-- The input class on which `prepare_for_insert` is proved total:
falsy inputs, and wrapper-free mappings with acceptable timeline and
metrics values. -/
def Safe (raw : Value) : Bool :=
  !raw.truthy ||
    (match raw with
     | vDict ds =>
         Clean (vDict ds) && tlSafe (dictGetV ds "timeline") &&
           metricsSafe (dictGetD ds "metrics" (vList []))
     | _ => false)

theorem dictGet?_eq_none_of_not_has (es : List (String × Value)) (k : String)
    (h : dictHas es k = false) : dictGet? es k = none := by
  unfold dictHas at h
  cases hg : dictGet? es k with
  | none => rfl
  | some v => rw [hg] at h; cases h

mutual

theorem unwrap_clean : ∀ v, Clean v = true → unwrap v = .ok v
  | vDict es, h => by
      have h' := h
      unfold Clean at h'
      simp only [Bool.and_eq_true, Bool.not_eq_true'] at h'
      obtain ⟨⟨⟨⟨hni, hnl⟩, hoid⟩, hdate⟩, hcp⟩ := h'
      unfold unwrap
      rw [dictGet?_eq_none_of_not_has es "$numberInt" hni,
        dictGet?_eq_none_of_not_has es "$numberLong" hnl,
        dictGet?_eq_none_of_not_has es "$oid" hoid,
        dictGet?_eq_none_of_not_has es "$date" hdate,
        bind_eq_exBind, unwrapPairs_clean es hcp]
      rfl
  | vList xs, h => by
      unfold unwrap
      rw [bind_eq_exBind, unwrapList_clean xs h]
      rfl
  | vNone, _ => rfl
  | vBool b, _ => rfl
  | vInt n, _ => rfl
  | vFloat q, _ => rfl
  | vStr s, _ => rfl
  | vDateTime ms, _ => rfl
  | vObjectId s, _ => rfl

theorem unwrapList_clean : ∀ xs, CleanList xs = true → unwrapList xs = .ok xs
  | [], _ => rfl
  | v :: vs, h => by
      have h' := h
      unfold CleanList at h'
      simp only [Bool.and_eq_true] at h'
      obtain ⟨h1, h2⟩ := h'
      unfold unwrapList
      rw [bind_eq_exBind, unwrap_clean v h1]
      show (unwrapList vs >>= fun ls => pure (v :: ls)) = Except.ok (v :: vs)
      rw [bind_eq_exBind, unwrapList_clean vs h2]
      rfl

theorem unwrapPairs_clean : ∀ es, CleanPairs es = true → unwrapPairs es = .ok es
  | [], _ => rfl
  | (k, v) :: es, h => by
      have h' := h
      unfold CleanPairs at h'
      simp only [Bool.and_eq_true] at h'
      obtain ⟨h1, h2⟩ := h'
      unfold unwrapPairs
      rw [bind_eq_exBind, unwrap_clean v h1]
      show (unwrapPairs es >>= fun ps => pure ((k, v) :: ps)) =
        Except.ok ((k, v) :: es)
      rw [bind_eq_exBind, unwrapPairs_clean es h2]
      rfl

end

theorem isOk_exists {α : Type} (e : Except String α) (h : e.isOk = true) :
    ∃ a, e = .ok a := by
  cases e with
  | ok a => exact ⟨a, rfl⟩
  | error s => simp [Except.isOk, Except.toBool] at h

theorem isDict_exists (m : Value) (h : isDict m = true) :
    ∃ es, m = vDict es := by
  cases m with
  | vDict es => exact ⟨es, rfl⟩
  | vNone => cases h
  | vBool b => cases h
  | vInt n => cases h
  | vFloat q => cases h
  | vStr s => cases h
  | vList xs => cases h
  | vDateTime ms => cases h
  | vObjectId s => cases h

theorem pyOr_dict_of_entrySafe (m : Value) (h : entrySafe m = true) :
    ∃ es, pyOr m (vDict []) = vDict es := by
  unfold entrySafe at h
  unfold pyOr
  by_cases ht : m.truthy = true
  · rw [if_pos ht]
    rw [ht] at h
    simp only [Bool.not_true, Bool.false_or] at h
    obtain ⟨es, hes⟩ := isDict_exists m h
    exact ⟨es, by rw [hes]⟩
  · rw [if_neg ht]
    exact ⟨[], rfl⟩

theorem normAudioSeg_ok_of_safe (m : Value) (h : entrySafe m = true) :
    (normAudioSeg m).isOk = true := by
  unfold normAudioSeg
  obtain ⟨es, he⟩ := pyOr_dict_of_entrySafe m h
  rw [he]
  rfl

theorem normVideoSeg_ok_of_safe (m : Value) (h : entrySafe m = true) :
    (normVideoSeg m).isOk = true := by
  unfold normVideoSeg
  obtain ⟨es, he⟩ := pyOr_dict_of_entrySafe m h
  rw [he]
  rfl

theorem normTransSeg_ok_of_safe (m : Value) (h : entrySafe m = true) :
    (normTransSeg m).isOk = true := by
  unfold normTransSeg
  obtain ⟨es, he⟩ := pyOr_dict_of_entrySafe m h
  rw [he]
  rfl

theorem normScoreItem_ok_of_safe (m : Value) (h : entrySafe m = true) :
    (normScoreItem m).isOk = true := by
  unfold normScoreItem
  obtain ⟨es, he⟩ := pyOr_dict_of_entrySafe m h
  rw [he]
  rfl

theorem normMetric_ok_of_safe (m : Value) (h : entrySafe m = true) :
    (normMetric m).isOk = true := by
  unfold normMetric
  obtain ⟨es, he⟩ := pyOr_dict_of_entrySafe m h
  rw [he]
  rfl

theorem subSafe_getD (tes : List (String × Value)) (k : String)
    (h : subSafe tes k = true) :
    ∃ xs, dictGetD tes k (vList []) = vList xs ∧ xs.all entrySafe = true := by
  unfold subSafe at h
  unfold dictGetD
  cases hg : dictGet? tes k with
  | none => exact ⟨[], rfl, rfl⟩
  | some w =>
      rw [hg] at h
      cases w with
      | vList xs => exact ⟨xs, rfl, h⟩
      | vNone => exact Bool.noConfusion h
      | vBool b => exact Bool.noConfusion h
      | vInt n => exact Bool.noConfusion h
      | vFloat q => exact Bool.noConfusion h
      | vStr s => exact Bool.noConfusion h
      | vDict des => exact Bool.noConfusion h
      | vDateTime ms => exact Bool.noConfusion h
      | vObjectId s => exact Bool.noConfusion h

theorem dictGetD_set_ne (es : List (String × Value)) (k k' : String)
    (v d : Value) (h : k' ≠ k) :
    dictGetD (dictSet es k v) k' d = dictGetD es k' d := by
  unfold dictGetD
  rw [dictGet?_set_ne _ _ _ _ h]

theorem timelineSetdefaults_getD (tl0 : List (String × Value)) (k : String) :
    dictGetD (timelineSetdefaults tl0) k (vList []) =
      dictGetD tl0 k (vList []) := by
  unfold timelineSetdefaults
  rw [dictGetD_setdefault_gen _ _ _ _ (fun hn => rfl),
    dictGetD_setdefault_gen _ _ _ _ (fun hn => rfl),
    dictGetD_setdefault_gen _ _ _ _ (fun hn => rfl),
    dictGetD_setdefault_gen _ _ _ _ (fun hn => rfl),
    dictGetD_setdefault_gen _ _ _ _ (fun hn => rfl)]

theorem normSub_ok_of_all (tl : List (String × Value)) (k : String)
    (f : Value → Except String Value) (xs : List Value)
    (hv : dictGetD tl k (vList []) = vList xs)
    (hf : ∀ x ∈ xs, (f x).isOk = true) :
    ∃ normed, normSub tl k f = .ok (dictSet tl k (vList normed)) := by
  obtain ⟨normed, hn⟩ := isOk_exists _ (exMapM_ok_of_all f xs hf)
  refine ⟨normed, ?_⟩
  unfold normSub
  rw [hv]
  rw [bind_eq_exBind, exBind_ok]
  refine ⟨xs, rfl, ?_⟩
  rw [bind_eq_exBind, exBind_ok]
  exact ⟨normed, hn, rfl⟩

theorem ok_bind {α β : Type} (a : α) (f : α → Except String β) :
    (Except.ok a >>= f) = f a := rfl

theorem timeline_chain_ok (tl0 : List (String × Value))
    (hA : subSafe tl0 "audio" = true) (hV : subSafe tl0 "video" = true)
    (hT : subSafe tl0 "transcript" = true)
    (hD : subSafe tl0 "scoreDips" = true)
    (hP : subSafe tl0 "scorePeaks" = true) :
    ∃ tl', (normSub (timelineSetdefaults tl0) "audio" normAudioSeg >>= fun tl =>
        normSub tl "video" normVideoSeg >>= fun tl =>
        normSub tl "transcript" normTransSeg >>= fun tl =>
        normSub tl "scoreDips" normScoreItem >>= fun tl =>
        normSub tl "scorePeaks" normScoreItem) = .ok tl' := by
  obtain ⟨xsA, hxA, haA⟩ := subSafe_getD tl0 "audio" hA
  obtain ⟨xsV, hxV, haV⟩ := subSafe_getD tl0 "video" hV
  obtain ⟨xsT, hxT, haT⟩ := subSafe_getD tl0 "transcript" hT
  obtain ⟨xsD, hxD, haD⟩ := subSafe_getD tl0 "scoreDips" hD
  obtain ⟨xsP, hxP, haP⟩ := subSafe_getD tl0 "scorePeaks" hP
  obtain ⟨n1, h1⟩ := normSub_ok_of_all (timelineSetdefaults tl0) "audio"
    normAudioSeg xsA (by rw [timelineSetdefaults_getD]; exact hxA)
    (fun x hx => normAudioSeg_ok_of_safe x (List.all_eq_true.mp haA x hx))
  obtain ⟨n2, h2⟩ := normSub_ok_of_all
    (dictSet (timelineSetdefaults tl0) "audio" (vList n1)) "video"
    normVideoSeg xsV
    (by rw [dictGetD_set_ne _ _ _ _ _ (by decide : ("video" : String) ≠ "audio"),
      timelineSetdefaults_getD]; exact hxV)
    (fun x hx => normVideoSeg_ok_of_safe x (List.all_eq_true.mp haV x hx))
  obtain ⟨n3, h3⟩ := normSub_ok_of_all
    (dictSet (dictSet (timelineSetdefaults tl0) "audio" (vList n1))
      "video" (vList n2)) "transcript" normTransSeg xsT
    (by rw [dictGetD_set_ne _ _ _ _ _
        (by decide : ("transcript" : String) ≠ "video"),
      dictGetD_set_ne _ _ _ _ _ (by decide : ("transcript" : String) ≠ "audio"),
      timelineSetdefaults_getD]; exact hxT)
    (fun x hx => normTransSeg_ok_of_safe x (List.all_eq_true.mp haT x hx))
  obtain ⟨n4, h4⟩ := normSub_ok_of_all
    (dictSet (dictSet (dictSet (timelineSetdefaults tl0) "audio" (vList n1))
      "video" (vList n2)) "transcript" (vList n3)) "scoreDips"
    normScoreItem xsD
    (by rw [dictGetD_set_ne _ _ _ _ _
        (by decide : ("scoreDips" : String) ≠ "transcript"),
      dictGetD_set_ne _ _ _ _ _ (by decide : ("scoreDips" : String) ≠ "video"),
      dictGetD_set_ne _ _ _ _ _ (by decide : ("scoreDips" : String) ≠ "audio"),
      timelineSetdefaults_getD]; exact hxD)
    (fun x hx => normScoreItem_ok_of_safe x (List.all_eq_true.mp haD x hx))
  obtain ⟨n5, h5⟩ := normSub_ok_of_all
    (dictSet (dictSet (dictSet (dictSet (timelineSetdefaults tl0) "audio"
      (vList n1)) "video" (vList n2)) "transcript" (vList n3)) "scoreDips"
      (vList n4)) "scorePeaks" normScoreItem xsP
    (by rw [dictGetD_set_ne _ _ _ _ _
        (by decide : ("scorePeaks" : String) ≠ "scoreDips"),
      dictGetD_set_ne _ _ _ _ _
        (by decide : ("scorePeaks" : String) ≠ "transcript"),
      dictGetD_set_ne _ _ _ _ _ (by decide : ("scorePeaks" : String) ≠ "video"),
      dictGetD_set_ne _ _ _ _ _ (by decide : ("scorePeaks" : String) ≠ "audio"),
      timelineSetdefaults_getD]; exact hxP)
    (fun x hx => normScoreItem_ok_of_safe x (List.all_eq_true.mp haP x hx))
  refine ⟨dictSet (dictSet (dictSet (dictSet (dictSet (timelineSetdefaults tl0)
    "audio" (vList n1)) "video" (vList n2)) "transcript" (vList n3))
    "scoreDips" (vList n4)) "scorePeaks" (vList n5), ?_⟩
  rw [bind_eq_exBind, exBind_ok]
  refine ⟨_, h1, ?_⟩
  rw [bind_eq_exBind, exBind_ok]
  refine ⟨_, h2, ?_⟩
  rw [bind_eq_exBind, exBind_ok]
  refine ⟨_, h3, ?_⟩
  rw [bind_eq_exBind, exBind_ok]
  refine ⟨_, h4, ?_⟩
  exact h5

theorem prepareTimeline_ok_of_safe (tlv : Value) (h : tlSafe tlv = true) :
    ∃ tl', prepareTimeline tlv = .ok tl' := by
  cases tlv with
  | vDict tes =>
      unfold tlSafe at h
      dsimp only [] at h
      simp only [Bool.and_eq_true] at h
      obtain ⟨⟨⟨⟨hA, hV⟩, hT⟩, hD⟩, hP⟩ := h
      exact timeline_chain_ok tes hA hV hT hD hP
  | vNone => exact timeline_chain_ok [] rfl rfl rfl rfl rfl
  | vBool b => exact timeline_chain_ok [] rfl rfl rfl rfl rfl
  | vInt n => exact timeline_chain_ok [] rfl rfl rfl rfl rfl
  | vFloat q => exact timeline_chain_ok [] rfl rfl rfl rfl rfl
  | vStr s => exact timeline_chain_ok [] rfl rfl rfl rfl rfl
  | vList xs => exact timeline_chain_ok [] rfl rfl rfl rfl rfl
  | vDateTime ms => exact timeline_chain_ok [] rfl rfl rfl rfl rfl
  | vObjectId s => exact timeline_chain_ok [] rfl rfl rfl rfl rfl

theorem pyOr_list_safe (mv : Value) (h : metricsSafe mv = true) :
    ∃ ys, pyOr mv (vList []) = vList ys ∧ ys.all entrySafe = true := by
  unfold metricsSafe at h
  unfold pyOr
  by_cases ht : mv.truthy = true
  · rw [if_pos ht]
    cases mv with
    | vList xs => exact ⟨xs, rfl, h⟩
    | vNone => exact Bool.noConfusion ht
    | vBool b =>
        have hf : (vBool b).truthy = false := by simpa using h
        rw [hf] at ht
        exact Bool.noConfusion ht
    | vInt n =>
        have hf : (vInt n).truthy = false := by simpa using h
        rw [hf] at ht
        exact Bool.noConfusion ht
    | vFloat q =>
        have hf : (vFloat q).truthy = false := by simpa using h
        rw [hf] at ht
        exact Bool.noConfusion ht
    | vStr s =>
        have hf : (vStr s).truthy = false := by simpa using h
        rw [hf] at ht
        exact Bool.noConfusion ht
    | vDict es =>
        have hf : (vDict es).truthy = false := by simpa using h
        rw [hf] at ht
        exact Bool.noConfusion ht
    | vDateTime ms =>
        have hf : (vDateTime ms).truthy = false := by simpa using h
        rw [hf] at ht
        exact Bool.noConfusion ht
    | vObjectId s =>
        have hf : (vObjectId s).truthy = false := by simpa using h
        rw [hf] at ht
        exact Bool.noConfusion ht
  · rw [if_neg ht]
    exact ⟨[], rfl, rfl⟩

theorem prepareMetrics_ok_of_safe (mv : Value) (h : metricsSafe mv = true) :
    ∃ ms, prepareMetrics mv = .ok ms := by
  obtain ⟨ys, hys, hall⟩ := pyOr_list_safe mv h
  obtain ⟨ms, hms⟩ := isOk_exists _ (exMapM_ok_of_all normMetric ys
    (fun x hx => normMetric_ok_of_safe x (List.all_eq_true.mp hall x hx)))
  refine ⟨ms, ?_⟩
  unfold prepareMetrics
  rw [hys]
  rw [bind_eq_exBind, exBind_ok]
  exact ⟨ys, rfl, hms⟩

theorem dictGet?_idNameUrl_ne (ds : List (String × Value)) (k : String)
    (h1 : k ≠ "sessionId") (h2 : k ≠ "sessionName") (h3 : k ≠ "videoUrl") :
    dictGet? (idNameUrl ds) k = dictGet? ds k := by
  unfold idNameUrl
  dsimp only []
  rw [dictGet?_setdefault_ne _ _ _ _ h3, dictGet?_setdefault_ne _ _ _ _ h2,
    dictGet?_setdefault_ne _ _ _ _ h1]

theorem prepareCore_ok_of_safe (ds : List (String × Value))
    (htl : tlSafe (dictGetV ds "timeline") = true)
    (hms : metricsSafe (dictGetD ds "metrics" (vList [])) = true) :
    (prepareCore ds).isOk = true := by
  have hgtl : dictGetV (dictSet (idNameUrl ds) "duration"
      (vInt (durationOf (idNameUrl ds)))) "timeline" =
      dictGetV ds "timeline" := by
    unfold dictGetV
    rw [dictGet?_set_ne _ _ _ _ (by decide : ("timeline" : String) ≠ "duration"),
      dictGet?_idNameUrl_ne ds "timeline" (by decide) (by decide) (by decide)]
  obtain ⟨tl', htl'⟩ := prepareTimeline_ok_of_safe (dictGetV ds "timeline") htl
  obtain ⟨ms', hms'⟩ :=
    prepareMetrics_ok_of_safe (dictGetD ds "metrics" (vList [])) hms
  have hmet : dictGetD (dictSet (dictSet (idNameUrl ds) "duration"
      (vInt (durationOf (idNameUrl ds)))) "timeline" (vDict tl')) "metrics"
      (vList []) = dictGetD ds "metrics" (vList []) := by
    rw [dictGetD_set_ne _ _ _ _ _ (by decide : ("metrics" : String) ≠ "timeline"),
      dictGetD_set_ne _ _ _ _ _ (by decide : ("metrics" : String) ≠ "duration")]
    unfold dictGetD
    rw [dictGet?_idNameUrl_ne ds "metrics" (by decide) (by decide) (by decide)]
  unfold prepareCore
  dsimp only []
  rw [hgtl, htl', ok_bind]
  rw [hmet, hms', ok_bind]
  rfl

set_option maxHeartbeats 1600000 in
/-- C1 (amended): `prepare_for_insert` CAN raise on malformed input (see
the counterexample: an uncaught `AttributeError` on a truthy non-mapping
inside `metrics`, and an uncaught `ValueError` on a boxed-int envelope
with a non-numeric payload).  The no-raise guarantee holds on the
restricted class `Safe`: falsy inputs, and wrapper-free mappings whose
timeline sub-sequences are lists of falsy-or-mapping entries and whose
metrics value is falsy or such a list. -/
theorem c1_safe_inputs_never_raise (raw : Value) (h : Safe raw = true) :
    (prepare_for_insert raw).isOk = true := by
  by_cases htr : raw.truthy = true
  · unfold Safe at h
    rw [htr] at h
    simp only [Bool.not_true, Bool.false_or] at h
    cases raw with
    | vDict ds =>
        dsimp only [] at h
        simp only [Bool.and_eq_true] at h
        obtain ⟨⟨hcl, htlS⟩, hmsS⟩ := h
        unfold prepare_for_insert
        have hpo : pyOr (vDict ds) (vDict []) = vDict ds := by
          unfold pyOr
          rw [if_pos htr]
        rw [bind_eq_exBind, hpo, unwrap_clean (vDict ds) hcl]
        exact prepareCore_ok_of_safe ds htlS hmsS
    | vNone => exact Bool.noConfusion h
    | vBool b => exact Bool.noConfusion h
    | vInt n => exact Bool.noConfusion h
    | vFloat q => exact Bool.noConfusion h
    | vStr s => exact Bool.noConfusion h
    | vList xs => exact Bool.noConfusion h
    | vDateTime ms => exact Bool.noConfusion h
    | vObjectId s => exact Bool.noConfusion h
  · unfold prepare_for_insert
    have hpo : pyOr raw (vDict []) = vDict [] := by
      unfold pyOr
      rw [if_neg htr]
    rw [bind_eq_exBind, hpo]
    rfl

/-- A malformed-but-`Safe` raw document: stringly numeric fields, a
falsy metric entry, an extra timeline key. -/
def c1SafeRaw : Value := vDict
  [("sessionId", vStr "s1"),
   ("timeline", vDict [("audio", vList [vDict [("pace", vStr "7")]]),
     ("zz", vInt 3)]),
   ("metrics", vList [vNone, vDict [("name", vStr "A"), ("score", vStr "x")]]),
   ("mentorId", vInt 7)]

/-- Witness for C1: `c1SafeRaw` is in the safe class and normalizes
without raising. -/
theorem c1_safe_inputs_never_raise_witness :
    Safe c1SafeRaw = true ∧ (prepare_for_insert c1SafeRaw).isOk = true :=
  ⟨by decide, c1_safe_inputs_never_raise c1SafeRaw (by decide)⟩

/-! ### Claim C5: idempotence on wrapper-free normalized documents -/

theorem pyOr_of_truthy (a b : Value) (h : a.truthy = true) : pyOr a b = a := by
  unfold pyOr
  rw [if_pos h]

theorem pyOr_of_falsy (a b : Value) (h : ¬a.truthy = true) : pyOr a b = b := by
  unfold pyOr
  rw [if_neg h]

theorem pyOr_falsy_eq (a b : Value) (h : (pyOr a b).truthy = false) :
    pyOr a b = b := by
  by_cases ht : a.truthy = true
  · rw [pyOr_of_truthy a b ht] at h
    rw [h] at ht
    exact Bool.noConfusion ht
  · exact pyOr_of_falsy a b ht

theorem pyOr_falsy_chain2 (x y d : Value)
    (h : (pyOr x (pyOr y d)).truthy = false) : pyOr x (pyOr y d) = d := by
  have h1 := pyOr_falsy_eq x (pyOr y d) h
  rw [h1] at h ⊢
  exact pyOr_falsy_eq y d h

theorem pyOr_restab (t d : Value) (h : t.truthy = false → t = d) :
    pyOr t d = t := by
  by_cases ht : t.truthy = true
  · exact pyOr_of_truthy t d ht
  · have hf : t.truthy = false := by
      cases htt : t.truthy
      · rfl
      · exact absurd htt ht
    rw [pyOr_of_falsy t d ht, h hf]

theorem intStab1 (a : Int) : (toInt? (pyOr (vInt a) (vInt 0))).getD 0 = a := by
  by_cases ha : a = 0
  · subst ha
    rfl
  · rw [pyOr_of_truthy (vInt a) (vInt 0) (by simp [truthy, ha])]
    rfl

theorem floatStab1 (e : Rat) :
    (toFloat? (pyOr (vFloat e) (vInt 0))).getD 0 = e := by
  by_cases he : e = 0
  · subst he
    rfl
  · rw [pyOr_of_truthy (vFloat e) (vInt 0) (by simp [truthy, he])]
    rfl

theorem ciStab (cx cy : Int) :
    ciValsOf (pyOr (vList [vInt cx, vInt cy]) (vList [])) =
      [vInt cx, vInt cy] := by
  rw [pyOr_of_truthy (vList [vInt cx, vInt cy]) (vList []) rfl]
  rfl

theorem whStab (l : List Value) :
    listOrEmpty (pyOr (vList l) (vList [])) = vList l := by
  cases l with
  | nil => rfl
  | cons a t => rfl

theorem normAudioSeg_idem (a b p q : Int) (ty msg : Value) :
    normAudioSeg (vDict [("startTime", vInt a), ("endTime", vInt b),
      ("pace", vInt p), ("pauses", vInt q), ("type", pyOr ty (vStr "normal")),
      ("message", pyOr msg (vStr ""))]) =
    .ok (vDict [("startTime", vInt a), ("endTime", vInt b),
      ("pace", vInt p), ("pauses", vInt q), ("type", pyOr ty (vStr "normal")),
      ("message", pyOr msg (vStr ""))]) := by
  show Except.ok (vDict
    [("startTime", vInt ((toInt? (pyOr (vInt a) (vInt 0))).getD 0)),
     ("endTime", vInt ((toInt? (pyOr (vInt b) (vInt 0))).getD 0)),
     ("pace", vInt ((toInt? (pyOr (vInt p) (vInt 0))).getD 0)),
     ("pauses", vInt ((toInt? (pyOr (vInt q) (vInt 0))).getD 0)),
     ("type", pyOr (pyOr ty (vStr "normal")) (vStr "normal")),
     ("message", pyOr (pyOr msg (vStr "")) (vStr ""))]) =
    Except.ok (vDict [("startTime", vInt a), ("endTime", vInt b),
      ("pace", vInt p), ("pauses", vInt q), ("type", pyOr ty (vStr "normal")),
      ("message", pyOr msg (vStr ""))])
  rw [intStab1 a, intStab1 b, intStab1 p, intStab1 q,
    pyOr_restab (pyOr ty (vStr "normal")) (vStr "normal")
      (pyOr_falsy_eq ty (vStr "normal")),
    pyOr_restab (pyOr msg (vStr "")) (vStr "")
      (pyOr_falsy_eq msg (vStr ""))]

theorem normVideoSeg_idem (a b : Int) (e : Rat) (g : Int) (ty msg : Value) :
    normVideoSeg (vDict [("startTime", vInt a), ("endTime", vInt b),
      ("eyeContact", vFloat e), ("gestures", vInt g),
      ("type", pyOr ty (vStr "good")), ("message", pyOr msg (vStr ""))]) =
    .ok (vDict [("startTime", vInt a), ("endTime", vInt b),
      ("eyeContact", vFloat e), ("gestures", vInt g),
      ("type", pyOr ty (vStr "good")), ("message", pyOr msg (vStr ""))]) := by
  show Except.ok (vDict
    [("startTime", vInt ((toInt? (pyOr (vInt a) (vInt 0))).getD 0)),
     ("endTime", vInt ((toInt? (pyOr (vInt b) (vInt 0))).getD 0)),
     ("eyeContact", vFloat ((toFloat? (pyOr (vFloat e) (vInt 0))).getD 0)),
     ("gestures", vInt ((toInt? (pyOr (vInt g) (vInt 0))).getD 0)),
     ("type", pyOr (pyOr ty (vStr "good")) (vStr "good")),
     ("message", pyOr (pyOr msg (vStr "")) (vStr ""))]) =
    Except.ok (vDict [("startTime", vInt a), ("endTime", vInt b),
      ("eyeContact", vFloat e), ("gestures", vInt g),
      ("type", pyOr ty (vStr "good")), ("message", pyOr msg (vStr ""))])
  rw [intStab1 a, intStab1 b, floatStab1 e, intStab1 g,
    pyOr_restab (pyOr ty (vStr "good")) (vStr "good")
      (pyOr_falsy_eq ty (vStr "good")),
    pyOr_restab (pyOr msg (vStr "")) (vStr "")
      (pyOr_falsy_eq msg (vStr ""))]

theorem normTransSeg_idem (a b : Int) (tx tr kp kq : Value) :
    normTransSeg (vDict [("startTime", vInt a), ("endTime", vInt b),
      ("text", pyOr tx (pyOr tr (vStr ""))),
      ("keyPhrases", pyOr kp (pyOr kq (vList [])))]) =
    .ok (vDict [("startTime", vInt a), ("endTime", vInt b),
      ("text", pyOr tx (pyOr tr (vStr ""))),
      ("keyPhrases", pyOr kp (pyOr kq (vList [])))]) := by
  show Except.ok (vDict
    [("startTime", vInt ((toInt? (pyOr (vInt a) (vInt 0))).getD 0)),
     ("endTime", vInt ((toInt? (pyOr (vInt b) (vInt 0))).getD 0)),
     ("text", pyOr (pyOr tx (pyOr tr (vStr ""))) (vStr "")),
     ("keyPhrases", pyOr (pyOr kp (pyOr kq (vList []))) (vList []))]) =
    Except.ok (vDict [("startTime", vInt a), ("endTime", vInt b),
      ("text", pyOr tx (pyOr tr (vStr ""))),
      ("keyPhrases", pyOr kp (pyOr kq (vList [])))])
  rw [intStab1 a, intStab1 b,
    pyOr_restab (pyOr tx (pyOr tr (vStr ""))) (vStr "")
      (pyOr_falsy_chain2 tx tr (vStr "")),
    pyOr_restab (pyOr kp (pyOr kq (vList []))) (vList [])
      (pyOr_falsy_chain2 kp kq (vList []))]

theorem normScoreItem_idem (t s : Int) (m ty : Value) :
    normScoreItem (vDict [("timestamp", vInt t), ("score", vInt s),
      ("message", pyOr m (vStr "")), ("type", pyOr ty (vStr ""))]) =
    .ok (vDict [("timestamp", vInt t), ("score", vInt s),
      ("message", pyOr m (vStr "")), ("type", pyOr ty (vStr ""))]) := by
  show Except.ok (vDict
    [("timestamp", vInt ((toInt? (pyOr (vInt t) (vInt 0))).getD 0)),
     ("score", vInt ((toInt? (pyOr (vInt s) (vInt 0))).getD 0)),
     ("message", pyOr (pyOr m (vStr "")) (vStr "")),
     ("type", pyOr (pyOr ty (vStr "")) (vStr ""))]) =
    Except.ok (vDict [("timestamp", vInt t), ("score", vInt s),
      ("message", pyOr m (vStr "")), ("type", pyOr ty (vStr ""))])
  rw [intStab1 t, intStab1 s,
    pyOr_restab (pyOr m (vStr "")) (vStr "") (pyOr_falsy_eq m (vStr "")),
    pyOr_restab (pyOr ty (vStr "")) (vStr "") (pyOr_falsy_eq ty (vStr ""))]

theorem normMetric_idem (nx ny : Value) (s cx cy : Int) (lh lu : List Value) :
    normMetric (vDict [("name", pyOr nx (pyOr ny (vStr ""))),
      ("score", vInt s), ("confidenceInterval", vList [vInt cx, vInt cy]),
      ("whatHelped", vList lh), ("whatHurt", vList lu)]) =
    .ok (vDict [("name", pyOr nx (pyOr ny (vStr ""))),
      ("score", vInt s), ("confidenceInterval", vList [vInt cx, vInt cy]),
      ("whatHelped", vList lh), ("whatHurt", vList lu)]) := by
  show Except.ok (vDict
    [("name", pyOr (pyOr nx (pyOr ny (vStr ""))) (vStr "")),
     ("score", vInt ((toInt? (pyOr (vInt s) (vInt 0))).getD 0)),
     ("confidenceInterval",
       vList (ciValsOf (pyOr (vList [vInt cx, vInt cy]) (vList [])))),
     ("whatHelped", listOrEmpty (pyOr (vList lh) (vList []))),
     ("whatHurt", listOrEmpty (pyOr (vList lu) (vList [])))]) =
    Except.ok (vDict [("name", pyOr nx (pyOr ny (vStr ""))),
      ("score", vInt s), ("confidenceInterval", vList [vInt cx, vInt cy]),
      ("whatHelped", vList lh), ("whatHurt", vList lu)])
  rw [intStab1 s, ciStab cx cy, whStab lh, whStab lu,
    pyOr_restab (pyOr nx (pyOr ny (vStr ""))) (vStr "")
      (pyOr_falsy_chain2 nx ny (vStr ""))]

theorem normAudioSeg_fix (seg out : Value) (h : normAudioSeg seg = .ok out) :
    normAudioSeg out = .ok out := by
  unfold normAudioSeg at h
  cases hp : pyOr seg (vDict []) with
  | vDict es =>
      rw [hp] at h
      dsimp only [] at h
      simp only [pure, Except.pure, Except.ok.injEq] at h
      subst h
      exact normAudioSeg_idem _ _ _ _ _ _
  | vNone => rw [hp] at h; cases h
  | vBool b => rw [hp] at h; cases h
  | vInt n => rw [hp] at h; cases h
  | vFloat q => rw [hp] at h; cases h
  | vStr s => rw [hp] at h; cases h
  | vList xs => rw [hp] at h; cases h
  | vDateTime ms => rw [hp] at h; cases h
  | vObjectId s => rw [hp] at h; cases h

theorem normVideoSeg_fix (seg out : Value) (h : normVideoSeg seg = .ok out) :
    normVideoSeg out = .ok out := by
  unfold normVideoSeg at h
  cases hp : pyOr seg (vDict []) with
  | vDict es =>
      rw [hp] at h
      dsimp only [] at h
      simp only [pure, Except.pure, Except.ok.injEq] at h
      subst h
      exact normVideoSeg_idem _ _ _ _ _ _
  | vNone => rw [hp] at h; cases h
  | vBool b => rw [hp] at h; cases h
  | vInt n => rw [hp] at h; cases h
  | vFloat q => rw [hp] at h; cases h
  | vStr s => rw [hp] at h; cases h
  | vList xs => rw [hp] at h; cases h
  | vDateTime ms => rw [hp] at h; cases h
  | vObjectId s => rw [hp] at h; cases h

theorem normTransSeg_fix (seg out : Value) (h : normTransSeg seg = .ok out) :
    normTransSeg out = .ok out := by
  unfold normTransSeg at h
  cases hp : pyOr seg (vDict []) with
  | vDict es =>
      rw [hp] at h
      dsimp only [] at h
      simp only [pure, Except.pure, Except.ok.injEq] at h
      subst h
      exact normTransSeg_idem _ _ _ _ _ _
  | vNone => rw [hp] at h; cases h
  | vBool b => rw [hp] at h; cases h
  | vInt n => rw [hp] at h; cases h
  | vFloat q => rw [hp] at h; cases h
  | vStr s => rw [hp] at h; cases h
  | vList xs => rw [hp] at h; cases h
  | vDateTime ms => rw [hp] at h; cases h
  | vObjectId s => rw [hp] at h; cases h

theorem normScoreItem_fix (seg out : Value) (h : normScoreItem seg = .ok out) :
    normScoreItem out = .ok out := by
  unfold normScoreItem at h
  cases hp : pyOr seg (vDict []) with
  | vDict es =>
      rw [hp] at h
      dsimp only [] at h
      simp only [pure, Except.pure, Except.ok.injEq] at h
      subst h
      exact normScoreItem_idem _ _ _ _
  | vNone => rw [hp] at h; cases h
  | vBool b => rw [hp] at h; cases h
  | vInt n => rw [hp] at h; cases h
  | vFloat q => rw [hp] at h; cases h
  | vStr s => rw [hp] at h; cases h
  | vList xs => rw [hp] at h; cases h
  | vDateTime ms => rw [hp] at h; cases h
  | vObjectId s => rw [hp] at h; cases h

theorem normMetric_fix (seg out : Value) (h : normMetric seg = .ok out) :
    normMetric out = .ok out := by
  unfold normMetric at h
  cases hp : pyOr seg (vDict []) with
  | vDict es =>
      rw [hp] at h
      dsimp only [] at h
      simp only [pure, Except.pure, Except.ok.injEq] at h
      obtain ⟨cx, cy, hci⟩ := ciValsOf_shape (pyOr (dictGetV es "confidenceInterval")
        (pyOr (dictGetV es "confidence_interval") (vList [])))
      obtain ⟨lh, hlh⟩ := listOrEmpty_shape (pyOr (dictGetV es "whatHelped")
        (pyOr (dictGetV es "what_helped") (vList [])))
      obtain ⟨lu, hlu⟩ := listOrEmpty_shape (pyOr (dictGetV es "whatHurt")
        (pyOr (dictGetV es "what_hurt") (vList [])))
      rw [hci, hlh, hlu] at h
      subst h
      exact normMetric_idem _ _ _ _ _ _ _
  | vNone => rw [hp] at h; cases h
  | vBool b => rw [hp] at h; cases h
  | vInt n => rw [hp] at h; cases h
  | vFloat q => rw [hp] at h; cases h
  | vStr s => rw [hp] at h; cases h
  | vList xs => rw [hp] at h; cases h
  | vDateTime ms => rw [hp] at h; cases h
  | vObjectId s => rw [hp] at h; cases h

theorem exMapM_fix (f : Value → Except String Value) (ys : List Value)
    (h : ∀ y ∈ ys, f y = .ok y) : exMapM f ys = .ok ys := by
  induction ys with
  | nil => rfl
  | cons y ys ih =>
      rw [exMapM_cons, h y (List.mem_cons_self y ys),
        ih (fun z hz => h z (List.mem_cons_of_mem _ hz))]
      rfl

theorem dictHas_of_get (es : List (String × Value)) (k : String) (v : Value)
    (hg : dictGet? es k = some v) : dictHas es k = true := by
  unfold dictHas
  rw [hg]
  rfl

theorem normSub_fix (tl : List (String × Value)) (k : String)
    (f : Value → Except String Value) (ns : List Value)
    (hget : dictGet? tl k = some (vList ns))
    (hfix : ∀ y ∈ ns, f y = .ok y) :
    normSub tl k f = .ok tl := by
  have hgd : dictGetD tl k (vList []) = vList ns := by
    unfold dictGetD
    rw [hget]
    rfl
  unfold normSub
  rw [hgd]
  rw [bind_eq_exBind, exBind_ok]
  refine ⟨ns, rfl, ?_⟩
  rw [bind_eq_exBind, exBind_ok]
  refine ⟨ns, exMapM_fix f ns hfix, ?_⟩
  rw [dictSet_eq_of_get tl k (vList ns) hget]
  rfl

theorem timelineSetdefaults_of_has (tl : List (String × Value))
    (h1 : dictHas tl "audio" = true) (h2 : dictHas tl "video" = true)
    (h3 : dictHas tl "transcript" = true) (h4 : dictHas tl "scoreDips" = true)
    (h5 : dictHas tl "scorePeaks" = true) :
    timelineSetdefaults tl = tl := by
  unfold timelineSetdefaults
  rw [dictSetdefault_of_has _ _ _ h1, dictSetdefault_of_has _ _ _ h2,
    dictSetdefault_of_has _ _ _ h3, dictSetdefault_of_has _ _ _ h4,
    dictSetdefault_of_has _ _ _ h5]

theorem timeline_chain_fix (B tl : List (String × Value))
    (h : (normSub B "audio" normAudioSeg >>= fun tl =>
        normSub tl "video" normVideoSeg >>= fun tl =>
        normSub tl "transcript" normTransSeg >>= fun tl =>
        normSub tl "scoreDips" normScoreItem >>= fun tl =>
        normSub tl "scorePeaks" normScoreItem) = .ok tl) :
    prepareTimeline (vDict tl) = .ok tl := by
  rw [bind_eq_exBind, exBind_ok] at h
  obtain ⟨t1, h1, h⟩ := h
  rw [bind_eq_exBind, exBind_ok] at h
  obtain ⟨t2, h2, h⟩ := h
  rw [bind_eq_exBind, exBind_ok] at h
  obtain ⟨t3, h3, h⟩ := h
  rw [bind_eq_exBind, exBind_ok] at h
  obtain ⟨t4, h4, h⟩ := h
  obtain ⟨i1, n1, hp1, hm1, e1⟩ := normSub_ok _ _ _ _ h1
  obtain ⟨i2, n2, hp2, hm2, e2⟩ := normSub_ok _ _ _ _ h2
  obtain ⟨i3, n3, hp3, hm3, e3⟩ := normSub_ok _ _ _ _ h3
  obtain ⟨i4, n4, hp4, hm4, e4⟩ := normSub_ok _ _ _ _ h4
  obtain ⟨i5, n5, hp5, hm5, e5⟩ := normSub_ok _ _ _ _ h
  subst e1 e2 e3 e4 e5
  have g1 : dictGet? (dictSet (dictSet (dictSet (dictSet (dictSet B
      "audio" (vList n1)) "video" (vList n2)) "transcript" (vList n3))
      "scoreDips" (vList n4)) "scorePeaks" (vList n5)) "audio" =
      some (vList n1) := by
    rw [dictGet?_set_ne _ _ _ _ (by decide : ("audio" : String) ≠ "scorePeaks"),
      dictGet?_set_ne _ _ _ _ (by decide : ("audio" : String) ≠ "scoreDips"),
      dictGet?_set_ne _ _ _ _ (by decide : ("audio" : String) ≠ "transcript"),
      dictGet?_set_ne _ _ _ _ (by decide : ("audio" : String) ≠ "video"),
      dictGet?_set_self]
  have g2 : dictGet? (dictSet (dictSet (dictSet (dictSet (dictSet B
      "audio" (vList n1)) "video" (vList n2)) "transcript" (vList n3))
      "scoreDips" (vList n4)) "scorePeaks" (vList n5)) "video" =
      some (vList n2) := by
    rw [dictGet?_set_ne _ _ _ _ (by decide : ("video" : String) ≠ "scorePeaks"),
      dictGet?_set_ne _ _ _ _ (by decide : ("video" : String) ≠ "scoreDips"),
      dictGet?_set_ne _ _ _ _ (by decide : ("video" : String) ≠ "transcript"),
      dictGet?_set_self]
  have g3 : dictGet? (dictSet (dictSet (dictSet (dictSet (dictSet B
      "audio" (vList n1)) "video" (vList n2)) "transcript" (vList n3))
      "scoreDips" (vList n4)) "scorePeaks" (vList n5)) "transcript" =
      some (vList n3) := by
    rw [dictGet?_set_ne _ _ _ _
        (by decide : ("transcript" : String) ≠ "scorePeaks"),
      dictGet?_set_ne _ _ _ _ (by decide : ("transcript" : String) ≠ "scoreDips"),
      dictGet?_set_self]
  have g4 : dictGet? (dictSet (dictSet (dictSet (dictSet (dictSet B
      "audio" (vList n1)) "video" (vList n2)) "transcript" (vList n3))
      "scoreDips" (vList n4)) "scorePeaks" (vList n5)) "scoreDips" =
      some (vList n4) := by
    rw [dictGet?_set_ne _ _ _ _
        (by decide : ("scoreDips" : String) ≠ "scorePeaks"),
      dictGet?_set_self]
  have g5 : dictGet? (dictSet (dictSet (dictSet (dictSet (dictSet B
      "audio" (vList n1)) "video" (vList n2)) "transcript" (vList n3))
      "scoreDips" (vList n4)) "scorePeaks" (vList n5)) "scorePeaks" =
      some (vList n5) := by
    rw [dictGet?_set_self]
  have fix1 : ∀ y ∈ n1, normAudioSeg y = .ok y := by
    intro y hy
    obtain ⟨x, _, hx⟩ := exMapM_ok_mem _ _ _ hm1 y hy
    exact normAudioSeg_fix x y hx
  have fix2 : ∀ y ∈ n2, normVideoSeg y = .ok y := by
    intro y hy
    obtain ⟨x, _, hx⟩ := exMapM_ok_mem _ _ _ hm2 y hy
    exact normVideoSeg_fix x y hx
  have fix3 : ∀ y ∈ n3, normTransSeg y = .ok y := by
    intro y hy
    obtain ⟨x, _, hx⟩ := exMapM_ok_mem _ _ _ hm3 y hy
    exact normTransSeg_fix x y hx
  have fix4 : ∀ y ∈ n4, normScoreItem y = .ok y := by
    intro y hy
    obtain ⟨x, _, hx⟩ := exMapM_ok_mem _ _ _ hm4 y hy
    exact normScoreItem_fix x y hx
  have fix5 : ∀ y ∈ n5, normScoreItem y = .ok y := by
    intro y hy
    obtain ⟨x, _, hx⟩ := exMapM_ok_mem _ _ _ hm5 y hy
    exact normScoreItem_fix x y hx
  unfold prepareTimeline
  dsimp only []
  rw [timelineSetdefaults_of_has _ (dictHas_of_get _ _ _ g1)
    (dictHas_of_get _ _ _ g2) (dictHas_of_get _ _ _ g3)
    (dictHas_of_get _ _ _ g4) (dictHas_of_get _ _ _ g5)]
  rw [bind_eq_exBind, exBind_ok]
  refine ⟨_, normSub_fix _ _ _ _ g1 fix1, ?_⟩
  rw [bind_eq_exBind, exBind_ok]
  refine ⟨_, normSub_fix _ _ _ _ g2 fix2, ?_⟩
  rw [bind_eq_exBind, exBind_ok]
  refine ⟨_, normSub_fix _ _ _ _ g3 fix3, ?_⟩
  rw [bind_eq_exBind, exBind_ok]
  refine ⟨_, normSub_fix _ _ _ _ g4 fix4, ?_⟩
  exact normSub_fix _ _ _ _ g5 fix5

theorem prepareTimeline_fix (tlv : Value) (tl : List (String × Value))
    (h : prepareTimeline tlv = .ok tl) :
    prepareTimeline (vDict tl) = .ok tl := by
  cases tlv with
  | vDict t => exact timeline_chain_fix (timelineSetdefaults t) tl h
  | vNone => exact timeline_chain_fix (timelineSetdefaults []) tl h
  | vBool b => exact timeline_chain_fix (timelineSetdefaults []) tl h
  | vInt n => exact timeline_chain_fix (timelineSetdefaults []) tl h
  | vFloat q => exact timeline_chain_fix (timelineSetdefaults []) tl h
  | vStr s => exact timeline_chain_fix (timelineSetdefaults []) tl h
  | vList xs => exact timeline_chain_fix (timelineSetdefaults []) tl h
  | vDateTime ms => exact timeline_chain_fix (timelineSetdefaults []) tl h
  | vObjectId s => exact timeline_chain_fix (timelineSetdefaults []) tl h

theorem prepareMetrics_fix_list (ms : List Value)
    (hfix : ∀ y ∈ ms, normMetric y = .ok y) :
    prepareMetrics (vList ms) = .ok ms := by
  unfold prepareMetrics
  cases ms with
  | nil => rfl
  | cons m t =>
      rw [pyOr_of_truthy (vList (m :: t)) (vList []) rfl]
      rw [bind_eq_exBind, exBind_ok]
      exact ⟨m :: t, rfl, exMapM_fix _ _ hfix⟩

theorem dictHas_setdefault_self2 (es : List (String × Value)) (k : String)
    (v : Value) : dictHas (dictSetdefault es k v) k = true := by
  unfold dictHas
  rw [dictGet?_setdefault_self]
  rfl

theorem dictHas_setdefault_ne2 (es : List (String × Value)) (k k' : String)
    (v : Value) (h : k' ≠ k) :
    dictHas (dictSetdefault es k v) k' = dictHas es k' := by
  unfold dictHas
  rw [dictGet?_setdefault_ne _ _ _ _ h]

theorem dictHas_set_ne2 (es : List (String × Value)) (k k' : String)
    (v : Value) (h : k' ≠ k) :
    dictHas (dictSet es k v) k' = dictHas es k' := by
  unfold dictHas
  rw [dictGet?_set_ne _ _ _ _ h]

theorem dictHas_stringifyIds_ne (ds : List (String × Value)) (k : String)
    (h1 : k ≠ "mentorId") (h2 : k ≠ "userId") :
    dictHas (stringifyIds ds) k = dictHas ds k := by
  unfold dictHas
  rw [dictGet?_stringifyIds_ne _ _ h1 h2]

theorem idNameUrl_has_sessionId (ds : List (String × Value)) :
    dictHas (idNameUrl ds) "sessionId" = true := by
  unfold idNameUrl
  dsimp only []
  rw [dictHas_setdefault_ne2 _ _ _ _
      (by decide : ("sessionId" : String) ≠ "videoUrl"),
    dictHas_setdefault_ne2 _ _ _ _
      (by decide : ("sessionId" : String) ≠ "sessionName"),
    dictHas_setdefault_self2]

theorem idNameUrl_has_sessionName (ds : List (String × Value)) :
    dictHas (idNameUrl ds) "sessionName" = true := by
  unfold idNameUrl
  dsimp only []
  rw [dictHas_setdefault_ne2 _ _ _ _
      (by decide : ("sessionName" : String) ≠ "videoUrl"),
    dictHas_setdefault_self2]

theorem idNameUrl_has_videoUrl (ds : List (String × Value)) :
    dictHas (idNameUrl ds) "videoUrl" = true := by
  unfold idNameUrl
  dsimp only []
  rw [dictHas_setdefault_self2]

theorem idNameUrl_of_has (ds : List (String × Value))
    (h1 : dictHas ds "sessionId" = true) (h2 : dictHas ds "sessionName" = true)
    (h3 : dictHas ds "videoUrl" = true) : idNameUrl ds = ds := by
  unfold idNameUrl
  dsimp only []
  rw [dictSetdefault_of_has _ _ _ h1]
  rw [dictSetdefault_of_has _ _ _ h2]
  rw [dictSetdefault_of_has _ _ _ h3]

theorem durationOf_int (ds : List (String × Value)) (d : Int)
    (h : dictGet? ds "duration" = some (vInt d)) : durationOf ds = d := by
  unfold durationOf
  have hv : dictGetV ds "duration" = vInt d := by
    unfold dictGetV
    rw [h]
    rfl
  rw [hv]
  exact intStab1 d

theorem strIdSet_fix (ds : List (String × Value)) (k : String)
    (hk : ∀ v, dictGet? ds k = some v → ∃ s, v = vStr s) :
    (if dictHas ds k then dictSet ds k (vStr (pyStr (dictGetV ds k)))
      else ds) = ds := by
  by_cases h1 : dictHas ds k = true
  · rw [if_pos h1]
    obtain ⟨v, hv⟩ : ∃ v, dictGet? ds k = some v := by
      unfold dictHas at h1
      cases hg : dictGet? ds k with
      | some w => exact ⟨w, rfl⟩
      | none => rw [hg] at h1; cases h1
    obtain ⟨s, hs⟩ := hk v hv
    subst hs
    have hgv : dictGetV ds k = vStr s := by
      unfold dictGetV
      rw [hv]
      rfl
    rw [hgv]
    exact dictSet_eq_of_get ds k (vStr s) hv
  · rw [if_neg h1]

theorem stringifyIds_fix (ds : List (String × Value))
    (hm : ∀ v, dictGet? ds "mentorId" = some v → ∃ s, v = vStr s)
    (hu : ∀ v, dictGet? ds "userId" = some v → ∃ s, v = vStr s) :
    stringifyIds ds = ds := by
  unfold stringifyIds
  dsimp only []
  rw [strIdSet_fix ds "mentorId" hm]
  exact strIdSet_fix ds "userId" hu

theorem stringifyIds_mentor_str (ds : List (String × Value)) (v : Value)
    (hv : dictGet? (stringifyIds ds) "mentorId" = some v) : ∃ s, v = vStr s := by
  unfold stringifyIds at hv
  dsimp only [] at hv
  by_cases h1 : dictHas ds "mentorId" = true
  · rw [if_pos h1] at hv
    by_cases h2 : dictHas (dictSet ds "mentorId"
        (vStr (pyStr (dictGetV ds "mentorId")))) "userId" = true
    · rw [if_pos h2, dictGet?_set_ne _ _ _ _
        (by decide : ("mentorId" : String) ≠ "userId"), dictGet?_set_self] at hv
      injection hv with hv
      exact ⟨_, hv.symm⟩
    · rw [if_neg h2, dictGet?_set_self] at hv
      injection hv with hv
      exact ⟨_, hv.symm⟩
  · rw [if_neg h1] at hv
    have hn : dictGet? ds "mentorId" = none :=
      dictGet?_eq_none_of_not_has ds "mentorId" (eq_false_of_ne_true h1)
    by_cases h2 : dictHas ds "userId" = true
    · rw [if_pos h2, dictGet?_set_ne _ _ _ _
        (by decide : ("mentorId" : String) ≠ "userId"), hn] at hv
      cases hv
    · rw [if_neg h2, hn] at hv
      cases hv

theorem stringifyIds_user_str (ds : List (String × Value)) (v : Value)
    (hv : dictGet? (stringifyIds ds) "userId" = some v) : ∃ s, v = vStr s := by
  unfold stringifyIds at hv
  dsimp only [] at hv
  by_cases h1 : dictHas ds "mentorId" = true
  · rw [if_pos h1] at hv
    by_cases h2 : dictHas (dictSet ds "mentorId"
        (vStr (pyStr (dictGetV ds "mentorId")))) "userId" = true
    · rw [if_pos h2, dictGet?_set_self] at hv
      injection hv with hv
      exact ⟨_, hv.symm⟩
    · rw [if_neg h2] at hv
      have hn : dictGet? (dictSet ds "mentorId"
          (vStr (pyStr (dictGetV ds "mentorId")))) "userId" = none :=
        dictGet?_eq_none_of_not_has _ "userId" (eq_false_of_ne_true h2)
      rw [hn] at hv
      cases hv
  · rw [if_neg h1] at hv
    by_cases h2 : dictHas ds "userId" = true
    · rw [if_pos h2, dictGet?_set_self] at hv
      injection hv with hv
      exact ⟨_, hv.symm⟩
    · rw [if_neg h2] at hv
      have hn : dictGet? ds "userId" = none :=
        dictGet?_eq_none_of_not_has ds "userId" (eq_false_of_ne_true h2)
      rw [hn] at hv
      cases hv

theorem dictSetdefault_ne_nil (es : List (String × Value)) (k : String)
    (v : Value) : dictSetdefault es k v ≠ [] := by
  unfold dictSetdefault
  by_cases h : dictHas es k
  · rw [if_pos h]
    cases es with
    | nil => exact Bool.noConfusion h
    | cons p t => exact List.cons_ne_nil p t
  · rw [if_neg h]
    simp

theorem vDict_truthy_of_ne_nil (es : List (String × Value)) (h : es ≠ []) :
    (vDict es).truthy = true := by
  cases es with
  | nil => exact absurd rfl h
  | cons p t => rfl

theorem prepareCore_fix (ds' : List (String × Value))
    (tli : List (String × Value)) (ms : List Value) (d : Int)
    (hsid : dictHas ds' "sessionId" = true)
    (hsn : dictHas ds' "sessionName" = true)
    (hvu : dictHas ds' "videoUrl" = true)
    (hdur : dictGet? ds' "duration" = some (vInt d))
    (htlg : dictGet? ds' "timeline" = some (vDict tli))
    (htlf : prepareTimeline (vDict tli) = .ok tli)
    (hmsg : dictGet? ds' "metrics" = some (vList ms))
    (hmsf : prepareMetrics (vList ms) = .ok ms)
    (hmid : ∀ v, dictGet? ds' "mentorId" = some v → ∃ s, v = vStr s)
    (huid : ∀ v, dictGet? ds' "userId" = some v → ∃ s, v = vStr s)
    (hwm : dictHas ds' "weakMoments" = true) :
    prepareCore ds' = .ok (vDict ds') := by
  have hid : idNameUrl ds' = ds' := idNameUrl_of_has ds' hsid hsn hvu
  unfold prepareCore
  dsimp only []
  rw [hid, durationOf_int ds' d hdur,
    dictSet_eq_of_get ds' "duration" (vInt d) hdur]
  have hgtv : dictGetV ds' "timeline" = vDict tli := by
    unfold dictGetV
    rw [htlg]
    rfl
  rw [hgtv, htlf, ok_bind,
    dictSet_eq_of_get ds' "timeline" (vDict tli) htlg]
  have hgd : dictGetD ds' "metrics" (vList []) = vList ms := by
    unfold dictGetD
    rw [hmsg]
    rfl
  rw [hgd, hmsf, ok_bind,
    dictSet_eq_of_get ds' "metrics" (vList ms) hmsg,
    stringifyIds_fix ds' hmid huid,
    dictSetdefault_of_has ds' "weakMoments" _ hwm]
  rfl

theorem prepareCore_fix_of_structure (ds0 : List (String × Value))
    (tli : List (String × Value)) (ms : List Value)
    (htlf : prepareTimeline (vDict tli) = .ok tli)
    (hmsf : prepareMetrics (vList ms) = .ok ms) :
    prepareCore (dictSetdefault (stringifyIds (dictSet (dictSet (dictSet
      (idNameUrl ds0) "duration" (vInt (durationOf (idNameUrl ds0))))
      "timeline" (vDict tli)) "metrics" (vList ms))) "weakMoments"
      (dictGetD (stringifyIds (dictSet (dictSet (dictSet (idNameUrl ds0)
        "duration" (vInt (durationOf (idNameUrl ds0)))) "timeline"
        (vDict tli)) "metrics" (vList ms))) "weakMoments" (vList []))) =
    .ok (vDict (dictSetdefault (stringifyIds (dictSet (dictSet (dictSet
      (idNameUrl ds0) "duration" (vInt (durationOf (idNameUrl ds0))))
      "timeline" (vDict tli)) "metrics" (vList ms))) "weakMoments"
      (dictGetD (stringifyIds (dictSet (dictSet (dictSet (idNameUrl ds0)
        "duration" (vInt (durationOf (idNameUrl ds0)))) "timeline"
        (vDict tli)) "metrics" (vList ms))) "weakMoments" (vList [])))) := by
  refine prepareCore_fix _ tli ms (durationOf (idNameUrl ds0))
    ?_ ?_ ?_ ?_ ?_ htlf ?_ hmsf ?_ ?_ ?_
  · rw [dictHas_setdefault_ne2 _ _ _ _
      (by decide : ("sessionId" : String) ≠ "weakMoments"),
      dictHas_stringifyIds_ne _ _ (by decide) (by decide),
      dictHas_set_ne2 _ _ _ _ (by decide : ("sessionId" : String) ≠ "metrics"),
      dictHas_set_ne2 _ _ _ _ (by decide : ("sessionId" : String) ≠ "timeline"),
      dictHas_set_ne2 _ _ _ _ (by decide : ("sessionId" : String) ≠ "duration"),
      idNameUrl_has_sessionId]
  · rw [dictHas_setdefault_ne2 _ _ _ _
      (by decide : ("sessionName" : String) ≠ "weakMoments"),
      dictHas_stringifyIds_ne _ _ (by decide) (by decide),
      dictHas_set_ne2 _ _ _ _ (by decide : ("sessionName" : String) ≠ "metrics"),
      dictHas_set_ne2 _ _ _ _ (by decide : ("sessionName" : String) ≠ "timeline"),
      dictHas_set_ne2 _ _ _ _ (by decide : ("sessionName" : String) ≠ "duration"),
      idNameUrl_has_sessionName]
  · rw [dictHas_setdefault_ne2 _ _ _ _
      (by decide : ("videoUrl" : String) ≠ "weakMoments"),
      dictHas_stringifyIds_ne _ _ (by decide) (by decide),
      dictHas_set_ne2 _ _ _ _ (by decide : ("videoUrl" : String) ≠ "metrics"),
      dictHas_set_ne2 _ _ _ _ (by decide : ("videoUrl" : String) ≠ "timeline"),
      dictHas_set_ne2 _ _ _ _ (by decide : ("videoUrl" : String) ≠ "duration"),
      idNameUrl_has_videoUrl]
  · rw [dictGet?_setdefault_ne _ _ _ _
      (by decide : ("duration" : String) ≠ "weakMoments"),
      dictGet?_stringifyIds_ne _ _ (by decide) (by decide),
      dictGet?_set_ne _ _ _ _ (by decide : ("duration" : String) ≠ "metrics"),
      dictGet?_set_ne _ _ _ _ (by decide : ("duration" : String) ≠ "timeline"),
      dictGet?_set_self]
  · rw [dictGet?_setdefault_ne _ _ _ _
      (by decide : ("timeline" : String) ≠ "weakMoments"),
      dictGet?_stringifyIds_ne _ _ (by decide) (by decide),
      dictGet?_set_ne _ _ _ _ (by decide : ("timeline" : String) ≠ "metrics"),
      dictGet?_set_self]
  · rw [dictGet?_setdefault_ne _ _ _ _
      (by decide : ("metrics" : String) ≠ "weakMoments"),
      dictGet?_stringifyIds_ne _ _ (by decide) (by decide),
      dictGet?_set_self]
  · intro v hv
    rw [dictGet?_setdefault_ne _ _ _ _
      (by decide : ("mentorId" : String) ≠ "weakMoments")] at hv
    exact stringifyIds_mentor_str _ v hv
  · intro v hv
    rw [dictGet?_setdefault_ne _ _ _ _
      (by decide : ("userId" : String) ≠ "weakMoments")] at hv
    exact stringifyIds_user_str _ v hv
  · exact dictHas_setdefault_self2 _ _ _

set_option maxHeartbeats 3200000 in
/-- C5 (amended): `prepare_for_insert` is NOT idempotent in general — an
invalid `$oid` envelope is replaced by its raw payload without recursing,
so a second pass can unwrap envelopes the first pass re-exposed (see the
counterexample).  It IS idempotent on every successfully normalized
document that is free of Extended-JSON wrapper keys: if the normalizer
returns `doc` and `doc` is wrapper-free, then normalizing `doc` returns
`doc` itself. -/
theorem c5_idempotent_on_clean_outputs (raw doc : Value)
    (h : prepare_for_insert raw = .ok doc) (hcl : Clean doc = true) :
    prepare_for_insert doc = .ok doc := by
  obtain ⟨ds0, hu, hc⟩ := prepare_ok_core raw doc h
  obtain ⟨tli, ms, htl, hms, hdoc⟩ := prepareCore_ok_structure ds0 doc hc
  have htlf := prepareTimeline_fix _ _ htl
  have hmsf : prepareMetrics (vList ms) = .ok ms := by
    have hms2 := hms
    unfold prepareMetrics at hms2
    rw [bind_eq_exBind, exBind_ok] at hms2
    obtain ⟨items, hit, hms2⟩ := hms2
    refine prepareMetrics_fix_list ms (fun y hy => ?_)
    obtain ⟨x, _, hx⟩ := exMapM_ok_mem _ _ _ hms2 y hy
    exact normMetric_fix x y hx
  have hfix := prepareCore_fix_of_structure ds0 tli ms htlf hmsf
  have hne := dictSetdefault_ne_nil (stringifyIds (dictSet (dictSet (dictSet
    (idNameUrl ds0) "duration" (vInt (durationOf (idNameUrl ds0)))) "timeline"
    (vDict tli)) "metrics" (vList ms))) "weakMoments"
    (dictGetD (stringifyIds (dictSet (dictSet (dictSet (idNameUrl ds0)
      "duration" (vInt (durationOf (idNameUrl ds0)))) "timeline"
      (vDict tli)) "metrics" (vList ms))) "weakMoments" (vList []))
  generalize hL : dictSetdefault (stringifyIds (dictSet (dictSet (dictSet
    (idNameUrl ds0) "duration" (vInt (durationOf (idNameUrl ds0)))) "timeline"
    (vDict tli)) "metrics" (vList ms))) "weakMoments"
    (dictGetD (stringifyIds (dictSet (dictSet (dictSet (idNameUrl ds0)
      "duration" (vInt (durationOf (idNameUrl ds0)))) "timeline"
      (vDict tli)) "metrics" (vList ms))) "weakMoments" (vList [])) = L
    at hdoc hfix hne
  subst hdoc
  unfold prepare_for_insert
  have htr := vDict_truthy_of_ne_nil L hne
  rw [bind_eq_exBind, pyOr_of_truthy _ _ htr, unwrap_clean _ hcl]
  exact hfix

/-- A minimal raw document for the C5 witness. -/
def c5WitnessRaw : Value := vDict [("sessionId", vStr "a")]

/-- Its normalized form: wrapper-free and a fixed point of the
normalizer. -/
def c5WitnessDoc : Value := vDict
  [("sessionId", vStr "a"),
   ("sessionName", vStr "Session a"),
   ("videoUrl", vStr ""),
   ("duration", vInt 0),
   ("timeline", vDict
     [("audio", vList []), ("video", vList []), ("transcript", vList []),
      ("scoreDips", vList []), ("scorePeaks", vList [])]),
   ("metrics", vList []),
   ("weakMoments", vList [])]

/-- Witness for C5: a concrete normalized wrapper-free document on which
normalization is the identity. -/
theorem c5_idempotent_on_clean_outputs_witness :
    prepare_for_insert c5WitnessRaw = .ok c5WitnessDoc ∧
    Clean c5WitnessDoc = true ∧
    prepare_for_insert c5WitnessDoc = .ok c5WitnessDoc :=
  ⟨by decide, by decide,
   c5_idempotent_on_clean_outputs c5WitnessRaw c5WitnessDoc (by decide)
     (by decide)⟩

/-! ### Counterexamples for the corrected claims -/

/-- C1 counterexample:  `prepare_for_insert` does raise on malformed
input — a truthy non-mapping inside `metrics` hits an uncaught
`AttributeError` (models.py:791), and a boxed-int envelope with a
non-numeric payload hits an uncaught `ValueError` (models.py:616). -/
theorem c1_prepare_raises_counterexample :
    (prepare_for_insert (vDict [("metrics", vList [vStr "x"])])).isOk = false ∧
      (prepare_for_insert
        (vDict [("x", vDict [("$numberInt", vStr "abc")])])).isOk = false := by
  constructor <;> rfl

/-- C2 counterexample:  an input timeline key other than the five named
ones is preserved, so the returned timeline does not contain *exactly*
the five sub-sequences. -/
theorem c2_extra_timeline_key_counterexample :
    okKey (prepare_for_insert (vDict [("timeline", vDict [("zz", vInt 5)])]))
        "timeline" =
      some (vDict
        [("zz", vInt 5),
         ("audio", vList []),
         ("video", vList []),
         ("transcript", vList []),
         ("scoreDips", vList []),
         ("scorePeaks", vList [])]) := by
  rfl

/-- C3 counterexample:  a metric score of 150 is written out as 150 (no
clamping into [0, 100]), and a confidence interval `[120, -5]` is kept
as-is — outside [0, 100] and with low > high. -/
theorem c3_no_clamping_counterexample :
    okKey (prepare_for_insert (vDict [("metrics", vList
        [vDict [("name", vStr "A"), ("score", vInt 150),
                ("confidenceInterval", vList [vInt 120, vInt (-5)])]])]))
        "metrics" =
      some (vList
        [vDict [("name", vStr "A"), ("score", vInt 150),
                ("confidenceInterval", vList [vInt 120, vInt (-5)]),
                ("whatHelped", vList []), ("whatHurt", vList [])]]) := by
  rfl

/-- C5 counterexample:  `prepare_for_insert` is not idempotent.  An
invalid `$oid` envelope returns its payload *without* unwrapping it
(models.py:627), so `{"foo": {"$oid": {"$numberInt": "5"}}}` normalizes
to `{"foo": {"$numberInt": "5"}, ...}` on the first pass and to
`{"foo": 5, ...}` on the second. -/
theorem c5_not_idempotent_counterexample :
    ((prepare_for_insert (vDict [("foo", vDict [("$oid",
          vDict [("$numberInt", vStr "5")])])])).bind prepare_for_insert ≠
        prepare_for_insert (vDict [("foo", vDict [("$oid",
          vDict [("$numberInt", vStr "5")])])])) ∧
      okKey (prepare_for_insert (vDict [("foo", vDict [("$oid",
          vDict [("$numberInt", vStr "5")])])])) "foo" =
        some (vDict [("$numberInt", vStr "5")]) ∧
      okKey ((prepare_for_insert (vDict [("foo", vDict [("$oid",
          vDict [("$numberInt", vStr "5")])])])).bind prepare_for_insert)
          "foo" = some (vInt 5) := by
  refine ⟨?_, rfl, rfl⟩
  decide

/-- C6 counterexample:  `duration` is coerced with a bare `int()`
(models.py:664), so a negative input stays negative — it is not forced
to be non-negative. -/
theorem c6_negative_duration_counterexample :
    okKey (prepare_for_insert (vDict [("duration", vInt (-5))])) "duration" =
      some (vInt (-5)) := by
  rfl

/-- C7 counterexample:  on a stored document whose `duration` is the
truthy non-numeric string `"abc"`, the effective `normalize_for_api`
does not fall back to the derivation chain ending in 0 — the final
`int(duration or 0)` (models.py:1142) raises. -/
theorem c7_projector_raises_counterexample :
    (normalize_for_api
      (vDict [("sessionId", vStr "s1"), ("duration", vStr "abc")])).isOk =
      false := by
  rfl

/-- A fully populated session document with non-empty `weakMoments`,
whose metrics all carry non-empty feedback (so metric-feedback
backfilling is a no-op on it). -/
def c8InputDoc : Value := vDict
  [("sessionId", vStr "s1"),
   ("timeline", vDict
     [("audio", vList [vDict []]), ("video", vList [vDict []]),
      ("transcript", vList [vDict []]), ("scoreDips", vList [vDict []]),
      ("scorePeaks", vList [vDict []])]),
   ("metrics", vList [vDict
     [("name", vStr "A"), ("score", vInt 1),
      ("whatHelped", vList [vStr "x"]), ("whatHurt", vList [vStr "y"])]]),
   ("weakMoments", vList [vDict
     [("timestamp", vStr "00:00:01"), ("message", vStr "m")]])]

/-- C8 counterexample:  the two `normalize_for_api` definitions differ
on an input where metric-feedback backfilling is irrelevant (feedback
already populated, generation unavailable): the first definition emits
`weakMoments`, the effective second definition does not.  So the second
is not "the first plus backfilling" — in fact the backfilling (and the
synthesis, and `weakMoments`) live only in the *first* definition. -/
theorem c8_definitions_differ_counterexample :
    (normalize_for_api c8InputDoc ≠
        normalize_for_api_first c8InputDoc .noKey .noKey) ∧
      okKey (normalize_for_api_first c8InputDoc .noKey .noKey) "weakMoments" =
        some (vList [vDict [("timestamp", vStr "00:00:01"),
          ("message", vStr "m")]]) ∧
      okKey (normalize_for_api c8InputDoc) "weakMoments" = none ∧
      okKey (normalize_for_api c8InputDoc) "metrics" =
        okKey (normalize_for_api_first c8InputDoc .noKey .noKey) "metrics" := by
  refine ⟨by decide, rfl, rfl, rfl⟩

/-- A record whose `metrics` is non-empty (one metric with empty
`whatHelped` and non-empty `whatHurt`) and whose timeline is empty. -/
def c4InputDoc : Value := vDict
  [("timeline", vDict
     [("audio", vList []), ("video", vList []), ("transcript", vList []),
      ("scoreDips", vList []), ("scorePeaks", vList [])]),
   ("metrics", vList [vDict
     [("name", vStr "Clarity"), ("score", vInt 50),
      ("whatHelped", vList []), ("whatHurt", vList [vStr "x"])]])]

/-- A synthesized response carrying feedback for the metric `Clarity`. -/
def c4GenValue : Value := vDict
  [("metrics", vList [vDict
     [("name", vStr "Clarity"), ("whatHelped", vList [vStr "h"]),
      ("whatHurt", vList [vStr "z"])]])]

/-- C4 counterexample:  the gap filler does change a *non-empty*
sub-collection: with `metrics` non-empty, `fill_missing_fields_with_gemini`
still rewrites it (filling the metric's empty `whatHelped`), so the
non-empty `metrics` collection is not left unchanged.  (The non-empty
`whatHurt` inside is preserved.) -/
theorem c4_metrics_changed_counterexample :
    getKey (fill_missing_fields c4InputDoc (.success c4GenValue)) "metrics" ≠
        getKey c4InputDoc "metrics" ∧
      getKey c4InputDoc "metrics" = some (vList [vDict
        [("name", vStr "Clarity"), ("score", vInt 50),
         ("whatHelped", vList []), ("whatHurt", vList [vStr "x"])]]) ∧
      getKey (fill_missing_fields c4InputDoc (.success c4GenValue)) "metrics" =
        some (vList [vDict
          [("name", vStr "Clarity"), ("score", vInt 50),
           ("whatHelped", vList [vStr "h"]), ("whatHurt", vList [vStr "x"])]]) := by
  refine ⟨by decide, rfl, rfl⟩

/-- C10 counterexample:  a mapping-shaped metrics entry can also be
skipped — `{"name": "X", "score": "abc"}` raises inside the per-entry
`try` (models.py:1234) and is dropped, so the output is not exactly the
coercions of the mapping-shaped entries. -/
theorem c10_mapping_entry_skipped_counterexample :
    okKey (normalize_for_api (vDict [("sessionId", vStr "s1"),
        ("metrics", vList [vDict [("name", vStr "X"), ("score", vStr "abc")]])]))
        "metrics" = some (vList []) ∧
      isDict (vDict [("name", vStr "X"), ("score", vStr "abc")]) = true := by
  exact ⟨rfl, rfl⟩

end MentorScoring
